import Mathlib

/-!
# mkshot-z audio subsystem: channels, mixer façade and the ME watcher

A shallow embedding of `src/audio/audiostream.cpp` (the Channel, `AudioStream`),
`src/audio/audio.cpp` (the Mixer, `AudioPrivate` / `Audio`, and the ME watcher
`meWatchFun`), `src/audio/sdlsoundsource.cpp` (`SDLSoundSource::fillBuffer`) and
the `Color` class of `src/etc/etc.cpp`.

Conventions of the embedding.

* `float` values are rationals (exact arithmetic); `int` values are integers.
  A division by zero, which gives an infinity in C++, is excluded by hypothesis
  wherever a statement depends on the quotient.
* Every operation is a function from the state before the call to the state
  after it.  An operation that can throw returns the state it leaves behind
  together with the exception, if any.
* A worker thread is represented by one function per loop iteration; the time
  the iteration reads from the clock is an argument.  `SDL_WaitThread` on a
  worker that has not returned yet runs the worker's remaining iteration.
* `trace` is a ghost field: the mutating calls issued on the channel's
  `ALStream`, each with whether the channel's mutex was held at that moment.
-/

/-! ## Values that live in headers outside the source tree -/

/-- The build constants and the decoder oracle the audio code reads.
`GLOBAL_VOLUME` and `AUDIO_SLEEP` are macros of an absent header, `canOpen`
says for which file names `ALStream::open` finds a decodable source. -/
structure Env where
  GLOBAL_VOLUME : ℚ
  AUDIO_SLEEP : Nat
  canOpen : String → Bool

/-- The `clamp<int>` template of `util.h`. -/
def clamp (x lo hi : Int) : Int :=
  if x < lo then lo else if hi < x then hi else x

/-- The exceptions the audio code throws or lets through. -/
inductive Exception where
  /-- `Exception::MKXPError`, "requested BGM track %d out of range (max: %d)". -/
  | MKXPError (index : Int) (max : Int)
  /-- The failure `ALStream::open` throws when no source can be created. -/
  | SDLError (filename : String)
  deriving DecidableEq, Repr

/-! ## ALStream -/

namespace ALStream

/-- The enum `ALStream::State` of `alstream.h`. -/
inductive State where
  | Closed
  | Stopped
  | Playing
  | Paused
  deriving DecidableEq, Repr

end ALStream

/-- The part of `struct ALStream` (alstream.h) the channel code observes: the
lifecycle state, the open source, the pitch, and the gain of the AL source. -/
structure ALStream where
  state : ALStream.State
  source : Option String
  pitch : ℚ
  gain : ℚ
  deriving DecidableEq, Repr

namespace ALStream

/-- Modelled from the spec: `ALStream::queryState` (alstream.cpp is absent),
"queryState returns the current state". -/
def queryState (s : ALStream) : State := s.state

/-- Modelled from the spec: `ALStream::stop` (alstream.cpp is absent),
"Playing/Paused → stop(): halt backend playback and discard queued buffers;
state → Stopped"; no other transition is documented for it. -/
def stop (s : ALStream) : ALStream :=
  match s.state with
  | .Playing => { s with state := .Stopped }
  | .Paused => { s with state := .Stopped }
  | .Stopped => s
  | .Closed => s

/-- Modelled from the spec: `ALStream::close` (alstream.cpp is absent),
"Stopped/Paused/Playing → close(): stop playback if active, release the
Decodable Source and backend resources, state → Closed". -/
def close (s : ALStream) : ALStream :=
  match s.state with
  | .Closed => s
  | .Stopped => { s with state := .Closed, source := none }
  | .Playing => { s with state := .Closed, source := none }
  | .Paused => { s with state := .Closed, source := none }

/-- Modelled from the spec: `ALStream::open` (alstream.cpp is absent),
"Closed → open(file): acquire a Decodable Source, ..., state → Stopped.
Failure (source cannot be created/decoded) leaves state Closed and signals a
decode-error condition to the caller."  The boolean is `false` when the call
throws.  On a stream that is not Closed the source is released first. -/
def open_ (canOpen : String → Bool) (filename : String) (s : ALStream) : ALStream × Bool :=
  if canOpen filename then
    ({ s.close with state := .Stopped, source := some filename }, true)
  else
    (s.close, false)

/-- Modelled from the spec: `ALStream::play` (alstream.cpp is absent),
"Stopped → play(offset): ... state → Playing" and "Paused → play(...): resumes
or rewinds; state → Playing"; nothing is documented for Closed or Playing. -/
def play (_offset : ℚ) (s : ALStream) : ALStream :=
  match s.state with
  | .Stopped => { s with state := .Playing }
  | .Paused => { s with state := .Playing }
  | .Playing => s
  | .Closed => s

/-- Modelled from the spec: `ALStream::pause` (alstream.cpp is absent),
"Playing → pause(): pause backend playback, state → Paused"; no other
transition is documented for it. -/
def pause (s : ALStream) : ALStream :=
  match s.state with
  | .Playing => { s with state := .Paused }
  | .Paused => s
  | .Stopped => s
  | .Closed => s

/-- Modelled from the spec: `ALStream::setVolume` (alstream.cpp is absent),
"setVolume/setPitch take effect immediately if a source is open". -/
def setVolume (value : ℚ) (s : ALStream) : ALStream :=
  match s.state with
  | .Closed => s
  | _ => { s with gain := value }

/-- Modelled from the spec: `ALStream::setPitch` (alstream.cpp is absent),
"setVolume/setPitch take effect immediately if a source is open". -/
def setPitch (value : ℚ) (s : ALStream) : ALStream :=
  match s.state with
  | .Closed => s
  | _ => { s with pitch := value }

end ALStream

/-- A mutating call on a channel's `ALStream`, as recorded in the ghost trace. -/
inductive StreamOp where
  | stop
  | close
  | opened (filename : String)
  | play (offset : ℚ)
  | pause
  | setVolume (value : ℚ)
  | setPitch (value : ℚ)
  deriving DecidableEq, Repr

/-! ## AudioStream (the Channel) -/

namespace AudioStream

/-- Modelled from the spec: the enum `AudioStream::VolumeType` of the absent
`audiostream.h`.  The spec names the factors Base, FadeIn, FadeOut and
External; `audio.cpp` addresses one more slot of the same array, `BaseRatio`.
`VolumeTypeCount` is the number of enumerators, so `volumes` has one slot for
each of them. -/
inductive VolumeType where
  | Base
  | BaseRatio
  | FadeOut
  | FadeIn
  | External
  deriving DecidableEq, Repr

/-- The anonymous struct `current` of `AudioStream`. -/
structure Current where
  filename : String
  volume : ℚ
  pitch : ℚ
  deriving DecidableEq, Repr

/-- The anonymous struct `fade` of `AudioStream`: the fade-out worker.
`thread` is whether the handle is non-null.  `active` is set before the worker
is created and cleared when its function returns, so it also tells whether the
worker is still running. -/
structure Fade where
  thread : Bool
  active : Bool
  reqFini : Bool
  reqTerm : Bool
  msStep : ℚ
  deriving DecidableEq, Repr

/-- The anonymous struct `fadeIn` of `AudioStream`: the fade-in worker.
`running` is a ghost flag: the worker's function has not returned yet. -/
structure FadeIn where
  thread : Bool
  rqFini : Bool
  rqTerm : Bool
  running : Bool
  deriving DecidableEq, Repr

end AudioStream

/-- The struct `AudioStream`.  `lockDepth` is the recursive mutex `streamMut`
(how many times it is held); `trace` is the ghost record of stream calls. -/
structure AudioStream where
  current : AudioStream.Current
  volumes : AudioStream.VolumeType → ℚ
  extPaused : Bool
  noResumeStop : Bool
  stream : ALStream
  fade : AudioStream.Fade
  fadeIn : AudioStream.FadeIn
  lockDepth : Nat
  trace : List (StreamOp × Bool)

namespace AudioStream

/-- `AudioStream::lockStream`. -/
def lockStream (c : AudioStream) : AudioStream :=
  { c with lockDepth := c.lockDepth + 1 }

/-- `AudioStream::unlockStream`. -/
def unlockStream (c : AudioStream) : AudioStream :=
  { c with lockDepth := c.lockDepth - 1 }

/-- Ghost: append a stream call to the trace, with whether the mutex is held. -/
def record (op : StreamOp) (c : AudioStream) : AudioStream :=
  { c with trace := c.trace ++ [(op, decide (0 < c.lockDepth))] }

/-- The call `stream.stop()`. -/
def streamStop (c : AudioStream) : AudioStream :=
  { c.record .stop with stream := c.stream.stop }

/-- The call `stream.close()`. -/
def streamClose (c : AudioStream) : AudioStream :=
  { c.record .close with stream := c.stream.close }

/-- The call `stream.open(filename)`; the boolean is `false` when it throws. -/
def streamOpen (env : Env) (filename : String) (c : AudioStream) : AudioStream × Bool :=
  ({ c.record (.opened filename) with stream := (c.stream.open_ env.canOpen filename).1 },
    (c.stream.open_ env.canOpen filename).2)

/-- The call `stream.play(offset)`. -/
def streamPlay (offset : ℚ) (c : AudioStream) : AudioStream :=
  { c.record (.play offset) with stream := c.stream.play offset }

/-- The call `stream.pause()`. -/
def streamPause (c : AudioStream) : AudioStream :=
  { c.record .pause with stream := c.stream.pause }

/-- The call `stream.setPitch(value)`. -/
def streamSetPitch (value : ℚ) (c : AudioStream) : AudioStream :=
  { c.record (.setPitch value) with stream := c.stream.setPitch value }

/-- `AudioStream::updateVolume`: `GLOBAL_VOLUME` times every slot of
`volumes`, in the order of the enum, pushed to the stream. -/
def updateVolume (env : Env) (c : AudioStream) : AudioStream :=
  let vol := [VolumeType.Base, .BaseRatio, .FadeOut, .FadeIn, .External].foldl
    (fun vol i => vol * c.volumes i) env.GLOBAL_VOLUME
  { c.record (.setVolume vol) with stream := c.stream.setVolume vol }

/-- `AudioStream::setVolume`. -/
def setVolume (env : Env) (type : VolumeType) (value : ℚ) (c : AudioStream) : AudioStream :=
  updateVolume env { c with volumes := fun t => if t = type then value else c.volumes t }

/-- `AudioStream::getVolume`. -/
def getVolume (type : VolumeType) (c : AudioStream) : ℚ :=
  c.volumes type

end AudioStream

/-- How a call ends: it returns, it throws, or an `assert` fails. -/
inductive Outcome where
  | ok
  | threw (e : Exception)
  | aborted
  deriving DecidableEq, Repr

namespace AudioStream

/-- One pass of the loop of `AudioStream::fadeOutThread`, followed by
`fade.active.clear()` when the pass leaves the loop.  `curDur` is the value of
`SDL_GetTicks() - fade.startTicks`; the boolean tells whether the loop goes on. -/
def fadeOutThread (env : Env) (curDur : Nat) (c : AudioStream) : AudioStream × Bool :=
  if c.fade.reqTerm then
    ({ c with fade := { c.fade with active := false } }, false)
  else
    let c := c.lockStream
    let resVol : ℚ := 1 - (curDur : ℚ) * c.fade.msStep
    let state := c.stream.queryState
    if state ≠ .Playing ∨ resVol < 0 ∨ c.fade.reqFini = true then
      let c := if state ≠ .Paused then c.streamStop else c
      let c := c.setVolume env .FadeOut 1
      let c := c.unlockStream
      ({ c with fade := { c.fade with active := false } }, false)
    else
      let c := c.setVolume env .FadeOut resVol
      (c.unlockStream, true)

/-- One pass of the loop of `AudioStream::fadeInThread`; `cur` is the value of
`SDL_GetTicks() - fadeIn.startTicks`; the boolean tells whether the loop goes
on.  Leaving the loop ends the worker (`running` is cleared). -/
def fadeInThread (env : Env) (cur : Nat) (c : AudioStream) : AudioStream × Bool :=
  if c.fadeIn.rqTerm then
    ({ c with fadeIn := { c.fadeIn with running := false } }, false)
  else
    let c := c.lockStream
    let prog : ℚ := (cur : ℚ) / 1000
    let state := c.stream.queryState
    if state ≠ .Playing ∨ 1 ≤ prog ∨ c.fadeIn.rqFini = true then
      let c := c.setVolume env .FadeIn 1
      let c := c.unlockStream
      ({ c with fadeIn := { c.fadeIn with running := false } }, false)
    else
      let c := c.setVolume env .FadeIn (prog * prog)
      (c.unlockStream, true)

/-- `AudioStream::finiFadeOutInt`.  `SDL_WaitThread` returns once the worker's
function has returned: a worker that is still running sees the finish request
on its next pass and leaves its loop there (the clock value of that pass is
immaterial and taken as 0); a worker that has already returned is only reaped. -/
def finiFadeOutInt (env : Env) (c : AudioStream) : AudioStream :=
  let c :=
    if c.fade.thread then
      let c := { c with fade := { c.fade with reqFini := true } }
      let c := if c.fade.active then (c.fadeOutThread env 0).1 else c
      { c with fade := { c.fade with thread := false } }
    else c
  if c.fadeIn.thread then
    let c := { c with fadeIn := { c.fadeIn with rqFini := true } }
    let c := if c.fadeIn.running then (c.fadeInThread env 0).1 else c
    { c with fadeIn := { c.fadeIn with thread := false } }
  else c

/-- `AudioStream::startFadeIn`; `none` when `assert(!fadeIn.thread)` fails. -/
def startFadeIn (c : AudioStream) : Option AudioStream :=
  if c.fadeIn.thread then none
  else some { c with fadeIn := { thread := true, rqFini := false, rqTerm := false, running := true } }

/-- The tail of `AudioStream::play`, from `setVolume(Base, _volume)` on
(lines 134 to 152). -/
def playTail (env : Env) (filename : String) (_volume _pitch offset : ℚ)
    (c : AudioStream) : AudioStream × Outcome :=
  let c := c.setVolume env .Base _volume
  let c := c.streamSetPitch _pitch
  let faded : Option AudioStream :=
    if 0 < offset then (c.setVolume env .FadeIn 0).startFadeIn else some c
  match faded with
  | none => (c.setVolume env .FadeIn 0, .aborted)
  | some c =>
    let c := { c with current := { filename := filename, volume := _volume, pitch := _pitch } }
    let c := if !c.extPaused then c.streamPlay offset else { c with noResumeStop := false }
    (c.unlockStream, .ok)

/-- The `case ALStream::Closed` arm of the switch in `AudioStream::play`,
followed by the rest of the function. -/
def playClosed (env : Env) (filename : String) (_volume _pitch offset : ℚ)
    (diffFile : Bool) (c : AudioStream) : AudioStream × Outcome :=
  if diffFile then
    match c.streamOpen env filename with
    | (c, false) => (c.unlockStream, .threw (.SDLError filename))
    | (c, true) => c.playTail env filename _volume _pitch offset
  else c.playTail env filename _volume _pitch offset

/-- The `case ALStream::Stopped` arm of the switch in `AudioStream::play`,
which falls through to the Closed arm. -/
def playStopped (env : Env) (filename : String) (_volume _pitch offset : ℚ)
    (diffFile : Bool) (c : AudioStream) : AudioStream × Outcome :=
  playClosed env filename _volume _pitch offset diffFile
    (if diffFile then c.streamClose else c)

/-- `AudioStream::play`. -/
def play (env : Env) (filename : String) (volume pitch : Int) (offset : ℚ)
    (c : AudioStream) : AudioStream × Outcome :=
  let c := c.finiFadeOutInt env
  let c := c.lockStream
  let _volume : ℚ := (clamp volume 0 100 : ℚ) / 100
  let _pitch : ℚ := (clamp pitch 50 150 : ℚ) / 100
  let sState := c.stream.queryState
  if filename = c.current.filename ∧ _volume = c.current.volume ∧ _pitch = c.current.pitch
      ∧ (sState = .Playing ∨ sState = .Paused) then
    (c.unlockStream, .ok)
  else if filename = c.current.filename ∧ (sState = .Playing ∨ sState = .Paused) then
    let c := c.setVolume env .Base _volume
    let c := c.streamSetPitch _pitch
    let c := { c with current := { c.current with volume := _volume, pitch := _pitch } }
    (c.unlockStream, .ok)
  else
    let diffFile : Bool := decide (filename ≠ c.current.filename)
    match sState with
    | .Paused => playStopped env filename _volume _pitch offset diffFile c.streamStop
    | .Playing => playStopped env filename _volume _pitch offset diffFile c.streamStop
    | .Stopped => playStopped env filename _volume _pitch offset diffFile c
    | .Closed => playClosed env filename _volume _pitch offset diffFile c

/-- `AudioStream::stop`. -/
def stop (env : Env) (c : AudioStream) : AudioStream :=
  let c := c.finiFadeOutInt env
  let c := c.lockStream
  let c := { c with noResumeStop := true }
  let c := c.streamStop
  c.unlockStream

/-- `AudioStream::fadeOut`.  The wait on a stale worker handle (lines 197 to
202) is reached only with `fade.active` clear, that is after the worker's
function has returned, so it only reaps the handle. -/
def fadeOut (duration : Int) (c : AudioStream) : AudioStream :=
  let c := c.lockStream
  let sState := c.stream.queryState
  let c := { c with noResumeStop := true }
  if c.fade.active then c.unlockStream
  else if sState = .Paused then c.streamStop.unlockStream
  else if sState ≠ .Playing then c.unlockStream
  else
    let c :=
      if c.fade.thread then { c with fade := { c.fade with reqFini := true, thread := false } }
      else c
    let c := { c with fade := { thread := true, active := true, reqFini := false,
                                reqTerm := false, msStep := 1 / (duration : ℚ) } }
    c.unlockStream

/-- `AudioStream::seek`. -/
def seek (offset : ℚ) (c : AudioStream) : AudioStream :=
  (c.lockStream.streamPlay offset).unlockStream

/-- The constructor `AudioStream::AudioStream`. -/
def new : AudioStream where
  current := { filename := "", volume := 1, pitch := 1 }
  volumes := fun _ => 1
  extPaused := false
  noResumeStop := false
  stream := { state := .Closed, source := none, pitch := 1, gain := 1 }
  fade := { thread := false, active := false, reqFini := false, reqTerm := false, msStep := 0 }
  fadeIn := { thread := false, rqFini := false, rqTerm := false, running := false }
  lockDepth := 0
  trace := []

end AudioStream

/-! ## AudioPrivate and Audio (the Mixer) -/

namespace AudioPrivate

/-- The enum `AudioPrivate::MeWatchState`. -/
inductive MeWatchState where
  | MeNotPlaying
  | BgmFadingOut
  | MePlaying
  | BgmFadingIn
  deriving DecidableEq, Repr

/-- The anonymous struct `volume` of `AudioPrivate`. -/
structure Volume where
  bgm : Int
  sfx : Int
  bgmTracksCurrent : List Int
  bgsCurrent : Int
  meCurrent : Int
  deriving DecidableEq, Repr

end AudioPrivate

/-- The struct `AudioPrivate`, without the sound emitter and the sync point
(neither is touched by the BGM façade or the watcher).  `meWatchState` is
`meWatch.state`. -/
structure AudioPrivate where
  bgmTracks : List AudioStream
  bgs : AudioStream
  me : AudioStream
  volume : AudioPrivate.Volume
  meWatchState : AudioPrivate.MeWatchState

namespace AudioPrivate

/-- The constructor `AudioPrivate::AudioPrivate` for `config.BGM.trackCount`. -/
def new (trackCount : Int) : AudioPrivate where
  bgmTracks := List.replicate trackCount.toNat AudioStream.new
  bgs := AudioStream.new
  me := AudioStream.new
  volume := { bgm := 100, sfx := 100, bgmTracksCurrent := List.replicate trackCount.toNat 100,
              bgsCurrent := 100, meCurrent := 100 }
  meWatchState := .MeNotPlaying

/-- `AudioPrivate::getTrackByIndex`: the position of the track returned, or
the exception thrown. -/
def getTrackByIndex (p : AudioPrivate) (index : Int) : Except Exception Nat :=
  let index := if index < 0 then 0 else index
  if index > (p.bgmTracks.length : Int) - 1 then
    .error (.MKXPError index ((p.bgmTracks.length : Int) - 1))
  else .ok index.toNat

/-- `AudioPrivate::setTrackCurrentVolumeByIndex`. -/
def setTrackCurrentVolumeByIndex (p : AudioPrivate) (index : Int) (volume : Int) :
    Except Exception AudioPrivate :=
  let index := if index < 0 then 0 else index
  if index > (p.bgmTracks.length : Int) - 1 then
    .error (.MKXPError index ((p.bgmTracks.length : Int) - 1))
  else
    .ok { p with volume := { p.volume with
            bgmTracksCurrent := p.volume.bgmTracksCurrent.set index.toNat (clamp volume 0 100) } }

/-- Run a channel operation on the track at position `i`. -/
def onTrack (f : AudioStream → AudioStream) (i : Nat) (p : AudioPrivate) : AudioPrivate :=
  { p with bgmTracks := p.bgmTracks.modify f i }

end AudioPrivate

namespace Audio

open AudioPrivate

/-- The loop of `Audio::bgmPlay` for the sentinel track: every index from 0 to
`size - 1` in turn, index 0 skipped, `stop()` on the others. -/
def bgmPlayStopLoop (env : Env) (p : AudioPrivate) : AudioPrivate :=
  (List.range p.bgmTracks.length).foldl
    (fun p i => if i = 0 then p else p.onTrack (AudioStream.stop env) i) p

/-- `Audio::bgmPlay`. -/
def bgmPlay (env : Env) (filename : String) (volume pitch : Int) (pos : ℚ) (track : Int)
    (p : AudioPrivate) : AudioPrivate × Outcome :=
  let vol := clamp volume 0 100
  let p := if track = -127 then bgmPlayStopLoop env p else p
  let track := if track = -127 then 0 else track
  match p.setTrackCurrentVolumeByIndex track vol with
  | .error e => (p, .threw e)
  | .ok p =>
    match p.getTrackByIndex track with
    | .error e => (p, .threw e)
    | .ok i =>
      match p.bgmTracks[i]? with
      | none => (p, .aborted)
      | some t =>
        let r := t.play env filename ((vol * p.volume.bgm).tdiv 100) pitch pos
        ({ p with bgmTracks := p.bgmTracks.set i r.1 }, r.2)

/-- `Audio::bgmStop`. -/
def bgmStop (env : Env) (track : Int) (p : AudioPrivate) : AudioPrivate × Outcome :=
  if track = -127 then
    ({ p with bgmTracks := p.bgmTracks.map (AudioStream.stop env) }, .ok)
  else
    match p.getTrackByIndex track with
    | .error e => (p, .threw e)
    | .ok i => (p.onTrack (AudioStream.stop env) i, .ok)

/-- `Audio::bgmFade`. -/
def bgmFade (time : Int) (track : Int) (p : AudioPrivate) : AudioPrivate × Outcome :=
  if track = -127 then
    ({ p with bgmTracks := p.bgmTracks.map (AudioStream.fadeOut time) }, .ok)
  else
    match p.getTrackByIndex track with
    | .error e => (p, .threw e)
    | .ok i => (p.onTrack (AudioStream.fadeOut time) i, .ok)

/-- The conversion of `getVolume(...) * 100` to the `int` a getter returns
(truncation towards zero). -/
def toInt (x : ℚ) : Int :=
  if 0 ≤ x then ⌊x⌋ else ⌈x⌉

/-- `Audio::bgmGetVolume`: the value returned, or how the call fails
(`aborted`: `bgmTracks[0]` on a mixer without tracks). -/
def bgmGetVolume (track : Int) (p : AudioPrivate) : Except Outcome Int :=
  if track = -127 then
    match p.bgmTracks[0]? with
    | none => .error .aborted
    | some t => .ok (toInt (t.getVolume .BaseRatio * 100))
  else
    match p.getTrackByIndex track with
    | .error e => .error (.threw e)
    | .ok i =>
      match p.bgmTracks[i]? with
      | none => .error .aborted
      | some t => .ok (toInt (t.getVolume .Base * 100))

/-- `Audio::bgmSetVolume`. -/
def bgmSetVolume (env : Env) (volume : Int) (track : Int) (p : AudioPrivate) :
    AudioPrivate × Outcome :=
  let vol : ℚ := (clamp volume 0 100 : ℚ) / 100
  if track = -127 then
    ({ p with bgmTracks := p.bgmTracks.map (AudioStream.setVolume env .BaseRatio vol) }, .ok)
  else
    match p.setTrackCurrentVolumeByIndex track (clamp volume 0 100) with
    | .error e => (p, .threw e)
    | .ok p =>
      match p.getTrackByIndex track with
      | .error e => (p, .threw e)
      | .ok i => (p.onTrack (AudioStream.setVolume env .Base (vol * (p.volume.bgm : ℚ) / 100)) i, .ok)

/-- The body of the track loop of `Audio::setGlobalBGMVolume` for the track at
position `i`. -/
def setGlobalTrack (env : Env) (bgm : Int) (current : List Int) (i : Nat)
    (track : AudioStream) : AudioStream :=
  ((track.lockStream).setVolume env .Base
    (((bgm * (current.getD i 0) : Int) : ℚ) / 10000)).unlockStream

/-- `Audio::setGlobalBGMVolume`. -/
def setGlobalBGMVolume (env : Env) (value : Int) (p : AudioPrivate) : AudioPrivate :=
  let bgm := clamp value 0 100
  let p := { p with volume := { p.volume with bgm := bgm } }
  let tracks := p.bgmTracks.enum.map
    (fun (it : Nat × AudioStream) => setGlobalTrack env bgm p.volume.bgmTracksCurrent it.1 it.2)
  let p := { p with bgmTracks := tracks }
  { p with me := ((p.me.lockStream).setVolume env .Base
      (((bgm * p.volume.meCurrent : Int) : ℚ) / 10000)).unlockStream }

end Audio

/-! ## The ME watcher -/

namespace AudioPrivate

/-- The constant `fadeOutStep` of `meWatchFun`: `1.f / (200 / AUDIO_SLEEP)`,
the inner division being the integer one.  The value agrees with the C++ one
when `200 / AUDIO_SLEEP` is not 0, which the statements that depend on it
assume. -/
def fadeOutStep (env : Env) : ℚ := 1 / ((200 / env.AUDIO_SLEEP : Nat) : ℚ)

/-- The constant `fadeInStep` of `meWatchFun`: `1.f / (1000 / AUDIO_SLEEP)`. -/
def fadeInStep (env : Env) : ℚ := 1 / ((1000 / env.AUDIO_SLEEP : Nat) : ℚ)

/-- The body of the track loop of the `BgmFadingOut` case for index `i`
(lines 165 to 191), on the pair of the track vector and `shouldBreak`. -/
def fadingOutBody (env : Env) (acc : List AudioStream × Bool) (i : Nat) :
    List AudioStream × Bool :=
  match acc.1[i]? with
  | none => acc
  | some track =>
    let track := track.lockStream
    let vol := track.getVolume .External - fadeOutStep env
    if vol < 0 ∨ track.stream.queryState ≠ .Playing then
      let track := ((track.setVolume env .External 0).streamPause).unlockStream
      let tracks := acc.1.set i track
      let playingTracks := tracks.filter (fun t => decide (t.stream.queryState = .Playing))
      let shouldBreak := if playingTracks.length ≤ 0 ∧ acc.2 = false then true else acc.2
      (tracks, shouldBreak)
    else
      (acc.1.set i ((track.setVolume env .External vol).unlockStream), acc.2)

/-- The body of the track loop of the `MePlaying` case once the ME has ended
(lines 213 to 233): the track afterwards and the value assigned to
`meWatch.state`. -/
def meEndedTrack (env : Env) (track : AudioStream) : AudioStream × MeWatchState :=
  let track := track.lockStream
  let track := { track with extPaused := false }
  let sState := track.stream.queryState
  if sState = .Paused then
    ((track.streamPlay 0).unlockStream, .BgmFadingIn)
  else
    let track := track.setVolume env .External 1
    let track := if !track.noResumeStop then track.streamPlay 0 else track
    (track.unlockStream, .MeNotPlaying)

/-- One pass of the `while` loop of `AudioPrivate::meWatchFun` (the `switch`
on `meWatch.state`); `none` when the pass indexes `bgmTracks[0]` on an empty
vector. -/
def meWatchFun (env : Env) (p : AudioPrivate) : Option AudioPrivate :=
  match p.meWatchState with
  | .MeNotPlaying =>
    let me := p.me.lockStream
    if me.stream.queryState = .Playing then
      some { p with
        bgmTracks := p.bgmTracks.map (fun track => { track with extPaused := true })
        meWatchState := .BgmFadingOut
        me := me.unlockStream }
    else
      some { p with me := me.unlockStream }
  | .BgmFadingOut =>
    let me := p.me.lockStream
    if me.stream.queryState ≠ .Playing then
      some { p with me := me.unlockStream, meWatchState := .BgmFadingIn }
    else
      let r := (List.range p.bgmTracks.length).foldl (fadingOutBody env) (p.bgmTracks, false)
      if r.2 then
        some { p with bgmTracks := r.1, meWatchState := .MePlaying, me := me.unlockStream }
      else
        some { p with bgmTracks := r.1, me := me.unlockStream }
  | .MePlaying =>
    let me := p.me.lockStream
    if me.stream.queryState ≠ .Playing then
      let rs := p.bgmTracks.map (meEndedTrack env)
      some { p with
        bgmTracks := rs.map Prod.fst
        meWatchState := rs.foldl (fun _ r => r.2) p.meWatchState
        me := me.unlockStream }
    else
      some { p with me := me.unlockStream }
  | .BgmFadingIn =>
    let tracks := p.bgmTracks.map AudioStream.lockStream
    match tracks with
    | [] => none
    | track0 :: _ =>
      if track0.stream.queryState = .Stopped then
        some { p with
          bgmTracks := (tracks.map (AudioStream.setVolume env .External 1)).map
            AudioStream.unlockStream
          meWatchState := .MeNotPlaying }
      else
        let me := p.me.lockStream
        if me.stream.queryState = .Playing then
          some { p with
            bgmTracks := (tracks.map (fun track => { track with extPaused := true })).map
              AudioStream.unlockStream
            meWatchState := .BgmFadingOut
            me := me.unlockStream }
        else
          let vol := track0.getVolume .External + fadeInStep env
          let full : Bool := decide (1 ≤ vol)
          let vol := if full then 1 else vol
          some { p with
            bgmTracks := (tracks.map (AudioStream.setVolume env .External vol)).map
              AudioStream.unlockStream
            meWatchState := if full then .MeNotPlaying else p.meWatchState
            me := me.unlockStream }

/-- The watcher thread left alone for `n` passes of its loop. -/
def meWatchRun (env : Env) : Nat → AudioPrivate → Option AudioPrivate
  | 0, p => some p
  | n + 1, p => (meWatchFun env p).bind (meWatchRun env n)

end AudioPrivate

/-! ## SDLSoundSource (the Decodable Source adapter) -/

namespace SDLSoundSource

/-- The bits of `sample->flags` that `fillBuffer` tests:
`SOUND_SAMPLEFLAG_EAGAIN`, `SOUND_SAMPLEFLAG_ERROR`, `SOUND_SAMPLEFLAG_EOF`. -/
structure Flags where
  eagain : Bool
  error : Bool
  eof : Bool
  deriving DecidableEq, Repr

/-- The `Sound_Sample` of SDL_sound as `fillBuffer` uses it.  The decoder is
the library's: `decoder k` is what the call number `k` of `Sound_Decode`
returns (the byte count) and the flags it leaves.  `calls` and `rewinds` count
the calls of `Sound_Decode` and `Sound_Rewind` made so far. -/
structure Sample where
  decoder : Nat → Nat × Flags
  calls : Nat
  flags : Flags
  rewinds : Nat

/-- The library call `Sound_Decode(sample)`: the sample afterwards and the
number of bytes decoded. -/
def Sound_Decode (s : Sample) : Sample × Nat :=
  ({ s with calls := s.calls + 1, flags := (s.decoder s.calls).2 }, (s.decoder s.calls).1)

/-- The library call `Sound_Rewind(sample)`, counted; `fillBuffer` reads nothing
of the sample after it. -/
def Sound_Rewind (s : Sample) : Sample :=
  { s with rewinds := s.rewinds + 1 }

/-- The enum `ALDataSource::Status`, with the enumerators `fillBuffer` returns. -/
inductive Status where
  | NoError
  | EndOfStream
  | WrapAround
  | Error
  deriving DecidableEq, Repr

end SDLSoundSource

/-- The struct `SDLSoundSource`: the sample, the loop flag, and as a ghost
field the sizes passed to `AL::Buffer::uploadData`, in order. -/
structure SDLSoundSource where
  sample : SDLSoundSource.Sample
  looped : Bool
  uploads : List Nat

namespace SDLSoundSource

/-- The part of `SDLSoundSource::fillBuffer` after the decode (lines 107 to
125): the error test, the upload, the end-of-file test. -/
def fillBufferTail (src : SDLSoundSource) (decoded : Nat) : SDLSoundSource × Status :=
  if src.sample.flags.error then (src, .Error)
  else
    let src := { src with uploads := src.uploads ++ [decoded] }
    if src.sample.flags.eof then
      if src.looped then ({ src with sample := Sound_Rewind src.sample }, .WrapAround)
      else (src, .EndOfStream)
    else (src, .NoError)

/-- `SDLSoundSource::fillBuffer`. -/
def fillBuffer (src : SDLSoundSource) : SDLSoundSource × Status :=
  let first := Sound_Decode src.sample
  if first.1.flags.eagain then
    let second := Sound_Decode first.1
    if second.1.flags.eagain then ({ src with sample := second.1 }, .Error)
    else fillBufferTail { src with sample := second.1 } second.2
  else fillBufferTail { src with sample := first.1 } first.2

end SDLSoundSource

/-! ## The lock calls of the watcher -/

/-- A call of `lockStream` / `unlockStream` the watcher makes, on the ME
channel or on the BGM track with the given index. -/
inductive LockEvent where
  | lockMe
  | unlockMe
  | lockTrack (i : Nat)
  | unlockTrack (i : Nat)
  deriving DecidableEq, Repr

namespace AudioPrivate

/-- The `lockStream` / `unlockStream` calls of one pass of `meWatchFun`, in
program order.  `MeNotPlaying`: lines 133 and 144.  `BgmFadingOut`: 151, then
156 or, per track, 167 and 176/191, then 196/200.  `MePlaying`: 207, per
track 213 and 233, then 237.  `BgmFadingIn`: 245 for every track, then 254 for
every track, or 259, 267/287 and 269/289 for every track; with no track the
pass stops at `bgmTracks[0]`. -/
def meWatchLocks (p : AudioPrivate) : List LockEvent :=
  match p.meWatchState with
  | .MeNotPlaying => [.lockMe, .unlockMe]
  | .BgmFadingOut =>
    if p.me.stream.state ≠ .Playing then [.lockMe, .unlockMe]
    else
      .lockMe :: ((List.range p.bgmTracks.length).flatMap
        (fun i => [LockEvent.lockTrack i, LockEvent.unlockTrack i]) ++ [.unlockMe])
  | .MePlaying =>
    if p.me.stream.state ≠ .Playing then
      .lockMe :: ((List.range p.bgmTracks.length).flatMap
        (fun i => [LockEvent.lockTrack i, LockEvent.unlockTrack i]) ++ [.unlockMe])
    else [.lockMe, .unlockMe]
  | .BgmFadingIn =>
    match p.bgmTracks with
    | [] => []
    | track0 :: _ =>
      (List.range p.bgmTracks.length).map LockEvent.lockTrack ++
        (if track0.stream.state = .Stopped then
          (List.range p.bgmTracks.length).map LockEvent.unlockTrack
        else
          [.lockMe, .unlockMe] ++ (List.range p.bgmTracks.length).map LockEvent.unlockTrack)

end AudioPrivate

/-- Reading a sequence of lock calls with the ME mutex held `meHeld` times and
`tracksHeld` track mutexes held: whether some track mutex is acquired while
the ME mutex is held (ME before track), and whether the ME mutex is acquired
while a track mutex is held (track before ME). -/
def lockOrderFrom : Nat → Nat → List LockEvent → Bool × Bool
  | _, _, [] => (false, false)
  | meHeld, tracksHeld, .lockMe :: es =>
    ((lockOrderFrom (meHeld + 1) tracksHeld es).1,
      (lockOrderFrom (meHeld + 1) tracksHeld es).2 || decide (0 < tracksHeld))
  | meHeld, tracksHeld, .unlockMe :: es => lockOrderFrom (meHeld - 1) tracksHeld es
  | meHeld, tracksHeld, .lockTrack _ :: es =>
    ((lockOrderFrom meHeld (tracksHeld + 1) es).1 || decide (0 < meHeld),
      (lockOrderFrom meHeld (tracksHeld + 1) es).2)
  | meHeld, tracksHeld, .unlockTrack _ :: es => lockOrderFrom meHeld (tracksHeld - 1) es

/-- Some track mutex is acquired while the ME mutex is held. -/
def meBeforeTrack (log : List LockEvent) : Bool := (lockOrderFrom 0 0 log).1

/-- The ME mutex is acquired while some track mutex is held. -/
def trackBeforeMe (log : List LockEvent) : Bool := (lockOrderFrom 0 0 log).2

/-- The acquisitions in a sequence of lock calls, read with the ME mutex held
`meHeld` times and `tracksHeld` track mutexes held: for every `lockStream`
call, in order, the mutex it takes (`none` for the ME channel, `some i` for
BGM track `i`), and how often the ME mutex and how many track mutexes are
held at that moment. -/
def acquisitionsFrom : Nat → Nat → List LockEvent → List (Option Nat × Nat × Nat)
  | _, _, [] => []
  | meHeld, tracksHeld, .lockMe :: es =>
    (none, meHeld, tracksHeld) :: acquisitionsFrom (meHeld + 1) tracksHeld es
  | meHeld, tracksHeld, .unlockMe :: es => acquisitionsFrom (meHeld - 1) tracksHeld es
  | meHeld, tracksHeld, .lockTrack i :: es =>
    (some i, meHeld, tracksHeld) :: acquisitionsFrom meHeld (tracksHeld + 1) es
  | meHeld, tracksHeld, .unlockTrack _ :: es => acquisitionsFrom meHeld (tracksHeld - 1) es

/-- How often the ME mutex and how many track mutexes are held after a
sequence of lock calls. -/
def heldAfter : Nat → Nat → List LockEvent → Nat × Nat
  | meHeld, tracksHeld, [] => (meHeld, tracksHeld)
  | meHeld, tracksHeld, .lockMe :: es => heldAfter (meHeld + 1) tracksHeld es
  | meHeld, tracksHeld, .unlockMe :: es => heldAfter (meHeld - 1) tracksHeld es
  | meHeld, tracksHeld, .lockTrack _ :: es => heldAfter meHeld (tracksHeld + 1) es
  | meHeld, tracksHeld, .unlockTrack _ :: es => heldAfter meHeld (tracksHeld - 1) es

/-! ## The ME façade -/

namespace Audio

/-- `Audio::mePlay`; the call of `play` leaves the offset to its default, 0. -/
def mePlay (env : Env) (filename : String) (volume pitch : Int) (p : AudioPrivate) :
    AudioPrivate × Outcome :=
  let vol := clamp volume 0 100
  let p := { p with volume := { p.volume with meCurrent := vol } }
  let r := p.me.play env filename ((vol * p.volume.bgm).tdiv 100) pitch 0
  ({ p with me := r.1 }, r.2)

/-- `Audio::meStop`. -/
def meStop (env : Env) (p : AudioPrivate) : AudioPrivate :=
  { p with me := p.me.stop env }

end Audio

/-! ## Color (etc.cpp) -/

/-- The `clamp<double>` template of `util.h`, on exact values. -/
def clampD (x lo hi : ℚ) : ℚ :=
  if x < lo then lo else if hi < x then hi else x

/-- The struct `Vec4` (its header is outside the source tree): four components. -/
structure Vec4 where
  x : ℚ
  y : ℚ
  z : ℚ
  w : ℚ
  deriving DecidableEq, Repr

/-- The struct `Color`: the four components as given, and the normalised
vector `norm`.  `double` values are rationals. -/
structure Color where
  red : ℚ
  green : ℚ
  blue : ℚ
  alpha : ℚ
  norm : Vec4
  deriving DecidableEq, Repr

namespace Color

/-- `Color::updateInternal`. -/
def updateInternal (c : Color) : Color :=
  { c with norm := ⟨c.red / 255, c.green / 255, c.blue / 255, c.alpha / 255⟩ }

/-- The constructor `Color::Color(double, double, double, double)`; `norm` is
written by `updateInternal`, its value before that is immaterial. -/
def new (red green blue alpha : ℚ) : Color :=
  updateInternal { red := red, green := green, blue := blue, alpha := alpha, norm := ⟨0, 0, 0, 0⟩ }

/-- `Color::set`. -/
def set (red green blue alpha : ℚ) (c : Color) : Color :=
  updateInternal { c with red := red, green := green, blue := blue, alpha := alpha }

/-- `Color::setRed`. -/
def setRed (value : ℚ) (c : Color) : Color :=
  { c with red := value, norm := { c.norm with x := clampD value 0 255 / 255 } }

/-- `Color::setGreen`. -/
def setGreen (value : ℚ) (c : Color) : Color :=
  { c with green := value, norm := { c.norm with y := clampD value 0 255 / 255 } }

/-- `Color::setBlue`. -/
def setBlue (value : ℚ) (c : Color) : Color :=
  { c with blue := value, norm := { c.norm with z := clampD value 0 255 / 255 } }

/-- `Color::setAlpha`. -/
def setAlpha (value : ℚ) (c : Color) : Color :=
  { c with alpha := value, norm := { c.norm with w := clampD value 0 255 / 255 } }

/-- `Color::deserialize`: `data` is the four doubles `readDouble` finds in the
buffer, `len` its length in bytes; `none` when the `ArgumentError` is thrown.
The fields are assigned on a default-constructed `Color`, whose contents are
all overwritten. -/
def deserialize (data : ℚ × ℚ × ℚ × ℚ) (len : Int) : Option Color :=
  if len ≠ 32 then none
  else some (updateInternal
    { red := data.1, green := data.2.1, blue := data.2.2.1, alpha := data.2.2.2,
      norm := ⟨0, 0, 0, 0⟩ })

end Color

/-! ## Runs of a channel -/

namespace AudioStream

/-- A call of the script thread on a channel, or one pass of the loop of one
of its two fade workers. -/
inductive Step where
  | play (filename : String) (volume pitch : Int) (offset : ℚ)
  | stop
  | fadeOut (duration : Int)
  | fadeOutPass (curDur : Nat)
  | fadeInPass (cur : Nat)
  deriving DecidableEq, Repr

/-- The channel after one step; `none` when the `assert` of `startFadeIn`
fails.  A call that throws leaves the channel as the throw finds it.  A worker
makes a pass only while it is running, that is between its creation and the
return of its function. -/
def step (env : Env) (c : AudioStream) : Step → Option AudioStream
  | .play filename volume pitch offset =>
    match c.play env filename volume pitch offset with
    | (_, .aborted) => none
    | (c, _) => some c
  | .stop => some (c.stop env)
  | .fadeOut duration => some (c.fadeOut duration)
  | .fadeOutPass curDur =>
    some (if c.fade.thread ∧ c.fade.active then (c.fadeOutThread env curDur).1 else c)
  | .fadeInPass cur =>
    some (if c.fadeIn.thread ∧ c.fadeIn.running then (c.fadeInThread env cur).1 else c)

/-- A sequence of steps, from left to right. -/
def run (env : Env) : List Step → AudioStream → Option AudioStream
  | [], c => some c
  | s :: steps, c => (c.step env s).bind (run env steps)

/-- Every worker that is running is the one its handle refers to: no running
worker has been dropped by the channel. -/
def WorkersTracked (c : AudioStream) : Prop :=
  (c.fade.active = true → c.fade.thread = true) ∧
    (c.fadeIn.running = true → c.fadeIn.thread = true)

/-- No worker is running and no handle is set. -/
def NoWorker (c : AudioStream) : Prop :=
  c.fade.thread = false ∧ c.fade.active = false ∧
    c.fadeIn.thread = false ∧ c.fadeIn.running = false

end AudioStream

/-! ## Predicates and derived functions used in the statements -/

/-- A stream call that changes the lifecycle state or the source. -/
def StreamOp.isLifecycle : StreamOp → Bool
  | .stop => true
  | .close => true
  | .opened _ => true
  | .play _ => true
  | .pause => true
  | .setVolume _ => false
  | .setPitch _ => false

/-- Between `c` and `c'` the stream kept its lifecycle state and only
`setVolume` / `setPitch` calls were issued on it. -/
structure AudioStream.Quiet (c c' : AudioStream) : Prop where
  state : c'.stream.state = c.stream.state
  trace : ∃ suffix, c'.trace = c.trace ++ suffix ∧ ∀ e ∈ suffix, e.1.isLifecycle = false

/-- The parts of a channel no fade worker touches agree between `c` and `c'`. -/
def AudioStream.Framed (c c' : AudioStream) : Prop :=
  c'.current = c.current ∧ c'.lockDepth = c.lockDepth ∧ c'.extPaused = c.extPaused ∧
    c'.noResumeStop = c.noResumeStop

/-- Follows the spec's words, "primary, stopping all secondary tracks": the
mixer after `stop()` on every track with index 1..N-1. -/
def Audio.stopSecondary (env : Env) (p : AudioPrivate) : AudioPrivate :=
  { p with bgmTracks :=
      match p.bgmTracks with
      | [] => []
      | primary :: secondary => primary :: secondary.map (AudioStream.stop env) }

/-- What the track loop of the `BgmFadingOut` case does to one track: the
track after its round of the loop (lines 167 to 191, without the scan of the
other tracks). -/
def AudioPrivate.fadedTrack (env : Env) (track : AudioStream) : AudioStream :=
  if track.getVolume .External - AudioPrivate.fadeOutStep env < 0 ∨ track.stream.state ≠ .Playing
  then ((track.lockStream.setVolume env .External 0).streamPause).unlockStream
  else (track.lockStream.setVolume env .External
    (track.getVolume .External - AudioPrivate.fadeOutStep env)).unlockStream

/-- The channel when the `switch` of `AudioStream::play` (lines 107 to 132) is
left without a throw: `stop` on a Paused or Playing stream, `close` on a stream
that is not Closed when the file differs, `open` when the file differs. -/
def AudioStream.playSwitch (env : Env) (filename : String) (c : AudioStream) : AudioStream :=
  let diffFile : Bool := decide (filename ≠ c.current.filename)
  let sState := c.stream.queryState
  let c := if sState = .Paused ∨ sState = .Playing then c.streamStop else c
  let c := if sState ≠ .Closed ∧ diffFile = true then c.streamClose else c
  if diffFile then (c.streamOpen env filename).1 else c

/-- Between `c` and `c'` the lifecycle calls `ops` were issued on the stream,
in that order, among any number of `setVolume` / `setPitch` calls. -/
def AudioStream.Issued (ops : List (StreamOp × Bool)) (c c' : AudioStream) : Prop :=
  ∃ suffix, c'.trace = c.trace ++ suffix ∧ suffix.filter (fun e => e.1.isLifecycle) = ops

/-! ## Concrete inputs -/

/-- A build with `GLOBAL_VOLUME = 1`, `AUDIO_SLEEP = 10`, every file decodable. -/
def env0 : Env := ⟨1, 10, fun _ => true⟩

/-- The same build with no decodable file. -/
def closedEnv : Env := ⟨1, 10, fun _ => false⟩

/-- A fresh channel after `play("town.ogg", 80, 100, 0)`. -/
def townChannel : AudioStream :=
  (AudioStream.new.play env0 "town.ogg" 80 100 0).1

/-- The channel `townChannel` 500 ms into `fadeOut(1000)`: the fade-out worker
is running and has set the FadeOut factor to 1/2. -/
def fadingChannel : AudioStream :=
  ((townChannel.fadeOut 1000).fadeOutThread env0 500).1

/-- A fresh channel after `bgmSetVolume(50, -127)`: its `BaseRatio` slot is 1/2. -/
def halfRatioChannel : AudioStream :=
  AudioStream.new.setVolume env0 .BaseRatio (1 / 2)

/-- One BGM track mid-fade-in (External at 0.4) while the ME stream is Playing. -/
def reduckMixer : AudioPrivate where
  bgmTracks := [{ townChannel with
    volumes := fun t => if t = .External then 2 / 5 else townChannel.volumes t }]
  bgs := AudioStream.new
  me := townChannel
  volume := { bgm := 100, sfx := 100, bgmTracksCurrent := [100], bgsCurrent := 100,
              meCurrent := 100 }
  meWatchState := .BgmFadingIn

/-- A mixer with one BGM track that was never played (its stream is Closed)
while the ME stream is Playing. -/
def silentMixer : AudioPrivate :=
  { AudioPrivate.new 1 with me := townChannel }

/-- A mixer with a Playing and a never-played BGM track while the ME stream is
Playing. -/
def duckMixer : AudioPrivate :=
  { AudioPrivate.new 2 with me := townChannel, bgmTracks := [townChannel, AudioStream.new] }

/-- The channel `townChannel` right after `fadeOut(1000)`: Playing, the fade-out
worker started. -/
def fadeStartChannel : AudioStream := townChannel.fadeOut 1000

/-- The channel `townChannel` with its stream paused by the watcher. -/
def pausedChannel : AudioStream := townChannel.lockStream.streamPause.unlockStream

/-- A NotLooped source whose decoder answers try-again once and then reaches
the end of the file with 64 bytes. -/
def retrySource : SDLSoundSource where
  sample :=
    { decoder := fun k => if k = 0 then (0, ⟨true, false, false⟩) else (64, ⟨false, false, true⟩)
      calls := 0
      flags := ⟨false, false, false⟩
      rewinds := 0 }
  looped := false
  uploads := []

/-- A channel as the fade-out of the watcher leaves it: marked as externally
paused, External factor 0. -/
def duckedTrack (c : AudioStream) : AudioStream :=
  { c with extPaused := true, volumes := fun t => if t = .External then 0 else c.volumes t }

/-- What ducking leaves of a mixer with a Playing and a never-played track,
once the ME has ended: track 0 Paused, both tracks marked and with External
factor 0, the ME stream Stopped, the watcher in `MePlaying`. -/
def duckedMixer : AudioPrivate where
  bgmTracks := [duckedTrack pausedChannel, duckedTrack AudioStream.new]
  bgs := AudioStream.new
  me := { townChannel with stream := { townChannel.stream with state := .Stopped } }
  volume := { bgm := 100, sfx := 100, bgmTracksCurrent := [100, 100], bgsCurrent := 100,
              meCurrent := 100 }
  meWatchState := .MePlaying

/-- A mixer built for a track count of 0, with the watcher in `BgmFadingIn`. -/
def emptyFadingInMixer : AudioPrivate :=
  { AudioPrivate.new 0 with meWatchState := .BgmFadingIn }

/-- One BGM track mid-fade-in (External at 0.4) once the ME is over. -/
def fadingInMixer : AudioPrivate :=
  { reduckMixer with me := AudioStream.new }

/-- One BGM track mid-fade-in whose stream has stopped, the ME playing again. -/
def stoppedFadeInMixer : AudioPrivate :=
  { reduckMixer with
    bgmTracks := [{ townChannel with
      stream := { townChannel.stream with state := .Stopped }
      volumes := fun t => if t = .External then 2 / 5 else townChannel.volumes t }] }

/-- The channel `fadeStartChannel` whose stream has reached its end while the
fade-out worker is still running. -/
def endedFadingChannel : AudioStream :=
  { fadeStartChannel with stream := { fadeStartChannel.stream with state := .Stopped } }

/-- A one-track mixer after `setGlobalBGMVolume(50)` and
`bgmPlay("town.ogg", 75, 100, 0, 0)`. -/
def quietTownMixer : AudioPrivate :=
  (Audio.bgmPlay env0 "town.ogg" 75 100 0 0
    (Audio.setGlobalBGMVolume env0 50 (AudioPrivate.new 1))).1

/-- A one-track mixer after `bgmPlay("town.ogg", 80, 100, 0, 0)`. -/
def townMixer : AudioPrivate :=
  (Audio.bgmPlay env0 "town.ogg" 80 100 0 0 (AudioPrivate.new 1)).1

/-- The mixer `townMixer` through a short ME: `mePlay`, one pass of the
watcher, `meStop`, two passes of the watcher. -/
def shortMeMixer : Option AudioPrivate :=
  (AudioPrivate.meWatchFun env0 (Audio.mePlay env0 "fanfare.ogg" 100 100 townMixer).1).bind
    (fun p => AudioPrivate.meWatchRun env0 2 (Audio.meStop env0 p))

/-! ## Facts about the stream and the channel primitives -/

theorem ALStream.setVolume_state (v : ℚ) (s : ALStream) : (s.setVolume v).state = s.state := by
  unfold ALStream.setVolume; split <;> simp_all

theorem ALStream.setPitch_state (v : ℚ) (s : ALStream) : (s.setPitch v).state = s.state := by
  unfold ALStream.setPitch; split <;> simp_all

theorem ALStream.setPitch_pitch (v : ℚ) (s : ALStream) (h : s.state ≠ .Closed) :
    (s.setPitch v).pitch = v := by
  unfold ALStream.setPitch; split <;> simp_all

theorem ALStream.close_state (s : ALStream) : s.close.state = .Closed := by
  unfold ALStream.close; split <;> simp_all

theorem ALStream.pause_state (s : ALStream) :
    s.pause.state = if s.state = .Playing then .Paused else s.state := by
  unfold ALStream.pause
  split <;> simp_all

/-- Clamping twice to the same range is clamping once. -/
theorem clamp_clamp (x lo hi : Int) (h : lo ≤ hi) : clamp (clamp x lo hi) lo hi = clamp x lo hi := by
  unfold clamp
  split_ifs <;> omega

theorem AudioStream.lockStream_unlockStream (c : AudioStream) :
    c.lockStream.unlockStream = c := by
  cases c
  simp [AudioStream.lockStream, AudioStream.unlockStream]

/-- Reading back the slot `setVolume` wrote. -/
theorem AudioStream.getVolume_setVolume_self (env : Env) (c : AudioStream)
    (t : AudioStream.VolumeType) (v : ℚ) : (c.setVolume env t v).getVolume t = v := by
  simp [AudioStream.setVolume, AudioStream.updateVolume, AudioStream.record,
    AudioStream.getVolume]

theorem townChannel_eq : townChannel =
    { current := { filename := "town.ogg", volume := 4 / 5, pitch := 1 }
      volumes := fun t => if t = .Base then 4 / 5 else 1
      extPaused := false
      noResumeStop := false
      stream := { state := .Playing, source := some "town.ogg", pitch := 1, gain := 4 / 5 }
      fade := { thread := false, active := false, reqFini := false, reqTerm := false,
                msStep := 0 }
      fadeIn := { thread := false, rqFini := false, rqTerm := false, running := false }
      lockDepth := 0
      trace := [(.opened "town.ogg", true), (.setVolume (4 / 5), true), (.setPitch 1, true),
        (.play 0, true)] } := by
  simp [townChannel, env0, AudioStream.play, AudioStream.new, AudioStream.finiFadeOutInt,
    AudioStream.lockStream, AudioStream.unlockStream, clamp, ALStream.queryState,
    AudioStream.playClosed, AudioStream.playStopped, AudioStream.playTail,
    AudioStream.streamOpen, AudioStream.record, ALStream.open_, ALStream.close,
    AudioStream.setVolume, AudioStream.updateVolume, ALStream.setVolume,
    AudioStream.streamSetPitch, ALStream.setPitch, AudioStream.streamPlay, ALStream.play]
  norm_num

theorem fadingChannel_eq : fadingChannel =
    { current := { filename := "town.ogg", volume := 4 / 5, pitch := 1 }
      volumes := fun t => if t = .FadeOut then 1 / 2 else if t = .Base then 4 / 5 else 1
      extPaused := false
      noResumeStop := true
      stream := { state := .Playing, source := some "town.ogg", pitch := 1, gain := 2 / 5 }
      fade := { thread := true, active := true, reqFini := false, reqTerm := false,
                msStep := 1 / 1000 }
      fadeIn := { thread := false, rqFini := false, rqTerm := false, running := false }
      lockDepth := 0
      trace := [(.opened "town.ogg", true), (.setVolume (4 / 5), true), (.setPitch 1, true),
        (.play 0, true), (.setVolume (2 / 5), true)] } := by
  simp [fadingChannel, townChannel_eq, env0, AudioStream.lockStream, AudioStream.unlockStream,
    ALStream.queryState, AudioStream.record, AudioStream.setVolume, AudioStream.updateVolume,
    ALStream.setVolume, AudioStream.fadeOut, AudioStream.fadeOutThread]
  norm_num

/-! ## What the waits of `finiFadeOutInt` leave alone -/

theorem AudioStream.Quiet.of_eq {c c' : AudioStream} (hs : c'.stream = c.stream)
    (ht : c'.trace = c.trace) : c.Quiet c' :=
  ⟨by rw [hs], [], by simp [ht], by simp⟩

theorem AudioStream.Quiet.refl (c : AudioStream) : c.Quiet c :=
  AudioStream.Quiet.of_eq rfl rfl

theorem AudioStream.Quiet.trans {a b c : AudioStream} (h₁ : a.Quiet b) (h₂ : b.Quiet c) :
    a.Quiet c := by
  obtain ⟨s₁, hs₁, hl₁⟩ := h₁.trace
  obtain ⟨s₂, hs₂, hl₂⟩ := h₂.trace
  refine ⟨h₂.state.trans h₁.state, s₁ ++ s₂, ?_, ?_⟩
  · rw [hs₂, hs₁, List.append_assoc]
  · intro e he
    rcases List.mem_append.1 he with h | h
    · exact hl₁ e h
    · exact hl₂ e h

theorem AudioStream.quiet_setVolume (env : Env) (c : AudioStream)
    (t : AudioStream.VolumeType) (v : ℚ) : c.Quiet (c.setVolume env t v) := by
  refine ⟨?_, [_], rfl, ?_⟩
  · simp [AudioStream.setVolume, AudioStream.updateVolume, AudioStream.record,
      ALStream.setVolume_state]
  · simp [StreamOp.isLifecycle]

theorem AudioStream.quiet_streamSetPitch (c : AudioStream) (v : ℚ) :
    c.Quiet (c.streamSetPitch v) := by
  refine ⟨?_, [_], rfl, ?_⟩
  · simp [AudioStream.streamSetPitch, AudioStream.record, ALStream.setPitch_state]
  · simp [StreamOp.isLifecycle]

/-- A locked `setVolume` followed by the unlock is quiet. -/
theorem AudioStream.quiet_locked_setVolume (env : Env) (c : AudioStream)
    (t : AudioStream.VolumeType) (v : ℚ) :
    c.Quiet ((c.lockStream.setVolume env t v).unlockStream) :=
  ((AudioStream.Quiet.of_eq rfl rfl : c.Quiet c.lockStream).trans
    (AudioStream.quiet_setVolume env _ t v)).trans (AudioStream.Quiet.of_eq rfl rfl)

/-- Changing the worker bookkeeping is quiet. -/
theorem AudioStream.quiet_fade (c : AudioStream) (f : AudioStream.Fade) (g : AudioStream.FadeIn) :
    c.Quiet { c with fade := f, fadeIn := g } :=
  AudioStream.Quiet.of_eq rfl rfl

/-- A pass of the fade-out worker on a Paused stream is quiet. -/
theorem AudioStream.quiet_fadeOutThread (env : Env) (e : Nat) (c : AudioStream)
    (h : c.stream.state = .Paused) : c.Quiet (c.fadeOutThread env e).1 := by
  unfold AudioStream.fadeOutThread
  by_cases hT : c.fade.reqTerm = true
  · simp only [hT, if_true]
    exact AudioStream.quiet_fade c _ _
  · have hq : (c.lockStream).stream.queryState = .Paused := h
    simp only [hT, hq]
    simp only [ne_eq, reduceCtorEq, not_false_eq_true, true_or, if_true, not_true_eq_false,
      if_false]
    exact (AudioStream.quiet_locked_setVolume env c .FadeOut 1).trans
      (AudioStream.quiet_fade _ _ _)

/-- Every pass of the fade-in worker is quiet. -/
theorem AudioStream.quiet_fadeInThread (env : Env) (e : Nat) (c : AudioStream) :
    c.Quiet (c.fadeInThread env e).1 := by
  unfold AudioStream.fadeInThread
  by_cases hT : c.fadeIn.rqTerm = true
  · simp only [hT, if_true]
    exact AudioStream.quiet_fade c _ _
  · rw [if_neg hT]
    dsimp only
    split
    · exact (AudioStream.quiet_locked_setVolume env c .FadeIn 1).trans
        (AudioStream.quiet_fade _ _ _)
    · exact AudioStream.quiet_locked_setVolume env c .FadeIn _

/-- What `finiFadeOutInt` does, for a relation `R` between the channel before
and after that is reflexive and transitive, holds across bookkeeping updates
and across the worker passes the two waits run. -/
theorem AudioStream.finiFadeOutInt_rel (env : Env) (R : AudioStream → AudioStream → Prop)
    (hrefl : ∀ a, R a a) (htrans : ∀ a b d, R a b → R b d → R a d)
    (hbook : ∀ (a : AudioStream) f g, R a { a with fade := f, fadeIn := g })
    (c : AudioStream)
    (hOut : c.fade.thread = true → c.fade.active = true →
      R { c with fade := { c.fade with reqFini := true } }
        (AudioStream.fadeOutThread env 0 { c with fade := { c.fade with reqFini := true } }).1)
    (hIn : ∀ a, R a (a.fadeInThread env 0).1) :
    R c (c.finiFadeOutInt env) := by
  unfold AudioStream.finiFadeOutInt
  have h1 : R c (if c.fade.thread = true then
      { (if ({ c with fade := { c.fade with reqFini := true } } : AudioStream).fade.active = true
          then (AudioStream.fadeOutThread env 0
            { c with fade := { c.fade with reqFini := true } }).1
          else { c with fade := { c.fade with reqFini := true } }) with
        fade := { (if ({ c with fade := { c.fade with reqFini := true } } :
              AudioStream).fade.active = true
            then (AudioStream.fadeOutThread env 0
              { c with fade := { c.fade with reqFini := true } }).1
            else { c with fade := { c.fade with reqFini := true } }).fade with thread := false } }
      else c) := by
    by_cases ht : c.fade.thread = true
    · rw [if_pos ht]
      refine htrans _ _ _ ?_ (hbook _ _ _)
      by_cases ha : c.fade.active = true
      · rw [if_pos ha]
        exact htrans _ _ _ (hbook c _ c.fadeIn) (hOut ht ha)
      · rw [if_neg ha]
        exact hbook c _ c.fadeIn
    · rw [if_neg ht]
      exact hrefl c
  refine htrans _ _ _ h1 ?_
  generalize (if c.fade.thread = true then _ else c) = d
  simp only
  by_cases ht : d.fadeIn.thread = true
  · rw [if_pos ht]
    refine htrans _ _ _ ?_ (hbook _ _ _)
    by_cases ha : d.fadeIn.running = true
    · rw [if_pos ha]
      exact htrans _ _ _ (hbook d d.fade _) (hIn _)
    · rw [if_neg ha]
      exact hbook d d.fade _
  · rw [if_neg ht]
    exact hrefl d

/-- Unless a fade-out worker is running on a stream that is not Paused,
`finiFadeOutInt` is quiet. -/
theorem AudioStream.quiet_finiFadeOutInt (env : Env) (c : AudioStream)
    (h : c.fade.thread = true → c.fade.active = true → c.stream.state = .Paused) :
    c.Quiet (c.finiFadeOutInt env) :=
  AudioStream.finiFadeOutInt_rel env AudioStream.Quiet AudioStream.Quiet.refl
    (fun _ _ _ => AudioStream.Quiet.trans) AudioStream.quiet_fade c
    (fun ht ha => AudioStream.quiet_fadeOutThread env 0 _ (h ht ha))
    (AudioStream.quiet_fadeInThread env 0)

theorem AudioStream.framed_fadeOutThread (env : Env) (e : Nat) (c : AudioStream) :
    c.Framed (c.fadeOutThread env e).1 := by
  unfold AudioStream.fadeOutThread AudioStream.Framed
  dsimp only
  split_ifs <;>
    simp [AudioStream.lockStream, AudioStream.unlockStream, AudioStream.setVolume,
      AudioStream.updateVolume, AudioStream.record, AudioStream.streamStop]

theorem AudioStream.framed_fadeInThread (env : Env) (e : Nat) (c : AudioStream) :
    c.Framed (c.fadeInThread env e).1 := by
  unfold AudioStream.fadeInThread AudioStream.Framed
  dsimp only
  split_ifs <;>
    simp [AudioStream.lockStream, AudioStream.unlockStream, AudioStream.setVolume,
      AudioStream.updateVolume, AudioStream.record]

/-- No wait of `finiFadeOutInt` touches the current settings, the mutex or
the two flags. -/
theorem AudioStream.framed_finiFadeOutInt (env : Env) (c : AudioStream) :
    c.Framed (c.finiFadeOutInt env) :=
  AudioStream.finiFadeOutInt_rel env AudioStream.Framed (fun _ => ⟨rfl, rfl, rfl, rfl⟩)
    (fun _ _ _ h₁ h₂ => ⟨h₂.1.trans h₁.1, h₂.2.1.trans h₁.2.1, h₂.2.2.1.trans h₁.2.2.1,
      h₂.2.2.2.trans h₁.2.2.2⟩)
    (fun _ _ _ => ⟨rfl, rfl, rfl, rfl⟩) c
    (fun _ _ => AudioStream.framed_fadeOutThread env 0 _)
    (AudioStream.framed_fadeInThread env 0)

/-! ## C1 to C3: `AudioStream::play` -/

/-- With no worker running, `finiFadeOutInt` only reaps the handles: it sets
the finish requests of the handles it finds and clears the handles. -/
theorem AudioStream.finiFadeOutInt_idle (env : Env) (c : AudioStream)
    (hOut : ¬ (c.fade.thread = true ∧ c.fade.active = true))
    (hIn : ¬ (c.fadeIn.thread = true ∧ c.fadeIn.running = true)) :
    c.finiFadeOutInt env =
      { c with
        fade := { c.fade with reqFini := c.fade.reqFini || c.fade.thread, thread := false }
        fadeIn := { c.fadeIn with rqFini := c.fadeIn.rqFini || c.fadeIn.thread, thread := false } } := by
  obtain ⟨cur, vols, ep, nr, st, ⟨ft, fa, ff, fterm, fm⟩, ⟨it, ifi, iterm, ir⟩, ld, tr⟩ := c
  cases ft <;> cases fa <;> cases it <;> cases ir <;>
    simp_all [AudioStream.finiFadeOutInt]

/-- C1 (amended): on a channel with no fade-out or fade-in worker running,
whose stream is Playing or Paused and whose current filename, volume and pitch
equal the clamped arguments, `play` is a no-op: it returns normally, issues no
call on the stream, and leaves the stream, the volume factors, `extPaused`,
`noResumeStop`, the current settings and the mutex as they were. -/
theorem play_same_args_noop (env : Env) (c : AudioStream) (filename : String)
    (volume pitch : Int) (offset : ℚ)
    (hstate : c.stream.state = .Playing ∨ c.stream.state = .Paused)
    (hfile : filename = c.current.filename)
    (hvol : (clamp volume 0 100 : ℚ) / 100 = c.current.volume)
    (hpitch : (clamp pitch 50 150 : ℚ) / 100 = c.current.pitch)
    (hOut : ¬ (c.fade.thread = true ∧ c.fade.active = true))
    (hIn : ¬ (c.fadeIn.thread = true ∧ c.fadeIn.running = true)) :
    (c.play env filename volume pitch offset).2 = .ok ∧
    (c.play env filename volume pitch offset).1.trace = c.trace ∧
    (c.play env filename volume pitch offset).1.stream = c.stream ∧
    (c.play env filename volume pitch offset).1.volumes = c.volumes ∧
    (c.play env filename volume pitch offset).1.extPaused = c.extPaused ∧
    (c.play env filename volume pitch offset).1.noResumeStop = c.noResumeStop ∧
    (c.play env filename volume pitch offset).1.current = c.current ∧
    (c.play env filename volume pitch offset).1.lockDepth = c.lockDepth := by
  have h : c.play env filename volume pitch offset =
      (((c.finiFadeOutInt env).lockStream).unlockStream, .ok) := by
    unfold AudioStream.play
    simp only [AudioStream.finiFadeOutInt_idle env c hOut hIn, AudioStream.lockStream,
      ALStream.queryState]
    rw [if_pos ⟨hfile, hvol, hpitch, hstate⟩]
  rw [h, AudioStream.finiFadeOutInt_idle env c hOut hIn]
  simp [AudioStream.lockStream, AudioStream.unlockStream]

/-- C1, witness: the scenario of the spec, `play("town.ogg", 80, 100, 0)`
repeated on the channel that is playing it. -/
theorem play_same_args_noop_witness :
    (townChannel.stream.state = .Playing ∨ townChannel.stream.state = .Paused) ∧
    (townChannel.play env0 "town.ogg" 80 100 0).2 = .ok ∧
    (townChannel.play env0 "town.ogg" 80 100 0).1.trace = townChannel.trace ∧
    (townChannel.play env0 "town.ogg" 80 100 0).1.stream = townChannel.stream ∧
    (townChannel.play env0 "town.ogg" 80 100 0).1.volumes = townChannel.volumes ∧
    (townChannel.play env0 "town.ogg" 80 100 0).1.extPaused = townChannel.extPaused ∧
    (townChannel.play env0 "town.ogg" 80 100 0).1.noResumeStop = townChannel.noResumeStop ∧
    (townChannel.play env0 "town.ogg" 80 100 0).1.current = townChannel.current ∧
    (townChannel.play env0 "town.ogg" 80 100 0).1.lockDepth = townChannel.lockDepth :=
  ⟨by simp [townChannel_eq],
    play_same_args_noop env0 townChannel "town.ogg" 80 100 0
      (by simp [townChannel_eq]) (by simp [townChannel_eq])
      (by simp [townChannel_eq, clamp]; norm_num) (by simp [townChannel_eq, clamp])
      (by simp [townChannel_eq]) (by simp [townChannel_eq])⟩

/-- C1, as stated, fails: on a Playing channel whose current settings equal
the clamped arguments but whose fade-out worker is running, `play` with the
same arguments stops the stream and plays it again, and moves the FadeOut
factor from 1/2 to 1. -/
theorem play_same_args_restarts_fading_stream :
    fadingChannel.stream.state = .Playing ∧
    fadingChannel.current = ⟨"town.ogg", (clamp 80 0 100 : ℚ) / 100, (clamp 100 50 150 : ℚ) / 100⟩ ∧
    (fadingChannel.play env0 "town.ogg" 80 100 0).1.trace = fadingChannel.trace ++
      [(.stop, true), (.setVolume (4 / 5), true), (.setVolume (4 / 5), true),
       (.setPitch 1, true), (.play 0, true)] ∧
    fadingChannel.getVolume .FadeOut = 1 / 2 ∧
    (fadingChannel.play env0 "town.ogg" 80 100 0).1.getVolume .FadeOut = 1 := by
  rw [fadingChannel_eq]
  simp [env0, AudioStream.play, AudioStream.finiFadeOutInt,
    AudioStream.lockStream, AudioStream.unlockStream, clamp, ALStream.queryState,
    AudioStream.playClosed, AudioStream.playStopped, AudioStream.playTail,
    AudioStream.record, ALStream.stop, AudioStream.streamStop,
    AudioStream.setVolume, AudioStream.updateVolume, ALStream.setVolume,
    AudioStream.streamSetPitch, ALStream.setPitch, AudioStream.streamPlay, ALStream.play,
    AudioStream.fadeOutThread, AudioStream.getVolume]
  norm_num

/-- C2 (amended): on a channel whose stream is Playing or Paused, unless a
fade-out worker is running on a Playing stream, `play` with the current
filename and a different clamped volume or pitch returns normally, sets the
Base factor, the stream pitch and the current volume and pitch to the clamped
values, keeps the filename, the lifecycle state and the mutex, and issues
only `setVolume` / `setPitch` calls on the stream. -/
theorem play_same_file_updates_in_place (env : Env) (c : AudioStream) (filename : String)
    (volume pitch : Int) (offset : ℚ)
    (hstate : c.stream.state = .Playing ∨ c.stream.state = .Paused)
    (hfile : filename = c.current.filename)
    (hdiff : ¬ ((clamp volume 0 100 : ℚ) / 100 = c.current.volume ∧
      (clamp pitch 50 150 : ℚ) / 100 = c.current.pitch))
    (hOut : c.fade.thread = true → c.fade.active = true → c.stream.state = .Paused) :
    (c.play env filename volume pitch offset).2 = .ok ∧
    (c.play env filename volume pitch offset).1.getVolume .Base = (clamp volume 0 100 : ℚ) / 100 ∧
    (c.play env filename volume pitch offset).1.stream.pitch = (clamp pitch 50 150 : ℚ) / 100 ∧
    (c.play env filename volume pitch offset).1.current =
      ⟨c.current.filename, (clamp volume 0 100 : ℚ) / 100, (clamp pitch 50 150 : ℚ) / 100⟩ ∧
    (c.play env filename volume pitch offset).1.stream.state = c.stream.state ∧
    (c.play env filename volume pitch offset).1.lockDepth = c.lockDepth ∧
    ∃ suffix, (c.play env filename volume pitch offset).1.trace = c.trace ++ suffix ∧
      ∀ e ∈ suffix, e.1.isLifecycle = false := by
  have hQ := AudioStream.quiet_finiFadeOutInt env c hOut
  obtain ⟨hcur, hld, -, -⟩ := AudioStream.framed_finiFadeOutInt env c
  have hst : (c.finiFadeOutInt env).stream.state = .Playing ∨
      (c.finiFadeOutInt env).stream.state = .Paused := by rw [hQ.state]; exact hstate
  have hnc : (c.finiFadeOutInt env).stream.state ≠ .Closed := by
    rcases hst with h | h <;> rw [h] <;> simp
  have h : c.play env filename volume pitch offset =
      ({ ((((c.finiFadeOutInt env).lockStream).setVolume env .Base
            ((clamp volume 0 100 : ℚ) / 100)).streamSetPitch ((clamp pitch 50 150 : ℚ) / 100)) with
          current := { c.current with volume := (clamp volume 0 100 : ℚ) / 100,
                                      pitch := (clamp pitch 50 150 : ℚ) / 100 } }.unlockStream,
        .ok) := by
    unfold AudioStream.play
    simp only [AudioStream.lockStream, ALStream.queryState, hcur]
    rw [if_neg (fun h => hdiff ⟨h.2.1, h.2.2.1⟩), if_pos ⟨hfile, hst⟩]
    simp [AudioStream.setVolume, AudioStream.updateVolume, AudioStream.record,
      AudioStream.streamSetPitch, hcur]
  have hQ' : c.Quiet (c.play env filename volume pitch offset).1 := by
    rw [h]
    exact (((hQ.trans (AudioStream.Quiet.of_eq rfl rfl :
      (c.finiFadeOutInt env).Quiet (c.finiFadeOutInt env).lockStream)).trans
      (AudioStream.quiet_setVolume env _ .Base _)).trans
      (AudioStream.quiet_streamSetPitch _ _)).trans (AudioStream.Quiet.of_eq rfl rfl)
  refine ⟨by rw [h], ?_, ?_, by rw [h]; rfl, hQ'.state, ?_, hQ'.trace⟩
  · rw [h]
    simp [AudioStream.unlockStream, AudioStream.streamSetPitch, AudioStream.record,
      AudioStream.setVolume, AudioStream.updateVolume, AudioStream.getVolume]
  · rw [h]
    simp only [AudioStream.unlockStream, AudioStream.streamSetPitch, AudioStream.record,
      AudioStream.setVolume, AudioStream.updateVolume, AudioStream.lockStream]
    exact ALStream.setPitch_pitch _ _ (by rw [ALStream.setVolume_state]; exact hnc)
  · rw [h]
    simp [AudioStream.unlockStream, AudioStream.streamSetPitch, AudioStream.record,
      AudioStream.setVolume, AudioStream.updateVolume, AudioStream.lockStream, hld]

/-- C2, witness: `play("town.ogg", 50, 100, 0)` on the channel that is playing
"town.ogg" at volume 80. -/
theorem play_same_file_updates_in_place_witness :
    (townChannel.play env0 "town.ogg" 50 100 0).2 = .ok ∧
    (townChannel.play env0 "town.ogg" 50 100 0).1.getVolume .Base = (clamp 50 0 100 : ℚ) / 100 ∧
    (townChannel.play env0 "town.ogg" 50 100 0).1.stream.pitch = (clamp 100 50 150 : ℚ) / 100 ∧
    (townChannel.play env0 "town.ogg" 50 100 0).1.current =
      ⟨townChannel.current.filename, (clamp 50 0 100 : ℚ) / 100, (clamp 100 50 150 : ℚ) / 100⟩ ∧
    (townChannel.play env0 "town.ogg" 50 100 0).1.stream.state = townChannel.stream.state ∧
    (townChannel.play env0 "town.ogg" 50 100 0).1.lockDepth = townChannel.lockDepth ∧
    ∃ suffix, (townChannel.play env0 "town.ogg" 50 100 0).1.trace = townChannel.trace ++ suffix ∧
      ∀ e ∈ suffix, e.1.isLifecycle = false :=
  play_same_file_updates_in_place env0 townChannel "town.ogg" 50 100 0
    (by simp [townChannel_eq]) (by simp [townChannel_eq])
    (by simp [townChannel_eq, clamp]; norm_num) (by simp [townChannel_eq])

/-- C2, as stated, fails: on a Playing channel whose fade-out worker is
running, `play` with the current filename and a new volume issues `stop` and
`play` on the stream. -/
theorem play_new_volume_restarts_fading_stream :
    fadingChannel.stream.state = .Playing ∧
    fadingChannel.current.filename = "town.ogg" ∧
    (fadingChannel.play env0 "town.ogg" 50 100 0).1.trace = fadingChannel.trace ++
      [(.stop, true), (.setVolume (4 / 5), true), (.setVolume (1 / 2), true),
       (.setPitch 1, true), (.play 0, true)] := by
  rw [fadingChannel_eq]
  simp [env0, AudioStream.play, AudioStream.finiFadeOutInt,
    AudioStream.lockStream, AudioStream.unlockStream, clamp, ALStream.queryState,
    AudioStream.playClosed, AudioStream.playStopped, AudioStream.playTail,
    AudioStream.record, ALStream.stop, AudioStream.streamStop,
    AudioStream.setVolume, AudioStream.updateVolume, ALStream.setVolume,
    AudioStream.streamSetPitch, ALStream.setPitch, AudioStream.streamPlay, ALStream.play,
    AudioStream.fadeOutThread, AudioStream.getVolume]
  norm_num

/-- The Closed arm of `play` when the file differs and cannot be opened. -/
theorem AudioStream.playClosed_open_failure (env : Env) (filename : String)
    (v p offset : ℚ) (c : AudioStream) (hopen : env.canOpen filename = false) :
    (c.playClosed env filename v p offset true).2 = .threw (.SDLError filename) ∧
    (c.playClosed env filename v p offset true).1.stream.state = .Closed ∧
    (c.playClosed env filename v p offset true).1.lockDepth = c.lockDepth - 1 ∧
    (c.playClosed env filename v p offset true).1.current = c.current := by
  simp [AudioStream.playClosed, AudioStream.streamOpen, ALStream.open_, hopen,
    AudioStream.unlockStream, AudioStream.record, ALStream.close_state]

/-- C3: when the filename differs from the current one and `open` fails,
`play` raises the open failure, the stream is Closed afterwards, the mutex is
held as often as before the call, and the current filename, volume and pitch
are those from before the call. -/
theorem play_open_failure (env : Env) (c : AudioStream) (filename : String)
    (volume pitch : Int) (offset : ℚ)
    (hfile : filename ≠ c.current.filename) (hopen : env.canOpen filename = false) :
    (c.play env filename volume pitch offset).2 = .threw (.SDLError filename) ∧
    (c.play env filename volume pitch offset).1.stream.state = .Closed ∧
    (c.play env filename volume pitch offset).1.lockDepth = c.lockDepth ∧
    (c.play env filename volume pitch offset).1.current = c.current := by
  obtain ⟨hcur, hld, -, -⟩ := AudioStream.framed_finiFadeOutInt env c
  have hne : filename ≠ (c.finiFadeOutInt env).current.filename := by rw [hcur]; exact hfile
  unfold AudioStream.play
  simp only [AudioStream.lockStream, ALStream.queryState]
  rw [if_neg (fun h => hne h.1), if_neg (fun h => hne h.1)]
  simp only [hne, ne_eq, not_false_eq_true, decide_True]
  split <;>
    simp [AudioStream.playStopped, AudioStream.playClosed_open_failure env filename _ _ _ _ hopen,
      AudioStream.streamStop, AudioStream.streamClose, AudioStream.record, hcur, hld]

/-- C3, witness: `play("missing.ogg", 80, 100, 0)` on a Playing channel when no
file can be decoded. -/
theorem play_open_failure_witness :
    (townChannel.play closedEnv "missing.ogg" 80 100 0).2 = .threw (.SDLError "missing.ogg") ∧
    (townChannel.play closedEnv "missing.ogg" 80 100 0).1.stream.state = .Closed ∧
    (townChannel.play closedEnv "missing.ogg" 80 100 0).1.lockDepth = townChannel.lockDepth ∧
    (townChannel.play closedEnv "missing.ogg" 80 100 0).1.current = townChannel.current :=
  play_open_failure closedEnv townChannel "missing.ogg" 80 100 0
    (by simp [townChannel_eq]) rfl

/-! ## C4 and C5: track indices of the BGM façade -/

/-- C4: on a mixer with N BGM tracks, for every track index `track ≥ N`, each
of `bgmPlay`, `bgmStop`, `bgmFade`, `bgmSetVolume` and `bgmGetVolume` raises
the out-of-range error (carrying the index and the maximum N - 1) and leaves
the whole mixer state as it was. -/
theorem bgm_track_out_of_range (env : Env) (p : AudioPrivate) (track : Int)
    (h : (p.bgmTracks.length : Int) ≤ track)
    (filename : String) (volume pitch time : Int) (pos : ℚ) :
    Audio.bgmPlay env filename volume pitch pos track p =
      (p, .threw (.MKXPError track ((p.bgmTracks.length : Int) - 1))) ∧
    Audio.bgmStop env track p = (p, .threw (.MKXPError track ((p.bgmTracks.length : Int) - 1))) ∧
    Audio.bgmFade time track p = (p, .threw (.MKXPError track ((p.bgmTracks.length : Int) - 1))) ∧
    Audio.bgmSetVolume env volume track p =
      (p, .threw (.MKXPError track ((p.bgmTracks.length : Int) - 1))) ∧
    Audio.bgmGetVolume track p =
      .error (.threw (.MKXPError track ((p.bgmTracks.length : Int) - 1))) := by
  have h0 : (0 : Int) ≤ track := le_trans (Int.ofNat_nonneg _) h
  have hs : track ≠ -127 := by omega
  have hn : ¬ track < 0 := by omega
  have hgt : track > (p.bgmTracks.length : Int) - 1 := by omega
  refine ⟨?_, ?_, ?_, ?_, ?_⟩ <;>
    simp [Audio.bgmPlay, Audio.bgmStop, Audio.bgmFade, Audio.bgmSetVolume, Audio.bgmGetVolume,
      AudioPrivate.setTrackCurrentVolumeByIndex, AudioPrivate.getTrackByIndex, hs, hn, hgt]

/-- C4, witness: track 2 on a fresh mixer with two tracks. -/
theorem bgm_track_out_of_range_witness :
    Audio.bgmPlay env0 "town.ogg" 80 100 0 2 (AudioPrivate.new 2) =
      (AudioPrivate.new 2, .threw (.MKXPError 2 (((AudioPrivate.new 2).bgmTracks.length : Int) - 1))) ∧
    Audio.bgmStop env0 2 (AudioPrivate.new 2) =
      (AudioPrivate.new 2, .threw (.MKXPError 2 (((AudioPrivate.new 2).bgmTracks.length : Int) - 1))) ∧
    Audio.bgmFade 1000 2 (AudioPrivate.new 2) =
      (AudioPrivate.new 2, .threw (.MKXPError 2 (((AudioPrivate.new 2).bgmTracks.length : Int) - 1))) ∧
    Audio.bgmSetVolume env0 50 2 (AudioPrivate.new 2) =
      (AudioPrivate.new 2, .threw (.MKXPError 2 (((AudioPrivate.new 2).bgmTracks.length : Int) - 1))) ∧
    Audio.bgmGetVolume 2 (AudioPrivate.new 2) =
      .error (.threw (.MKXPError 2 (((AudioPrivate.new 2).bgmTracks.length : Int) - 1))) :=
  bgm_track_out_of_range env0 (AudioPrivate.new 2) 2 (by simp [AudioPrivate.new])
    "town.ogg" 80 100 1000 0

/-- The stop loop of `bgmPlay` after its first `n` rounds. -/
theorem Audio.bgmPlayStopLoop_upto (env : Env) (p : AudioPrivate) (n : Nat) :
    (List.range n).foldl
      (fun p i => if i = 0 then p else p.onTrack (AudioStream.stop env) i) p =
    AudioPrivate.mk (p.bgmTracks.mapIdx (fun j t => if j ≠ 0 ∧ j < n then t.stop env else t))
      p.bgs p.me p.volume p.meWatchState := by
  induction n with
  | zero =>
    simp only [List.range_zero, List.foldl_nil]
    have hl : p.bgmTracks.mapIdx (fun j t => if j ≠ 0 ∧ j < 0 then AudioStream.stop env t else t)
        = p.bgmTracks := by
      apply List.ext_getElem?
      intro j
      simp
    rw [hl]
  | succ n ih =>
    rw [List.range_succ, List.foldl_append, ih]
    simp only [List.foldl_cons, List.foldl_nil]
    by_cases hn : n = 0
    · subst hn
      simp
    · simp only [hn, if_false, AudioPrivate.onTrack]
      congr 1
      apply List.ext_getElem?
      intro j
      rw [List.getElem?_modify]
      simp only [List.getElem?_mapIdx]
      by_cases hj : n = j
      · subst hj
        cases p.bgmTracks[n]? <;> simp [hn]
      · cases p.bgmTracks[j]? with
        | none => simp
        | some t =>
          have : (j < n + 1) ↔ (j < n) := by omega
          simp [hj, this]

theorem Audio.bgmPlayStopLoop_eq (env : Env) (p : AudioPrivate) :
    Audio.bgmPlayStopLoop env p = Audio.stopSecondary env p := by
  unfold Audio.bgmPlayStopLoop Audio.stopSecondary
  rw [Audio.bgmPlayStopLoop_upto]
  congr 1
  apply List.ext_getElem?
  intro j
  cases hp : p.bgmTracks with
  | nil => simp
  | cons t0 rest =>
    cases j with
    | zero => simp
    | succ j =>
      simp only [List.getElem?_mapIdx, List.getElem?_cons_succ, List.length_cons,
        List.getElem?_map]
      cases hr : rest[j]? with
      | none => simp
      | some t =>
        have hlt : j < rest.length := by
          by_contra hcon
          rw [List.getElem?_eq_none (by omega)] at hr
          cases hr
        simp [hlt]

/-- C5: `bgmPlay` with the sentinel track -127 is `bgmPlay` on track 0 of the
mixer in which `stop()` has been called on every track with index 1..N-1;
`bgmStop(-127)` and `bgmFade(time, -127)` return normally and replace every
track 0..N-1 by the result of `stop()`, respectively `fadeOut(time)`, on it,
leaving the volumes and the watcher state alone. -/
theorem bgm_sentinel_track (env : Env) (p : AudioPrivate) (filename : String)
    (volume pitch time : Int) (pos : ℚ) :
    Audio.bgmPlay env filename volume pitch pos (-127) p =
      Audio.bgmPlay env filename volume pitch pos 0 (Audio.stopSecondary env p) ∧
    ((Audio.bgmStop env (-127) p).2 = .ok ∧
      (Audio.bgmStop env (-127) p).1.bgmTracks.length = p.bgmTracks.length ∧
      (∀ i : Nat, (Audio.bgmStop env (-127) p).1.bgmTracks[i]? =
        (p.bgmTracks[i]?).map (AudioStream.stop env)) ∧
      (Audio.bgmStop env (-127) p).1.volume = p.volume ∧
      (Audio.bgmStop env (-127) p).1.meWatchState = p.meWatchState) ∧
    ((Audio.bgmFade time (-127) p).2 = .ok ∧
      (Audio.bgmFade time (-127) p).1.bgmTracks.length = p.bgmTracks.length ∧
      (∀ i : Nat, (Audio.bgmFade time (-127) p).1.bgmTracks[i]? =
        (p.bgmTracks[i]?).map (AudioStream.fadeOut time)) ∧
      (Audio.bgmFade time (-127) p).1.volume = p.volume ∧
      (Audio.bgmFade time (-127) p).1.meWatchState = p.meWatchState) := by
  refine ⟨?_, ?_, ?_⟩
  · simp [Audio.bgmPlay, Audio.bgmPlayStopLoop_eq]
  · simp [Audio.bgmStop]
  · simp [Audio.bgmFade]

/-! ## C6 to C8: volume factors -/

/-- C6: `getVolume(u)` right after `setVolume(t, v)` is `v` for `u = t` and the
value from before the call for every other type `u`. -/
theorem getVolume_after_setVolume (env : Env) (c : AudioStream)
    (t u : AudioStream.VolumeType) (v : ℚ) :
    (c.setVolume env t v).getVolume u = if u = t then v else c.getVolume u := by
  simp [AudioStream.setVolume, AudioStream.updateVolume, AudioStream.record,
    AudioStream.getVolume]

/-- C7, as stated, fails: on a channel whose `BaseRatio` slot is 1/2 (a fresh
channel after `bgmSetVolume(50, -127)`), `setVolume(Base, 1)` pushes 1/2 to
the stream, while the global ceiling times the product of Base, FadeIn,
FadeOut and External is 1. -/
theorem setVolume_pushes_not_four_factors :
    (halfRatioChannel.setVolume env0 .Base 1).trace.getLast? = some (.setVolume (1 / 2), false) ∧
    env0.GLOBAL_VOLUME * ((halfRatioChannel.setVolume env0 .Base 1).getVolume .Base
      * (halfRatioChannel.setVolume env0 .Base 1).getVolume .FadeIn
      * (halfRatioChannel.setVolume env0 .Base 1).getVolume .FadeOut
      * (halfRatioChannel.setVolume env0 .Base 1).getVolume .External) = 1 ∧
    (halfRatioChannel.setVolume env0 .Base 1).trace.getLast? ≠
      some (.setVolume (env0.GLOBAL_VOLUME * ((halfRatioChannel.setVolume env0 .Base 1).getVolume .Base
        * (halfRatioChannel.setVolume env0 .Base 1).getVolume .FadeIn
        * (halfRatioChannel.setVolume env0 .Base 1).getVolume .FadeOut
        * (halfRatioChannel.setVolume env0 .Base 1).getVolume .External)), false) := by
  simp [halfRatioChannel, env0, AudioStream.setVolume, AudioStream.updateVolume,
    AudioStream.record, AudioStream.getVolume, AudioStream.new]

/-- C7 (amended): after `setVolume(type, value)` the call issued on the stream
is `setVolume` with the global ceiling times the product of all five slots of
`volumes` (Base, BaseRatio, FadeOut, FadeIn, External) as they are after the
call, and the stream is the old one with that volume applied. -/
theorem setVolume_pushes_product (env : Env) (c : AudioStream)
    (type : AudioStream.VolumeType) (value : ℚ) :
    (c.setVolume env type value).trace = c.trace ++
      [(.setVolume (env.GLOBAL_VOLUME * ((c.setVolume env type value).getVolume .Base
          * (c.setVolume env type value).getVolume .BaseRatio
          * (c.setVolume env type value).getVolume .FadeOut
          * (c.setVolume env type value).getVolume .FadeIn
          * (c.setVolume env type value).getVolume .External)), decide (0 < c.lockDepth))] ∧
    (c.setVolume env type value).stream =
      c.stream.setVolume (env.GLOBAL_VOLUME * ((c.setVolume env type value).getVolume .Base
          * (c.setVolume env type value).getVolume .BaseRatio
          * (c.setVolume env type value).getVolume .FadeOut
          * (c.setVolume env type value).getVolume .FadeIn
          * (c.setVolume env type value).getVolume .External)) := by
  simp only [AudioStream.setVolume, AudioStream.updateVolume, AudioStream.record,
    AudioStream.getVolume, List.foldl_cons, List.foldl_nil]
  constructor <;> simp only [mul_assoc]

/-- C8: on a mixer whose per-track volume list is as long as its track list,
for a valid track `t` and all `v`, `g'`: `bgmSetVolume(v, t)` returns normally
and leaves the track's Base factor at `clamp(v) * g / 10000`, `g` being the
global BGM volume, and after a following `setGlobalBGMVolume(g')` the Base
factor is `clamp(v) * clamp(g') / 10000`. -/
theorem bgmSetVolume_base_factor (env : Env) (p : AudioPrivate) (v g' : Int) (t : Nat)
    (ht : t < p.bgmTracks.length)
    (hlen : p.volume.bgmTracksCurrent.length = p.bgmTracks.length) :
    (Audio.bgmSetVolume env v t p).2 = .ok ∧
    ((Audio.bgmSetVolume env v t p).1.bgmTracks[t]?).map (AudioStream.getVolume .Base) =
      some (((clamp v 0 100 : Int) : ℚ) * (p.volume.bgm : ℚ) / 10000) ∧
    ((Audio.setGlobalBGMVolume env g' (Audio.bgmSetVolume env v t p).1).bgmTracks[t]?).map
        (AudioStream.getVolume .Base) =
      some (((clamp v 0 100 : Int) : ℚ) * ((clamp g' 0 100 : Int) : ℚ) / 10000) := by
  have hs : (t : Int) ≠ -127 := by omega
  have hn : ¬ (t : Int) < 0 := by omega
  have hgt : ¬ (t : Int) > (p.bgmTracks.length : Int) - 1 := by omega
  obtain ⟨tr, htr⟩ : ∃ tr, p.bgmTracks[t]? = some tr := ⟨p.bgmTracks[t], by simp [ht]⟩
  have h : Audio.bgmSetVolume env v t p =
      ({ p with
          volume := { p.volume with
            bgmTracksCurrent := p.volume.bgmTracksCurrent.set t (clamp v 0 100) }
          bgmTracks := p.bgmTracks.modify
            (AudioStream.setVolume env .Base
              ((clamp v 0 100 : ℚ) / 100 * (p.volume.bgm : ℚ) / 100)) t }, .ok) := by
    simp [Audio.bgmSetVolume, AudioPrivate.setTrackCurrentVolumeByIndex,
      AudioPrivate.getTrackByIndex, AudioPrivate.onTrack, hs, hn, hgt, clamp_clamp]
  rw [h]
  refine ⟨rfl, ?_, ?_⟩
  · simp only [List.getElem?_modify_eq, htr, Option.map_some', Option.map_eq_map,
      AudioStream.getVolume_setVolume_self]
    congr 1
    ring
  · have hget : (p.volume.bgmTracksCurrent.set t (clamp v 0 100)).getD t 0 = clamp v 0 100 := by
      rw [List.getD_eq_getElem?_getD, List.getElem?_set_self (by omega)]
      rfl
    simp only [Audio.setGlobalBGMVolume, List.getElem?_map, List.getElem?_enum,
      List.getElem?_modify_eq, htr, Option.map_some', Option.map_eq_map, Audio.setGlobalTrack,
      hget]
    simp [AudioStream.unlockStream, AudioStream.setVolume, AudioStream.updateVolume,
      AudioStream.record, AudioStream.getVolume, mul_comm]

/-- C8, witness: `v = 50`, `g = 100`, `g' = 50` on track 0 of a fresh one-track
mixer gives the Base factor 1/2 and then 1/4. -/
theorem bgmSetVolume_base_factor_witness :
    ((Audio.bgmSetVolume env0 50 0 (AudioPrivate.new 1)).1.bgmTracks[0]?).map
        (AudioStream.getVolume .Base) = some (1 / 2) ∧
    ((Audio.setGlobalBGMVolume env0 50
        (Audio.bgmSetVolume env0 50 0 (AudioPrivate.new 1)).1).bgmTracks[0]?).map
        (AudioStream.getVolume .Base) = some (1 / 4) := by
  have h := bgmSetVolume_base_factor env0 (AudioPrivate.new 1) 50 50 0
    (by simp [AudioPrivate.new]) (by simp [AudioPrivate.new])
  have e1 : (((clamp 50 0 100 : Int) : ℚ) * (((AudioPrivate.new 1).volume.bgm : Int) : ℚ) / 10000)
      = 1 / 2 := by
    norm_num [clamp, AudioPrivate.new]
  have e2 : (((clamp 50 0 100 : Int) : ℚ) * ((clamp 50 0 100 : Int) : ℚ) / 10000) = 1 / 4 := by
    norm_num [clamp]
  rw [e1, e2] at h
  exact ⟨h.2.1, h.2.2⟩

/-! ## C10: the watcher re-ducks from the current External factor -/

/-- C10: a watcher pass in state `BgmFadingIn` with the primary track not
Stopped and the ME stream Playing ends in `BgmFadingOut` with `extPaused` set
on every BGM channel, and every BGM channel keeps its External factor and its
stream. -/
theorem fadingIn_reduck_keeps_external (env : Env) (p : AudioPrivate)
    (track0 : AudioStream) (rest : List AudioStream)
    (htracks : p.bgmTracks = track0 :: rest)
    (hstate : p.meWatchState = .BgmFadingIn)
    (h0 : track0.stream.state ≠ .Stopped)
    (hme : p.me.stream.state = .Playing) :
    ∃ p', AudioPrivate.meWatchFun env p = some p' ∧
      p'.meWatchState = .BgmFadingOut ∧
      p'.bgmTracks.length = p.bgmTracks.length ∧
      (∀ t ∈ p'.bgmTracks, t.extPaused = true) ∧
      (∀ i : Nat, (p'.bgmTracks[i]?).map (AudioStream.getVolume .External) =
        (p.bgmTracks[i]?).map (AudioStream.getVolume .External)) ∧
      (∀ i : Nat, (p'.bgmTracks[i]?).map (fun t => t.stream) =
        (p.bgmTracks[i]?).map (fun t => t.stream)) := by
  have hstep : AudioPrivate.meWatchFun env p = some { p with
      bgmTracks := ((p.bgmTracks.map AudioStream.lockStream).map
        (fun track => { track with extPaused := true })).map AudioStream.unlockStream
      meWatchState := .BgmFadingOut
      me := p.me.lockStream.unlockStream } := by
    unfold AudioPrivate.meWatchFun
    simp only [hstate, htracks, List.map_cons, AudioStream.lockStream, ALStream.queryState, h0,
      hme, if_false, if_true]
  refine ⟨_, hstep, rfl, by simp, ?_, ?_, ?_⟩
  · intro t ht
    simp only [List.mem_map] at ht
    obtain ⟨a, ⟨b, -, rfl⟩, rfl⟩ := ht
    rfl
  · intro i
    simp only [List.map_map, List.getElem?_map, Option.map_map]
    rfl
  · intro i
    simp only [List.map_map, List.getElem?_map, Option.map_map]
    rfl

/-- C10, witness: one track with External at 2/5 (0.4) while the ME plays. -/
theorem fadingIn_reduck_keeps_external_witness :
    ∃ p', AudioPrivate.meWatchFun env0 reduckMixer = some p' ∧
      p'.meWatchState = .BgmFadingOut ∧
      (∀ t ∈ p'.bgmTracks, t.extPaused = true) ∧
      (p'.bgmTracks[0]?).map (AudioStream.getVolume .External) = some (2 / 5) := by
  obtain ⟨p', h1, h2, -, h4, h5, -⟩ := fadingIn_reduck_keeps_external env0 reduckMixer _ [] rfl
    rfl (by simp [townChannel_eq]) (by simp [reduckMixer, townChannel_eq])
  exact ⟨p', h1, h2, h4, by rw [h5 0]; simp [reduckMixer, AudioStream.getVolume]⟩

/-! ## C9: the fade-out of the BGM tracks completes -/

namespace AudioPrivate

theorem fadedTrack_state (env : Env) (t : AudioStream) :
    (fadedTrack env t).stream.state =
      if t.getVolume .External - fadeOutStep env < 0 ∨ t.stream.state ≠ .Playing
      then (if t.stream.state = .Playing then .Paused else t.stream.state)
      else .Playing := by
  unfold fadedTrack
  split_ifs with h1 h2 <;>
    simp_all [AudioStream.unlockStream, AudioStream.streamPause, AudioStream.record,
      AudioStream.setVolume, AudioStream.updateVolume, AudioStream.lockStream,
      ALStream.pause_state, ALStream.setVolume_state]

theorem fadedTrack_playing_iff (env : Env) (t : AudioStream) :
    (fadedTrack env t).stream.state = .Playing ↔
      (0 ≤ t.getVolume .External - fadeOutStep env ∧ t.stream.state = .Playing) := by
  rw [fadedTrack_state]
  split_ifs with h1 h2
  · simp only [reduceCtorEq, false_iff, not_and, not_le]
    intro _ hp
    rcases h1 with h | h
    · linarith
    · exact absurd hp h
  · constructor
    · intro h; exact absurd h h2
    · intro h; exact absurd h.2 h2
  · simp only [true_iff]
    push_neg at h1
    exact h1

theorem fadedTrack_external (env : Env) (t : AudioStream) :
    (fadedTrack env t).getVolume .External =
      if t.getVolume .External - fadeOutStep env < 0 ∨ t.stream.state ≠ .Playing then 0
      else t.getVolume .External - fadeOutStep env := by
  unfold fadedTrack
  split_ifs <;>
    simp [AudioStream.unlockStream, AudioStream.streamPause, AudioStream.record,
      AudioStream.setVolume, AudioStream.updateVolume, AudioStream.lockStream,
      AudioStream.getVolume]

/-- One round of the `BgmFadingOut` track loop on an index inside the vector. -/
theorem fadingOutBody_eq (env : Env) (acc : List AudioStream × Bool) (i : Nat)
    (track : AudioStream) (h : acc.1[i]? = some track) :
    fadingOutBody env acc i =
      (acc.1.set i (fadedTrack env track),
        if track.getVolume .External - fadeOutStep env < 0 ∨ track.stream.state ≠ .Playing then
          (if ((acc.1.set i (fadedTrack env track)).filter
                (fun t => decide (t.stream.state = .Playing))).length ≤ 0 ∧ acc.2 = false
            then true else acc.2)
        else acc.2) := by
  unfold fadingOutBody fadedTrack
  simp only [h]
  by_cases hc : track.getVolume .External - fadeOutStep env < 0 ∨ track.stream.state ≠ .Playing
  · have hc' : (track.lockStream).getVolume .External - fadeOutStep env < 0 ∨
        (track.lockStream).stream.queryState ≠ .Playing := hc
    rw [if_pos hc', if_pos hc, if_pos hc]
    rfl
  · have hc' : ¬ ((track.lockStream).getVolume .External - fadeOutStep env < 0 ∨
        (track.lockStream).stream.queryState ≠ .Playing) := hc
    rw [if_neg hc', if_neg hc, if_neg hc]
    rfl


/-- The `BgmFadingOut` track loop after its first `n` rounds: the first `n`
tracks have had their round, and `shouldBreak` is set exactly when a round has
run and no track is Playing. -/
theorem fadingOutLoop_upto (env : Env) (tracks : List AudioStream) (n : Nat)
    (hn : n ≤ tracks.length) :
    ((List.range n).foldl (fadingOutBody env) (tracks, false)).1 =
        tracks.mapIdx (fun j t => if j < n then fadedTrack env t else t) ∧
    (((List.range n).foldl (fadingOutBody env) (tracks, false)).2 = true ↔
      0 < n ∧ ∀ t ∈ ((List.range n).foldl (fadingOutBody env) (tracks, false)).1,
        t.stream.state ≠ .Playing) := by
  induction n with
  | zero =>
    refine ⟨?_, by simp⟩
    simp only [List.range_zero, List.foldl_nil]
    apply List.ext_getElem?
    intro j
    simp
  | succ n ih =>
    obtain ⟨ih1, ih2⟩ := ih (by omega)
    rw [List.range_succ, List.foldl_append]
    simp only [List.foldl_cons, List.foldl_nil]
    generalize (List.range n).foldl (fadingOutBody env) (tracks, false) = r at ih1 ih2 ⊢
    have hlen : r.1.length = tracks.length := by rw [ih1]; simp
    have hget : r.1[n]? = some tracks[n] := by
      rw [ih1, List.getElem?_mapIdx]
      simp [List.getElem?_eq_getElem (show n < tracks.length by omega)]
    have hnew : r.1.set n (fadedTrack env tracks[n]) =
        tracks.mapIdx (fun j t => if j < n + 1 then fadedTrack env t else t) := by
      apply List.ext_getElem?
      intro j
      rw [List.getElem?_set, ih1]
      simp only [List.getElem?_mapIdx, List.length_mapIdx]
      by_cases hj : n = j
      · subst hj
        simp [List.getElem?_eq_getElem (show n < tracks.length by omega),
          show n < tracks.length by omega]
      · cases tracks[j]? with
        | none => simp [hj]
        | some t =>
          have : (j < n + 1) ↔ (j < n) := by omega
          simp [hj, this]
    have hmem : fadedTrack env tracks[n] ∈ r.1.set n (fadedTrack env tracks[n]) :=
      List.mem_set _ _ (by omega) _
    rw [fadingOutBody_eq env r n _ hget]
    refine ⟨hnew, ?_⟩
    simp only
    constructor
    · intro hsb
      refine ⟨Nat.succ_pos n, ?_⟩
      by_cases hc : tracks[n].getVolume .External - fadeOutStep env < 0 ∨
          tracks[n].stream.state ≠ .Playing
      · rw [if_pos hc] at hsb
        by_cases hf : ((r.1.set n (fadedTrack env tracks[n])).filter
            (fun t => decide (t.stream.state = .Playing))).length ≤ 0 ∧ r.2 = false
        · intro t ht hp
          have hnil := List.length_eq_zero.1 (Nat.le_zero.1 hf.1)
          rw [List.filter_eq_nil_iff] at hnil
          exact hnil t ht (by simpa using hp)
        · rw [if_neg hf] at hsb
          intro t ht
          rcases List.mem_or_eq_of_mem_set ht with h | h
          · exact (ih2.1 hsb).2 t h
          · rw [h]
            intro hp
            exact absurd ((fadedTrack_playing_iff env _).1 hp)
              (by intro h'; rcases hc with hc | hc
                  · linarith [h'.1]
                  · exact hc h'.2)
      · rw [if_neg hc] at hsb
        intro t ht
        rcases List.mem_or_eq_of_mem_set ht with h | h
        · exact (ih2.1 hsb).2 t h
        · have hin : tracks[n] ∈ r.1 := List.getElem?_mem hget
          exact absurd (by push_neg at hc; exact hc.2) ((ih2.1 hsb).2 _ hin)
    · rintro ⟨-, hall⟩
      have hnp := hall _ hmem
      have hc : tracks[n].getVolume .External - fadeOutStep env < 0 ∨
          tracks[n].stream.state ≠ .Playing := by
        by_contra hcon
        push_neg at hcon
        exact hnp ((fadedTrack_playing_iff env _).2 hcon)
      rw [if_pos hc]
      have hf : ((r.1.set n (fadedTrack env tracks[n])).filter
          (fun t => decide (t.stream.state = .Playing))).length ≤ 0 := by
        rw [Nat.le_zero, List.length_eq_zero, List.filter_eq_nil_iff]
        intro t ht
        simpa using hall t ht
      cases hr : r.2 with
      | true => simp
      | false => simp [hf]

/-- The whole `BgmFadingOut` track loop: every track has had its round, and
`shouldBreak` is set exactly when there is a track and none is Playing. -/
theorem fadingOutLoop_eq (env : Env) (tracks : List AudioStream) :
    ((List.range tracks.length).foldl (fadingOutBody env) (tracks, false)).1 =
        tracks.map (fadedTrack env) ∧
    (((List.range tracks.length).foldl (fadingOutBody env) (tracks, false)).2 = true ↔
      tracks ≠ [] ∧ ∀ t ∈ tracks.map (fadedTrack env), t.stream.state ≠ .Playing) := by
  obtain ⟨h1, h2⟩ := fadingOutLoop_upto env tracks tracks.length le_rfl
  have hmap : tracks.mapIdx (fun j t => if j < tracks.length then fadedTrack env t else t) =
      tracks.map (fadedTrack env) := by
    apply List.ext_getElem?
    intro j
    simp only [List.getElem?_mapIdx, List.getElem?_map]
    cases hj : tracks[j]? with
    | none => rfl
    | some t =>
      have hlt : j < tracks.length := by
        by_contra hcon
        rw [List.getElem?_eq_none (by omega)] at hj
        cases hj
      simp [hlt]
  rw [hmap] at h1
  refine ⟨h1, ?_⟩
  rw [h2, h1, List.length_pos]


/-- `MeNotPlaying` with the ME Playing: every track is marked and the watcher
moves to `BgmFadingOut`. -/
theorem meWatchFun_meNotPlaying (env : Env) (p : AudioPrivate)
    (hs : p.meWatchState = .MeNotPlaying) (hme : p.me.stream.state = .Playing) :
    meWatchFun env p = some { p with
      bgmTracks := p.bgmTracks.map (fun track => { track with extPaused := true })
      meWatchState := .BgmFadingOut } := by
  unfold meWatchFun
  have hme' : (p.me.lockStream).stream.queryState = .Playing := hme
  simp only [hs, hme', if_true, AudioStream.lockStream_unlockStream]

/-- `BgmFadingOut` with the ME Playing: every track has its round of the loop;
the watcher moves to `MePlaying` when there is a track and none is Playing,
and stays otherwise. -/
theorem meWatchFun_bgmFadingOut (env : Env) (p : AudioPrivate)
    (hs : p.meWatchState = .BgmFadingOut) (hme : p.me.stream.state = .Playing) :
    (p.bgmTracks ≠ [] ∧ (∀ t ∈ p.bgmTracks.map (fadedTrack env), t.stream.state ≠ .Playing) →
      meWatchFun env p = some { p with
        bgmTracks := p.bgmTracks.map (fadedTrack env), meWatchState := .MePlaying }) ∧
    (¬ (p.bgmTracks ≠ [] ∧ ∀ t ∈ p.bgmTracks.map (fadedTrack env), t.stream.state ≠ .Playing) →
      meWatchFun env p = some { p with bgmTracks := p.bgmTracks.map (fadedTrack env) }) := by
  obtain ⟨h1, h2⟩ := fadingOutLoop_eq env p.bgmTracks
  have hme' : ¬ (p.me.lockStream).stream.queryState ≠ .Playing := fun h => h hme
  constructor
  · intro hdone
    unfold meWatchFun
    simp only [hs, hme', if_false, AudioStream.lockStream_unlockStream, h1, h2.2 hdone, if_true]
  · intro hnot
    have hb : ((List.range p.bgmTracks.length).foldl (fadingOutBody env) (p.bgmTracks, false)).2
        = false := by
      cases hb : ((List.range p.bgmTracks.length).foldl (fadingOutBody env)
        (p.bgmTracks, false)).2 with
      | false => rfl
      | true => exact absurd (h2.1 hb) hnot
    unfold meWatchFun
    simp only [hs, hme', if_false, AudioStream.lockStream_unlockStream, h1, hb]
    simp

/-- `MePlaying` with the ME Playing: nothing changes. -/
theorem meWatchFun_mePlaying (env : Env) (p : AudioPrivate)
    (hs : p.meWatchState = .MePlaying) (hme : p.me.stream.state = .Playing) :
    meWatchFun env p = some p := by
  unfold meWatchFun
  have hme' : ¬ (p.me.lockStream).stream.queryState ≠ .Playing := fun h => h hme
  simp only [hs, hme', if_false, AudioStream.lockStream_unlockStream]
  cases p
  simp_all

theorem meWatchRun_mePlaying (env : Env) (n : Nat) (p : AudioPrivate)
    (hs : p.meWatchState = .MePlaying) (hme : p.me.stream.state = .Playing) :
    meWatchRun env n p = some p := by
  induction n with
  | zero => rfl
  | succ n ih => simp [meWatchRun, meWatchFun_mePlaying env p hs hme, ih]


/-- A track still Playing after `j` rounds of the fade-out loop has lost
`j * fadeOutStep` of its External factor. -/
theorem fadedTrack_iterate_external (env : Env) (t : AudioStream) (j : Nat)
    (h : ((fadedTrack env)^[j] t).stream.state = .Playing) :
    ((fadedTrack env)^[j] t).getVolume .External =
      t.getVolume .External - j * fadeOutStep env := by
  induction j with
  | zero => simp
  | succ j ih =>
    rw [Function.iterate_succ_apply'] at h ⊢
    obtain ⟨hv, hp⟩ := (fadedTrack_playing_iff env _).1 h
    rw [fadedTrack_external, if_neg (by push_neg; exact ⟨hv, hp⟩), ih hp]
    push_cast
    ring

/-- A track whose External factor is at most 1 is no longer Playing after
`200 / AUDIO_SLEEP + 1` rounds of the fade-out loop. -/
theorem fadedTrack_iterate_done (env : Env) (t : AudioStream)
    (hA : 0 < 200 / env.AUDIO_SLEEP) (hext : t.getVolume .External ≤ 1) :
    ((fadedTrack env)^[200 / env.AUDIO_SLEEP + 1] t).stream.state ≠ .Playing := by
  intro h
  rw [Function.iterate_succ_apply'] at h
  obtain ⟨hv, hp⟩ := (fadedTrack_playing_iff env _).1 h
  rw [fadedTrack_iterate_external env t _ hp] at hv
  have hk : (0 : ℚ) < ((200 / env.AUDIO_SLEEP : Nat) : ℚ) := by exact_mod_cast hA
  have hs : ((200 / env.AUDIO_SLEEP : Nat) : ℚ) * fadeOutStep env = 1 := by
    unfold fadeOutStep
    field_simp
  have hpos : 0 < fadeOutStep env := by
    unfold fadeOutStep
    positivity
  linarith

/-- The stream state of a track after `j` rounds of the fade-out loop: still
Playing, or what `pause()` makes of the state it started in. -/
theorem fadedTrack_iterate_state (env : Env) (t : AudioStream) (j : Nat) :
    (((fadedTrack env)^[j] t).stream.state = .Playing ∧ t.stream.state = .Playing) ∨
    ((fadedTrack env)^[j] t).stream.state =
      (if t.stream.state = .Playing then .Paused else t.stream.state) := by
  induction j with
  | zero =>
    by_cases hp : t.stream.state = .Playing
    · exact Or.inl ⟨hp, hp⟩
    · right; simp [hp]
  | succ j ih =>
    rw [Function.iterate_succ_apply', fadedTrack_state]
    rcases ih with ⟨hu, ht⟩ | hu
    · by_cases hc : ((fadedTrack env)^[j] t).getVolume .External - fadeOutStep env < 0 ∨
          ((fadedTrack env)^[j] t).stream.state ≠ .Playing
      · rw [if_pos hc, if_pos hu, if_pos ht]
        exact Or.inr rfl
      · rw [if_neg hc]
        exact Or.inl ⟨rfl, ht⟩
    · have hnp : ((fadedTrack env)^[j] t).stream.state ≠ .Playing := by
        rw [hu]; split_ifs <;> simp_all
      rw [if_pos (Or.inr hnp), if_neg hnp]
      exact Or.inr hu

/-- A track that is not Playing after at least one round of the fade-out loop
has External factor 0. -/
theorem fadedTrack_iterate_zero (env : Env) (t : AudioStream) (j : Nat) (hj : 1 ≤ j)
    (h : ((fadedTrack env)^[j] t).stream.state ≠ .Playing) :
    ((fadedTrack env)^[j] t).getVolume .External = 0 := by
  obtain ⟨j, rfl⟩ : ∃ i, j = i + 1 := ⟨j - 1, by omega⟩
  rw [Function.iterate_succ_apply'] at h ⊢
  rw [fadedTrack_external]
  split_ifs with hc
  · rfl
  · push_neg at hc
    exact absurd ((fadedTrack_playing_iff env _).2 hc) h

/-- From `BgmFadingOut` with the ME Playing, once every track is done within
`m + 1` rounds, any `n ≥ m + 1` passes end in `MePlaying`. -/
theorem meWatchRun_bgmFadingOut (env : Env) (m : Nat) :
    ∀ p : AudioPrivate, p.meWatchState = .BgmFadingOut → p.me.stream.state = .Playing →
      p.bgmTracks ≠ [] →
      (∀ t ∈ p.bgmTracks, ((fadedTrack env)^[m + 1] t).stream.state ≠ .Playing) →
      ∀ n, m + 1 ≤ n → ∃ j, 1 ≤ j ∧
        meWatchRun env n p = some { p with
          bgmTracks := p.bgmTracks.map (fadedTrack env)^[j], meWatchState := .MePlaying } ∧
        ∀ t ∈ p.bgmTracks.map (fadedTrack env)^[j], t.stream.state ≠ .Playing := by
  induction m with
  | zero =>
    intro p hs hme hne hall n hn
    obtain ⟨n, rfl⟩ : ∃ i, n = i + 1 := ⟨n - 1, by omega⟩
    have hdone : ∀ t ∈ p.bgmTracks.map (fadedTrack env), t.stream.state ≠ .Playing := by
      intro t ht
      obtain ⟨a, ha, rfl⟩ := List.mem_map.1 ht
      exact hall a ha
    have hq := meWatchRun_mePlaying env n
      { p with bgmTracks := p.bgmTracks.map (fadedTrack env), meWatchState := .MePlaying } rfl hme
    refine ⟨1, le_rfl, ?_, by simpa using hdone⟩
    rw [meWatchRun, ((meWatchFun_bgmFadingOut env p hs hme).1 ⟨hne, hdone⟩), Option.some_bind, hq]
    simp
  | succ m ih =>
    intro p hs hme hne hall n hn
    obtain ⟨n, rfl⟩ : ∃ i, n = i + 1 := ⟨n - 1, by omega⟩
    by_cases hdone : p.bgmTracks ≠ [] ∧
        ∀ t ∈ p.bgmTracks.map (fadedTrack env), t.stream.state ≠ .Playing
    · have hq := meWatchRun_mePlaying env n
        { p with bgmTracks := p.bgmTracks.map (fadedTrack env), meWatchState := .MePlaying }
        rfl hme
      refine ⟨1, le_rfl, ?_, by simpa using hdone.2⟩
      rw [meWatchRun, ((meWatchFun_bgmFadingOut env p hs hme).1 hdone), Option.some_bind, hq]
      simp
    · obtain ⟨j, hj, hrun, hnp⟩ := ih
        { p with bgmTracks := p.bgmTracks.map (fadedTrack env) } hs hme
        (by simpa using hne)
        (by
          intro t ht
          obtain ⟨a, ha, rfl⟩ := List.mem_map.1 ht
          rw [← Function.iterate_succ_apply]
          exact hall a ha)
        n (by omega)
      refine ⟨j + 1, by omega, ?_, ?_⟩
      · rw [meWatchRun, ((meWatchFun_bgmFadingOut env p hs hme).2 hdone), Option.some_bind, hrun]
        simp [Function.iterate_succ]
      · simpa [Function.iterate_succ] using hnp


/-- While the ME is Playing and the watcher is not fading in, a pass of the
watcher keeps a track whose stream is in state `s` (not Playing) in that
state. -/
theorem meWatchFun_keeps_idle_track (env : Env) (s : ALStream.State) (hs : s ≠ .Playing)
    (p q : AudioPrivate) (hme : p.me.stream.state = .Playing)
    (hst : p.meWatchState ≠ .BgmFadingIn)
    (htr : ∃ t ∈ p.bgmTracks, t.stream.state = s)
    (hstep : meWatchFun env p = some q) :
    q.me.stream.state = .Playing ∧ q.meWatchState ≠ .BgmFadingIn ∧
      ∃ t ∈ q.bgmTracks, t.stream.state = s := by
  obtain ⟨t, ht, hts⟩ := htr
  have hF : (fadedTrack env t).stream.state = s := by
    rw [fadedTrack_state, if_pos (Or.inr (by rw [hts]; exact hs)), if_neg (by rw [hts]; exact hs),
      hts]
  cases hw : p.meWatchState with
  | MeNotPlaying =>
    rw [meWatchFun_meNotPlaying env p hw hme] at hstep
    cases hstep
    exact ⟨hme, by simp, _, List.mem_map_of_mem _ ht, hts⟩
  | BgmFadingOut =>
    by_cases hdone : p.bgmTracks ≠ [] ∧
        ∀ t ∈ p.bgmTracks.map (fadedTrack env), t.stream.state ≠ .Playing
    · rw [(meWatchFun_bgmFadingOut env p hw hme).1 hdone] at hstep
      cases hstep
      exact ⟨hme, by simp, _, List.mem_map_of_mem _ ht, hF⟩
    · rw [(meWatchFun_bgmFadingOut env p hw hme).2 hdone] at hstep
      cases hstep
      exact ⟨hme, by simp [hw], _, List.mem_map_of_mem _ ht, hF⟩
  | MePlaying =>
    rw [meWatchFun_mePlaying env p hw hme] at hstep
    cases hstep
    exact ⟨hme, hst, t, ht, hts⟩
  | BgmFadingIn => exact absurd hw hst

theorem meWatchRun_keeps_idle_track (env : Env) (s : ALStream.State) (hs : s ≠ .Playing)
    (n : Nat) : ∀ p q : AudioPrivate, p.me.stream.state = .Playing →
      p.meWatchState ≠ .BgmFadingIn → (∃ t ∈ p.bgmTracks, t.stream.state = s) →
      meWatchRun env n p = some q → ∃ t ∈ q.bgmTracks, t.stream.state = s := by
  induction n with
  | zero =>
    intro p q _ _ htr hrun
    cases hrun
    exact htr
  | succ n ih =>
    intro p q hme hst htr hrun
    rw [meWatchRun] at hrun
    cases hstep : meWatchFun env p with
    | none => rw [hstep] at hrun; cases hrun
    | some p' =>
      rw [hstep, Option.some_bind] at hrun
      obtain ⟨h1, h2, h3⟩ := meWatchFun_keeps_idle_track env s hs p p' hme hst htr hstep
      exact ih p' q h1 h2 h3 hrun

end AudioPrivate

/-- C9, as stated, fails: on a mixer with one BGM track that was never played
(stream Closed), starting in `MeNotPlaying` with the ME stream Playing, no
number of watcher passes reaches a state with the watcher in `MePlaying`,
External 0 and every BGM stream Paused: the track's stream stays Closed. -/
theorem ducking_leaves_closed_track_closed :
    silentMixer.bgmTracks.length = 1 ∧
    silentMixer.meWatchState = .MeNotPlaying ∧
    silentMixer.me.stream.state = .Playing ∧
    ¬ ∃ n q, AudioPrivate.meWatchRun env0 n silentMixer = some q ∧
      q.meWatchState = .MePlaying ∧
      ∀ t ∈ q.bgmTracks, t.getVolume .External = 0 ∧ t.stream.state = .Paused := by
  refine ⟨by simp [silentMixer, AudioPrivate.new], rfl, by simp [silentMixer, townChannel_eq], ?_⟩
  rintro ⟨n, q, hrun, -, hall⟩
  obtain ⟨t, ht, hts⟩ := AudioPrivate.meWatchRun_keeps_idle_track env0 .Closed (by simp) n
    silentMixer q (by simp [silentMixer, townChannel_eq]) (by simp [silentMixer, AudioPrivate.new])
    ⟨AudioStream.new, by simp [silentMixer, AudioPrivate.new], rfl⟩ hrun
  have := (hall t ht).2
  rw [hts] at this
  cases this

/-- C9 (amended): with `AUDIO_SLEEP` between 1 and 200, at least one BGM
track, every External factor at most 1, the watcher in `MeNotPlaying` and the
ME stream Playing, every run of `n ≥ 1 / fadeOutStep + 2` watcher passes (so
one within the bound `1 / fadeOutStep + 3`) is defined and ends with the
watcher in `MePlaying`, the ME channel untouched, and every BGM channel with
External factor 0 and a stream that is not Playing: Paused if it was Playing
or Paused, and in its old state (Stopped or Closed) otherwise. -/
theorem ducking_completes (env : Env) (p : AudioPrivate) (n : Nat)
    (hA : 0 < 200 / env.AUDIO_SLEEP)
    (hN : p.bgmTracks ≠ [])
    (hs : p.meWatchState = .MeNotPlaying)
    (hme : p.me.stream.state = .Playing)
    (hext : ∀ t ∈ p.bgmTracks, t.getVolume .External ≤ 1)
    (hn : 1 / AudioPrivate.fadeOutStep env + 2 ≤ (n : ℚ)) :
    ∃ q, AudioPrivate.meWatchRun env n p = some q ∧
      q.meWatchState = .MePlaying ∧ q.me = p.me ∧
      q.bgmTracks.length = p.bgmTracks.length ∧
      ∀ (i : Nat) (t : AudioStream), p.bgmTracks[i]? = some t →
        ∃ t', q.bgmTracks[i]? = some t' ∧ t'.getVolume .External = 0 ∧
          t'.stream.state ≠ .Playing ∧
          t'.stream.state = (if t.stream.state = .Playing then .Paused else t.stream.state) := by
  have hk : (0 : ℚ) < ((200 / env.AUDIO_SLEEP : Nat) : ℚ) := by exact_mod_cast hA
  have hn' : 200 / env.AUDIO_SLEEP + 2 ≤ n := by
    have : 1 / AudioPrivate.fadeOutStep env = ((200 / env.AUDIO_SLEEP : Nat) : ℚ) := by
      unfold AudioPrivate.fadeOutStep
      field_simp
    rw [this] at hn
    exact_mod_cast hn
  obtain ⟨n, rfl⟩ : ∃ i, n = i + 1 := ⟨n - 1, by omega⟩
  let mark : AudioStream → AudioStream := fun track => { track with extPaused := true }
  obtain ⟨j, hj, hrun, hnp⟩ := AudioPrivate.meWatchRun_bgmFadingOut env (200 / env.AUDIO_SLEEP)
    { p with bgmTracks := p.bgmTracks.map mark, meWatchState := .BgmFadingOut } rfl hme
    (by simpa using hN)
    (by
      intro t ht
      obtain ⟨a, ha, rfl⟩ := List.mem_map.1 ht
      exact AudioPrivate.fadedTrack_iterate_done env _ hA (hext a ha))
    n (by omega)
  refine ⟨{ p with
    bgmTracks := (p.bgmTracks.map mark).map (AudioPrivate.fadedTrack env)^[j]
    meWatchState := .MePlaying }, ?_, rfl, rfl, by simp, ?_⟩
  · rw [AudioPrivate.meWatchRun, AudioPrivate.meWatchFun_meNotPlaying env p hs hme,
      Option.some_bind]
    exact hrun
  · intro i t hit
    refine ⟨(AudioPrivate.fadedTrack env)^[j] (mark t), by simp [hit], ?_⟩
    have hnpt : ((AudioPrivate.fadedTrack env)^[j] (mark t)).stream.state ≠ .Playing :=
      hnp _ (List.mem_map_of_mem _ (List.mem_map_of_mem _ (List.getElem?_mem hit)))
    refine ⟨AudioPrivate.fadedTrack_iterate_zero env _ j hj hnpt, hnpt, ?_⟩
    rcases AudioPrivate.fadedTrack_iterate_state env (mark t) j with h | h
    · exact absurd h.1 hnpt
    · exact h

/-- C9, witness: 22 passes on a mixer with a Playing and a never-played track,
`AUDIO_SLEEP = 10`. -/
theorem ducking_completes_witness :
    ∃ q, AudioPrivate.meWatchRun env0 22 duckMixer = some q ∧
      q.meWatchState = .MePlaying ∧ q.me = duckMixer.me ∧
      q.bgmTracks.length = duckMixer.bgmTracks.length ∧
      ∀ (i : Nat) (t : AudioStream), duckMixer.bgmTracks[i]? = some t →
        ∃ t', q.bgmTracks[i]? = some t' ∧ t'.getVolume .External = 0 ∧
          t'.stream.state ≠ .Playing ∧
          t'.stream.state = (if t.stream.state = .Playing then .Paused else t.stream.state) :=
  ducking_completes env0 duckMixer 22 (by decide) (by simp [duckMixer]) rfl
    (by simp [duckMixer, townChannel_eq])
    (by
      intro t ht
      simp only [duckMixer, List.mem_cons, List.mem_singleton, List.not_mem_nil, or_false] at ht
      rcases ht with rfl | rfl
      · simp [townChannel_eq, AudioStream.getVolume]
      · simp [AudioStream.new, AudioStream.getVolume])
    (by norm_num [AudioPrivate.fadeOutStep, env0])

/-! ## C11 and C12: `AudioStream::fadeOut` and its worker -/

theorem fadeStartChannel_eq : fadeStartChannel =
    { townChannel with
      noResumeStop := true
      fade := { thread := true, active := true, reqFini := false, reqTerm := false,
                msStep := 1 / 1000 } } := by
  simp [fadeStartChannel, townChannel_eq, AudioStream.fadeOut, AudioStream.lockStream,
    AudioStream.unlockStream, ALStream.queryState]

/-- C11, as stated, fails: `fadeOut` on a channel whose stream is Closed (a
fresh channel, `noResumeStop` clear) sets `noResumeStop`. -/
theorem fadeOut_sets_noResumeStop_on_closed_stream :
    AudioStream.new.stream.state = .Closed ∧
    AudioStream.new.noResumeStop = false ∧
    (AudioStream.new.fadeOut 1000).noResumeStop = true := by
  simp [AudioStream.new, AudioStream.fadeOut, AudioStream.lockStream, AudioStream.unlockStream,
    ALStream.queryState]

/-- C11 (amended): on a channel on which a fade-out is already active, or whose
stream is neither Playing nor Paused, `fadeOut(d)` changes nothing but
`noResumeStop`, which it sets; on a channel with no fade-out active whose
stream is Paused, `fadeOut(d)` sets `noResumeStop`, issues `stop` on the
stream (which is Stopped afterwards) and leaves the fade worker bookkeeping as
it was: no worker is started. -/
theorem fadeOut_without_worker (c : AudioStream) (d : Int) :
    ((c.fade.active = true ∨ (c.stream.state ≠ .Playing ∧ c.stream.state ≠ .Paused)) →
      c.fadeOut d = { c with noResumeStop := true }) ∧
    ((c.fade.active = false ∧ c.stream.state = .Paused) →
      c.fadeOut d = { c with
        noResumeStop := true
        stream := c.stream.stop
        trace := c.trace ++ [(.stop, true)] } ∧
      (c.fadeOut d).stream.state = .Stopped ∧
      (c.fadeOut d).fade = c.fade ∧ (c.fadeOut d).fadeIn = c.fadeIn) := by
  constructor
  · intro h
    unfold AudioStream.fadeOut
    by_cases ha : c.fade.active = true
    · simp [ha, AudioStream.lockStream, AudioStream.unlockStream]
    · rcases h with h | ⟨h1, h2⟩
      · exact absurd h ha
      · simp [ha, h1, h2, AudioStream.lockStream, AudioStream.unlockStream,
          ALStream.queryState]
  · rintro ⟨ha, hp⟩
    have h : c.fadeOut d = { c with
        noResumeStop := true
        stream := c.stream.stop
        trace := c.trace ++ [(.stop, true)] } := by
      unfold AudioStream.fadeOut
      simp [ha, hp, AudioStream.lockStream, AudioStream.unlockStream, ALStream.queryState,
        AudioStream.streamStop, AudioStream.record]
    rw [h]
    refine ⟨rfl, ?_, rfl, rfl⟩
    simp [ALStream.stop, hp]

/-- C11, witness: `fadeOut(500)` on a channel whose fade-out is active, and on a
channel the watcher has paused. -/
theorem fadeOut_without_worker_witness :
    fadeStartChannel.fadeOut 500 = { fadeStartChannel with noResumeStop := true } ∧
    (pausedChannel.fadeOut 500).stream.state = .Stopped ∧
    (pausedChannel.fadeOut 500).fade = pausedChannel.fade :=
  ⟨(fadeOut_without_worker fadeStartChannel 500).1 (Or.inl (by simp [fadeStartChannel_eq])),
    ((fadeOut_without_worker pausedChannel 500).2
      ⟨by simp [pausedChannel, townChannel_eq, AudioStream.lockStream, AudioStream.unlockStream,
          AudioStream.streamPause, AudioStream.record],
        by simp [pausedChannel, townChannel_eq, AudioStream.lockStream, AudioStream.unlockStream,
          AudioStream.streamPause, AudioStream.record, ALStream.pause]⟩).2.1,
    ((fadeOut_without_worker pausedChannel 500).2
      ⟨by simp [pausedChannel, townChannel_eq, AudioStream.lockStream, AudioStream.unlockStream,
          AudioStream.streamPause, AudioStream.record],
        by simp [pausedChannel, townChannel_eq, AudioStream.lockStream, AudioStream.unlockStream,
          AudioStream.streamPause, AudioStream.record, ALStream.pause]⟩).2.2.1⟩

/-- C12, as stated, fails: `fadeOut(1000)` started on a Playing stream, worker
pass at elapsed time 1000 (the ramp `1 - e/d` has reached 0, no finish
request): the worker goes on, with the FadeOut factor at 0, the stream still
Playing and the active flag still set. -/
theorem fadeOutThread_goes_on_at_ramp_zero :
    fadeStartChannel.stream.state = .Playing ∧
    fadeStartChannel.fade.reqFini = false ∧
    fadeStartChannel.fade.msStep = 1 / ((1000 : Int) : ℚ) ∧
    (1 : ℚ) - ((1000 : Nat) : ℚ) / ((1000 : Int) : ℚ) = 0 ∧
    (fadeStartChannel.fadeOutThread env0 1000).2 = true ∧
    (fadeStartChannel.fadeOutThread env0 1000).1.getVolume .FadeOut = 0 ∧
    (fadeStartChannel.fadeOutThread env0 1000).1.stream.state = .Playing ∧
    (fadeStartChannel.fadeOutThread env0 1000).1.fade.active = true := by
  rw [fadeStartChannel_eq, townChannel_eq]
  simp [env0, AudioStream.fadeOutThread, AudioStream.lockStream, AudioStream.unlockStream,
    ALStream.queryState, AudioStream.setVolume, AudioStream.updateVolume, AudioStream.record,
    ALStream.setVolume, AudioStream.getVolume]

/-- The call `setVolume` issues on the stream, appended to the trace. -/
theorem AudioStream.setVolume_trace (env : Env) (c : AudioStream)
    (t : AudioStream.VolumeType) (x : ℚ) :
    ∃ v, (c.setVolume env t x).trace = c.trace ++ [(.setVolume v, decide (0 < c.lockDepth))] :=
  ⟨_, rfl⟩

/-- A pass of the fade-out worker that goes on. -/
theorem AudioStream.fadeOutThread_goes_on (env : Env) (c : AudioStream) (e : Nat)
    (hterm : c.fade.reqTerm = false) (hp : c.stream.state = .Playing)
    (hf : c.fade.reqFini = false) (hr : 0 ≤ 1 - (e : ℚ) * c.fade.msStep) :
    c.fadeOutThread env e =
      ((c.lockStream.setVolume env .FadeOut (1 - (e : ℚ) * c.fade.msStep)).unlockStream,
        true) := by
  have hT : ¬ c.fade.reqTerm = true := by rw [hterm]; simp
  have hcond : ¬ ((c.lockStream).stream.queryState ≠ .Playing ∨
      (1 : ℚ) - (e : ℚ) * (c.lockStream).fade.msStep < 0 ∨
      (c.lockStream).fade.reqFini = true) := by
    rintro (h | h | h)
    · exact h hp
    · exact absurd hr (not_le.2 h)
    · rw [show (c.lockStream).fade.reqFini = c.fade.reqFini from rfl, hf] at h
      cases h
  unfold AudioStream.fadeOutThread
  rw [if_neg hT]
  dsimp only
  rw [if_neg hcond]
  rfl

/-- A pass of the fade-out worker that leaves the loop. -/
theorem AudioStream.fadeOutThread_leaves (env : Env) (c : AudioStream) (e : Nat)
    (hterm : c.fade.reqTerm = false)
    (h : c.stream.state ≠ .Playing ∨ 1 - (e : ℚ) * c.fade.msStep < 0 ∨ c.fade.reqFini = true) :
    (c.fadeOutThread env e).2 = false ∧
    (c.fadeOutThread env e).1.fade.active = false ∧
    ∃ x : AudioStream, x.fade = c.fade ∧
      x = ((if c.stream.state ≠ .Paused then c.lockStream.streamStop else c.lockStream).setVolume
            env .FadeOut 1).unlockStream ∧
      (c.fadeOutThread env e).1.getVolume .FadeOut = x.getVolume .FadeOut ∧
      (c.fadeOutThread env e).1.stream = x.stream ∧
      (c.fadeOutThread env e).1.trace = x.trace := by
  have hT : ¬ c.fade.reqTerm = true := by rw [hterm]; simp
  have hcond : (c.lockStream).stream.queryState ≠ .Playing ∨
      (1 : ℚ) - (e : ℚ) * (c.lockStream).fade.msStep < 0 ∨
      (c.lockStream).fade.reqFini = true := h
  unfold AudioStream.fadeOutThread
  rw [if_neg hT]
  dsimp only
  rw [if_pos hcond]
  refine ⟨rfl, rfl, _, ?_, rfl, rfl, rfl, rfl⟩
  by_cases hP : c.stream.state = .Paused
  · rw [if_neg (fun h => h hP)]
    rfl
  · rw [if_pos hP]
    rfl

/-- C12 (amended): with `fade.msStep = 1 / d` for a duration `d ≠ 0`, no
terminate request and elapsed time `e`: a worker pass on a Playing stream with
no finish request and ramp `1 - e/d` not below 0 sets the FadeOut factor to
the ramp, issues only that `setVolume`, leaves the stream Playing and the
worker bookkeeping alone, and goes on; a pass with the ramp below 0, or the
stream not Playing, or a finish request, issues `stop` unless the stream is
Paused, sets the FadeOut factor to 1, clears the active flag and ends. -/
theorem fadeOutThread_pass (env : Env) (c : AudioStream) (d : Int) (e : Nat)
    (hd : d ≠ 0) (hstep : c.fade.msStep = 1 / (d : ℚ)) (hterm : c.fade.reqTerm = false) :
    ((c.stream.state = .Playing ∧ c.fade.reqFini = false ∧ 0 ≤ 1 - (e : ℚ) / (d : ℚ)) →
      (c.fadeOutThread env e).2 = true ∧
      (c.fadeOutThread env e).1.getVolume .FadeOut = 1 - (e : ℚ) / (d : ℚ) ∧
      (c.fadeOutThread env e).1.stream.state = .Playing ∧
      (c.fadeOutThread env e).1.fade = c.fade ∧
      ∃ v, (c.fadeOutThread env e).1.trace = c.trace ++ [(.setVolume v, true)]) ∧
    ((c.stream.state ≠ .Playing ∨ c.fade.reqFini = true ∨ 1 - (e : ℚ) / (d : ℚ) < 0) →
      (c.fadeOutThread env e).2 = false ∧
      (c.fadeOutThread env e).1.getVolume .FadeOut = 1 ∧
      (c.fadeOutThread env e).1.fade.active = false ∧
      (c.fadeOutThread env e).1.stream.state =
        (if c.stream.state = .Paused then .Paused else c.stream.stop.state) ∧
      ∃ v, (c.fadeOutThread env e).1.trace =
        c.trace ++ (if c.stream.state = .Paused then [] else [(.stop, true)])
          ++ [(.setVolume v, true)]) := by
  have _ := hd
  have hramp : (1 : ℚ) - (e : ℚ) * c.fade.msStep = 1 - (e : ℚ) / (d : ℚ) := by
    rw [hstep]; ring
  constructor
  · rintro ⟨hp, hf, hr⟩
    rw [AudioStream.fadeOutThread_goes_on env c e hterm hp hf (by rw [hramp]; exact hr)]
    refine ⟨rfl, ?_, ?_, rfl, ?_⟩
    · simp [AudioStream.unlockStream, AudioStream.getVolume_setVolume_self, hramp,
        AudioStream.getVolume]
      simp [AudioStream.setVolume, AudioStream.updateVolume, AudioStream.record, hramp]
    · simp [AudioStream.unlockStream, AudioStream.setVolume, AudioStream.updateVolume,
        AudioStream.record, AudioStream.lockStream, ALStream.setVolume_state, hp]
    · obtain ⟨v, hv⟩ := AudioStream.setVolume_trace env c.lockStream .FadeOut
        (1 - (e : ℚ) * c.fade.msStep)
      exact ⟨v, by simpa [AudioStream.unlockStream, AudioStream.lockStream] using hv⟩
  · intro h
    obtain ⟨h2, hact, x, -, hx, hvol, hstr, htr⟩ :=
      AudioStream.fadeOutThread_leaves env c e hterm (by rw [hramp]; tauto)
    refine ⟨h2, ?_, hact, ?_, ?_⟩
    · rw [hvol, hx]
      simp [AudioStream.unlockStream, AudioStream.setVolume, AudioStream.updateVolume,
        AudioStream.record, AudioStream.getVolume]
    · rw [hstr, hx]
      by_cases hP : c.stream.state = .Paused
      · simp [AudioStream.unlockStream, AudioStream.setVolume, AudioStream.updateVolume,
          AudioStream.record, AudioStream.lockStream, ALStream.setVolume_state, hP]
      · simp [AudioStream.unlockStream, AudioStream.setVolume, AudioStream.updateVolume,
          AudioStream.record, AudioStream.lockStream, ALStream.setVolume_state,
          AudioStream.streamStop, hP]
    · rw [htr, hx]
      by_cases hP : c.stream.state = .Paused
      · obtain ⟨v, hv⟩ := AudioStream.setVolume_trace env c.lockStream .FadeOut 1
        exact ⟨v, by simpa [AudioStream.unlockStream, AudioStream.lockStream, hP] using hv⟩
      · obtain ⟨v, hv⟩ := AudioStream.setVolume_trace env c.lockStream.streamStop .FadeOut 1
        exact ⟨v, by simpa [AudioStream.unlockStream, AudioStream.lockStream,
          AudioStream.streamStop, AudioStream.record, hP] using hv⟩

/-- C12, witness: `fadeOut(1000)` on a Playing stream, worker pass at elapsed
time 500 (factor 1/2, goes on) and at elapsed time 1001 (stops, factor 1). -/
theorem fadeOutThread_pass_witness :
    ((fadeStartChannel.fadeOutThread env0 500).2 = true ∧
      (fadeStartChannel.fadeOutThread env0 500).1.getVolume .FadeOut
        = 1 - ((500 : Nat) : ℚ) / ((1000 : Int) : ℚ)) ∧
    ((fadeStartChannel.fadeOutThread env0 1001).2 = false ∧
      (fadeStartChannel.fadeOutThread env0 1001).1.getVolume .FadeOut = 1 ∧
      (fadeStartChannel.fadeOutThread env0 1001).1.fade.active = false) := by
  have h500 := (fadeOutThread_pass env0 fadeStartChannel 1000 500 (by decide)
    (by simp [fadeStartChannel_eq]) (by simp [fadeStartChannel_eq])).1
    ⟨by simp [fadeStartChannel_eq, townChannel_eq], by simp [fadeStartChannel_eq], by norm_num⟩
  have h1001 := (fadeOutThread_pass env0 fadeStartChannel 1000 1001 (by decide)
    (by simp [fadeStartChannel_eq]) (by simp [fadeStartChannel_eq])).2
    (Or.inr (Or.inr (by norm_num)))
  exact ⟨⟨h500.1, h500.2.1⟩, h1001.1, h1001.2.1, h1001.2.2.1⟩

/-! ## C13 and C14: `SDLSoundSource::fillBuffer` -/

/-- C13: on a Looped source `fillBuffer` never returns EndOfStream, and returns
WrapAround, with one `Sound_Rewind`, exactly when the last decode left the
end-of-file flag without the error flag or a persisting try-again; on a
NotLooped source it never returns WrapAround, never rewinds, and returns
EndOfStream exactly under that condition. -/
theorem fillBuffer_loop_status (src : SDLSoundSource) :
    (src.looped = true →
      src.fillBuffer.2 ≠ .EndOfStream ∧
      (src.fillBuffer.2 = .WrapAround ↔
        (src.fillBuffer.1.sample.flags.eof = true ∧ src.fillBuffer.1.sample.flags.error = false ∧
          src.fillBuffer.1.sample.flags.eagain = false)) ∧
      src.fillBuffer.1.sample.rewinds =
        src.sample.rewinds + (if src.fillBuffer.2 = .WrapAround then 1 else 0)) ∧
    (src.looped = false →
      src.fillBuffer.2 ≠ .WrapAround ∧
      (src.fillBuffer.2 = .EndOfStream ↔
        (src.fillBuffer.1.sample.flags.eof = true ∧ src.fillBuffer.1.sample.flags.error = false ∧
          src.fillBuffer.1.sample.flags.eagain = false)) ∧
      src.fillBuffer.1.sample.rewinds = src.sample.rewinds) := by
  constructor <;> intro hl <;>
    unfold SDLSoundSource.fillBuffer SDLSoundSource.fillBufferTail SDLSoundSource.Sound_Decode
      SDLSoundSource.Sound_Rewind <;>
    dsimp only <;>
    split_ifs <;> simp_all

/-- C13, witness: the source `retrySource` (NotLooped) returns EndOfStream, and
its Looped twin returns WrapAround. -/
theorem fillBuffer_loop_status_witness :
    retrySource.fillBuffer.2 = .EndOfStream ∧
    ({ retrySource with looped := true } : SDLSoundSource).fillBuffer.2 = .WrapAround :=
  ⟨((fillBuffer_loop_status retrySource).2 rfl).2.1.2 (by decide),
    ((fillBuffer_loop_status { retrySource with looped := true }).1 rfl).2.1.2 (by decide)⟩

/-- C14: `fillBuffer` calls the decoder once, and a second time exactly when
the first decode leaves the try-again flag; it returns Error exactly when the
try-again flag is left by both decodes or the error flag is left by the last
one, and then it uploads nothing; otherwise it uploads once. -/
theorem fillBuffer_retry_and_error (src : SDLSoundSource) :
    src.fillBuffer.1.sample.calls =
      src.sample.calls + (if (src.sample.decoder src.sample.calls).2.eagain then 2 else 1) ∧
    (src.fillBuffer.2 = .Error ↔
      (((src.sample.decoder src.sample.calls).2.eagain = true ∧
          (src.sample.decoder (src.sample.calls + 1)).2.eagain = true) ∨
        src.fillBuffer.1.sample.flags.error = true)) ∧
    (src.fillBuffer.2 = .Error → src.fillBuffer.1.uploads = src.uploads) ∧
    (src.fillBuffer.2 ≠ .Error → src.fillBuffer.1.uploads.length = src.uploads.length + 1) := by
  unfold SDLSoundSource.fillBuffer SDLSoundSource.fillBufferTail SDLSoundSource.Sound_Decode
    SDLSoundSource.Sound_Rewind
  dsimp only
  split_ifs <;> simp_all

/-- C14, witness: on `retrySource` the decoder is called twice and the 64
bytes of the second decode are uploaded. -/
theorem fillBuffer_retry_and_error_witness :
    retrySource.fillBuffer.1.sample.calls = 2 ∧
    retrySource.fillBuffer.2 ≠ .Error ∧
    retrySource.fillBuffer.1.uploads.length = 1 :=
  ⟨(fillBuffer_retry_and_error retrySource).1,
    by decide,
    (fillBuffer_retry_and_error retrySource).2.2.2 (by decide)⟩

/-! ## C15: stream calls and the channel mutex -/

/-- C15, the code at the failing input: `bgmSetVolume(50, 0)` on a fresh
one-track mixer issues `setVolume` on the track's stream with the track's
mutex not held, while `setGlobalBGMVolume(50)` issues it with the mutex held. -/
theorem bgmSetVolume_touches_stream_unlocked :
    ((Audio.bgmSetVolume env0 50 0 (AudioPrivate.new 1)).1.bgmTracks[0]?).map
        (fun t => t.trace) = some [(.setVolume (1 / 2), false)] ∧
    ((Audio.setGlobalBGMVolume env0 50 (AudioPrivate.new 1)).bgmTracks[0]?).map
        (fun t => t.trace) = some [(.setVolume (1 / 2), true)] := by
  constructor
  · simp [Audio.bgmSetVolume, AudioPrivate.setTrackCurrentVolumeByIndex,
      AudioPrivate.getTrackByIndex, AudioPrivate.onTrack, AudioPrivate.new, AudioStream.new,
      AudioStream.setVolume, AudioStream.updateVolume, AudioStream.record, clamp, env0]
    norm_num
  · simp [Audio.setGlobalBGMVolume, Audio.setGlobalTrack, AudioPrivate.new, AudioStream.new,
      AudioStream.setVolume, AudioStream.updateVolume, AudioStream.record, clamp, env0,
      AudioStream.lockStream, AudioStream.unlockStream, List.enum]
    norm_num

/-! ## The cases of the watcher, one pass each -/

namespace AudioPrivate

/-- `MeNotPlaying` while the ME is not Playing: nothing changes. -/
theorem meWatchFun_meNotPlaying_idle (env : Env) (p : AudioPrivate)
    (hs : p.meWatchState = .MeNotPlaying) (hme : p.me.stream.state ≠ .Playing) :
    meWatchFun env p = some p := by
  unfold meWatchFun
  have hme' : ¬ (p.me.lockStream).stream.queryState = .Playing := hme
  simp only [hs, hme', if_false, AudioStream.lockStream_unlockStream]
  cases p
  simp_all

/-- `BgmFadingOut` once the ME is no longer Playing: the watcher moves to
`BgmFadingIn` and touches no track. -/
theorem meWatchFun_bgmFadingOut_ended (env : Env) (p : AudioPrivate)
    (hs : p.meWatchState = .BgmFadingOut) (hme : p.me.stream.state ≠ .Playing) :
    meWatchFun env p = some { p with meWatchState := .BgmFadingIn } := by
  unfold meWatchFun
  have hme' : (p.me.lockStream).stream.queryState ≠ .Playing := hme
  simp only [hs, hme', if_true, AudioStream.lockStream_unlockStream, ne_eq, not_false_eq_true]

/-- `BgmFadingIn` with at least one track: the three branches of the case. -/
theorem meWatchFun_bgmFadingIn (env : Env) (p : AudioPrivate)
    (track0 : AudioStream) (rest : List AudioStream)
    (hs : p.meWatchState = .BgmFadingIn) (htr : p.bgmTracks = track0 :: rest) :
    meWatchFun env p = some
      (if track0.stream.state = .Stopped then
        { p with
          bgmTracks := ((p.bgmTracks.map AudioStream.lockStream).map
            (AudioStream.setVolume env .External 1)).map AudioStream.unlockStream
          meWatchState := .MeNotPlaying }
      else if p.me.stream.state = .Playing then
        { p with
          bgmTracks := ((p.bgmTracks.map AudioStream.lockStream).map
            (fun track => { track with extPaused := true })).map AudioStream.unlockStream
          meWatchState := .BgmFadingOut }
      else
        { p with
          bgmTracks := ((p.bgmTracks.map AudioStream.lockStream).map
            (AudioStream.setVolume env .External
              (if 1 ≤ track0.getVolume .External + fadeInStep env then 1
                else track0.getVolume .External + fadeInStep env))).map AudioStream.unlockStream
          meWatchState :=
            if 1 ≤ track0.getVolume .External + fadeInStep env then .MeNotPlaying
            else .BgmFadingIn }) := by
  unfold meWatchFun
  simp only [hs, htr, List.map_cons]
  by_cases h0 : track0.stream.state = .Stopped
  · have h0' : (track0.lockStream).stream.queryState = .Stopped := h0
    simp only [h0', if_true, h0]
  · have h0' : ¬ (track0.lockStream).stream.queryState = .Stopped := h0
    simp only [h0', if_false, h0]
    by_cases hme : p.me.stream.state = .Playing
    · have hme' : (p.me.lockStream).stream.queryState = .Playing := hme
      simp only [hme', if_true, hme, AudioStream.lockStream_unlockStream]
    · have hme' : ¬ (p.me.lockStream).stream.queryState = .Playing := hme
      simp only [hme', if_false, hme, AudioStream.lockStream_unlockStream]
      have hg : (track0.lockStream).getVolume .External = track0.getVolume .External := rfl
      simp only [hg]
      by_cases hv : 1 ≤ track0.getVolume .External + fadeInStep env
      · simp [hv]
      · simp [hv]

theorem fadedTrack_lockDepth (env : Env) (t : AudioStream) :
    (fadedTrack env t).lockDepth = t.lockDepth := by
  unfold fadedTrack
  split_ifs <;>
    simp [AudioStream.unlockStream, AudioStream.streamPause, AudioStream.record,
      AudioStream.setVolume, AudioStream.updateVolume, AudioStream.lockStream]

theorem meEndedTrack_lockDepth (env : Env) (t : AudioStream) :
    (meEndedTrack env t).1.lockDepth = t.lockDepth := by
  unfold meEndedTrack
  dsimp only
  split_ifs <;>
    simp [AudioStream.unlockStream, AudioStream.streamPlay, AudioStream.record,
      AudioStream.setVolume, AudioStream.updateVolume, AudioStream.lockStream]

/-- Locking every track, running a step that keeps the hold count on each and
unlocking every track leaves every hold count where it was. -/
theorem lockDepth_lock_map_unlock (f : AudioStream → AudioStream)
    (hf : ∀ t, (f t).lockDepth = t.lockDepth) (tracks : List AudioStream) (i : Nat) :
    ((((tracks.map AudioStream.lockStream).map f).map AudioStream.unlockStream)[i]?).map
        (fun t => t.lockDepth) = (tracks[i]?).map (fun t => t.lockDepth) := by
  simp only [List.getElem?_map, Option.map_map]
  cases tracks[i]? with
  | none => rfl
  | some t => simp [AudioStream.unlockStream, hf, AudioStream.lockStream]

/-- The stream calls of one round of the `BgmFadingOut` track loop. -/
theorem fadedTrack_trace (env : Env) (t : AudioStream) :
    ∃ v, (fadedTrack env t).trace = t.trace ++
      (if t.getVolume .External - fadeOutStep env < 0 ∨ t.stream.state ≠ .Playing
        then [(.setVolume v, true), (.pause, true)] else [(.setVolume v, true)]) := by
  unfold fadedTrack
  split_ifs
  · obtain ⟨v, hv⟩ := AudioStream.setVolume_trace env t.lockStream .External 0
    refine ⟨v, ?_⟩
    simp only [AudioStream.unlockStream, AudioStream.streamPause, AudioStream.record, hv]
    simp [AudioStream.lockStream, AudioStream.setVolume, AudioStream.updateVolume,
      AudioStream.record]
  · obtain ⟨v, hv⟩ := AudioStream.setVolume_trace env t.lockStream .External
      (t.getVolume .External - fadeOutStep env)
    refine ⟨v, ?_⟩
    simp only [AudioStream.unlockStream, hv]
    simp [AudioStream.lockStream]

/-- The round of the `MePlaying` loop on a Paused track. -/
theorem meEndedTrack_paused (env : Env) (t : AudioStream) (h : t.stream.state = .Paused) :
    meEndedTrack env t =
      (({ t.lockStream with extPaused := false }.streamPlay 0).unlockStream, .BgmFadingIn) := by
  unfold meEndedTrack
  have h' : ({ t.lockStream with extPaused := false } : AudioStream).stream.queryState
      = .Paused := h
  simp only [h', if_true]

/-- The round of the `MePlaying` loop on a track that is not Paused. -/
theorem meEndedTrack_other (env : Env) (t : AudioStream) (h : t.stream.state ≠ .Paused) :
    meEndedTrack env t =
      ((if t.noResumeStop = true
          then ({ t.lockStream with extPaused := false }.setVolume env .External 1)
          else (({ t.lockStream with extPaused := false }.setVolume env .External 1).streamPlay
            0)).unlockStream,
        .MeNotPlaying) := by
  unfold meEndedTrack
  have h' : ¬ ({ t.lockStream with extPaused := false } : AudioStream).stream.queryState
      = .Paused := h
  simp only [h', if_false]
  cases hn : t.noResumeStop <;>
    simp [AudioStream.setVolume, AudioStream.updateVolume, AudioStream.record,
      AudioStream.lockStream, hn]

/-- `MePlaying` once the ME has ended: every track has its round of the loop,
and the watcher state is the one assigned in the last round. -/
theorem meWatchFun_mePlaying_ended (env : Env) (p : AudioPrivate)
    (hs : p.meWatchState = .MePlaying) (hme : p.me.stream.state ≠ .Playing) :
    meWatchFun env p = some { p with
      bgmTracks := (p.bgmTracks.map (meEndedTrack env)).map Prod.fst
      meWatchState := (p.bgmTracks.map (meEndedTrack env)).foldl (fun _ r => r.2)
        p.meWatchState } := by
  unfold meWatchFun
  have hme' : (p.me.lockStream).stream.queryState ≠ .Playing := hme
  simp only [hs, hme', if_true, AudioStream.lockStream_unlockStream, ne_eq, not_false_eq_true]

end AudioPrivate

/-! ## C16: the order of the lock calls of the watcher -/

theorem lockOrderFrom_track_rounds (m : Nat) (rest : List LockEvent) (is : List Nat) :
    (lockOrderFrom m 0 (is.flatMap (fun i => [LockEvent.lockTrack i, LockEvent.unlockTrack i])
      ++ rest)).2 = (lockOrderFrom m 0 rest).2 := by
  induction is with
  | nil => simp
  | cons i is ih =>
    simp only [List.flatMap_cons, List.cons_append, List.nil_append, lockOrderFrom,
      Nat.add_sub_cancel]
    exact ih

theorem lockOrderFrom_lock_tracks (rest : List LockEvent) (is : List Nat) :
    ∀ k, (lockOrderFrom 0 k (is.map LockEvent.lockTrack ++ rest)).1 =
      (lockOrderFrom 0 (k + is.length) rest).1 := by
  induction is with
  | nil => intro k; simp
  | cons i is ih =>
    intro k
    have h := ih (k + 1)
    have e : k + 1 + is.length = k + (is.length + 1) := by omega
    rw [e] at h
    simp only [List.map_cons, List.cons_append, lockOrderFrom, List.length_cons]
    simpa using h

theorem lockOrderFrom_unlock_tracks (m : Nat) (is : List Nat) :
    ∀ k, (lockOrderFrom m k (is.map LockEvent.unlockTrack)).1 = false := by
  induction is with
  | nil => intro k; rfl
  | cons i is ih =>
    intro k
    simp only [List.map_cons, lockOrderFrom, ih]

/-- C16, as stated, fails: with one BGM track, the pass in `BgmFadingOut`
(ME Playing) acquires the track mutex while holding the ME mutex, and the
pass in `BgmFadingIn` (primary track not Stopped) acquires the ME mutex while
holding the track mutex. -/
theorem watcher_lock_order_differs :
    meBeforeTrack (AudioPrivate.meWatchLocks { silentMixer with meWatchState := .BgmFadingOut })
      = true ∧
    trackBeforeMe (AudioPrivate.meWatchLocks reduckMixer) = true := by
  constructor
  · simp [meBeforeTrack, AudioPrivate.meWatchLocks, silentMixer, townChannel_eq,
      AudioPrivate.new, lockOrderFrom, List.range, List.range.loop]
  · simp [trackBeforeMe, AudioPrivate.meWatchLocks, reduckMixer, townChannel_eq,
      lockOrderFrom, List.range, List.range.loop]

/-- A round of lock and unlock per track: every track mutex is acquired with
the counts the rounds start from. -/
theorem acquisitionsFrom_track_rounds (m : Nat) (rest : List LockEvent) (is : List Nat) :
    acquisitionsFrom m 0 (is.flatMap (fun i => [LockEvent.lockTrack i, LockEvent.unlockTrack i])
      ++ rest) = is.map (fun i => (some i, m, 0)) ++ acquisitionsFrom m 0 rest := by
  induction is with
  | nil => simp
  | cons i is ih =>
    simp only [List.flatMap_cons, List.cons_append, List.nil_append, acquisitionsFrom,
      Nat.add_sub_cancel, List.map_cons]
    rw [← ih]
    rfl

theorem heldAfter_track_rounds (m : Nat) (rest : List LockEvent) (is : List Nat) :
    heldAfter m 0 (is.flatMap (fun i => [LockEvent.lockTrack i, LockEvent.unlockTrack i])
      ++ rest) = heldAfter m 0 rest := by
  induction is with
  | nil => simp
  | cons i is ih =>
    simp only [List.flatMap_cons, List.cons_append, List.nil_append, heldAfter,
      Nat.add_sub_cancel]
    exact ih

/-- Locking the tracks `s`, `s + 1`, ... in a row with `s` track mutexes held:
track `i` is acquired with `i` track mutexes held. -/
theorem acquisitionsFrom_lock_tracks (m : Nat) (rest : List LockEvent) (n : Nat) :
    ∀ s, acquisitionsFrom m s ((List.range' s n).map LockEvent.lockTrack ++ rest) =
      (List.range' s n).map (fun i => (some i, m, i)) ++ acquisitionsFrom m (s + n) rest := by
  induction n with
  | zero => intro s; simp
  | succ n ih =>
    intro s
    have h := ih (s + 1)
    have e : s + 1 + n = s + (n + 1) := by omega
    rw [e] at h
    simp only [List.range'_succ, List.map_cons, List.cons_append, acquisitionsFrom]
    simpa using h

theorem heldAfter_lock_tracks (m : Nat) (rest : List LockEvent) (is : List Nat) :
    ∀ k, heldAfter m k (is.map LockEvent.lockTrack ++ rest) =
      heldAfter m (k + is.length) rest := by
  induction is with
  | nil => intro k; simp
  | cons i is ih =>
    intro k
    have h := ih (k + 1)
    have e : k + 1 + is.length = k + (is.length + 1) := by omega
    rw [e] at h
    simp only [List.map_cons, List.cons_append, heldAfter, List.length_cons]
    simpa using h

theorem acquisitionsFrom_unlock_tracks (m : Nat) (is : List Nat) :
    ∀ k, acquisitionsFrom m k (is.map LockEvent.unlockTrack) = [] := by
  induction is with
  | nil => intro k; rfl
  | cons i is ih =>
    intro k
    simp only [List.map_cons, acquisitionsFrom, ih]

theorem heldAfter_unlock_tracks (m : Nat) (is : List Nat) :
    ∀ k, heldAfter m k (is.map LockEvent.unlockTrack) = (m, k - is.length) := by
  induction is with
  | nil => intro k; rfl
  | cons i is ih =>
    intro k
    simp only [List.map_cons, heldAfter, ih, List.length_cons]
    congr 1
    omega

/-- C16 (amended): within each watcher state the order is fixed, and every
pass releases what it acquired.  A pass in `MeNotPlaying` makes one
acquisition, the ME mutex, with nothing held.  A pass in `BgmFadingOut` (ME
Playing) or `MePlaying` (ME not Playing) acquires the ME mutex first, with
nothing held, and then the mutex of every track in index order, each with the
ME mutex held and no other track mutex held (ME before tracks, one track at a
time); otherwise it acquires the ME mutex only; it never acquires the ME mutex
while holding a track mutex.  A pass in `BgmFadingIn` on a mixer with tracks
acquires the mutex of every track in index order with the ME mutex not held,
track `i` with the `i` tracks before it held, and then, unless the primary
track is Stopped, the ME mutex with all track mutexes held (tracks before ME);
it never acquires a track mutex while holding the ME mutex. -/
theorem watcher_lock_order_per_state (p : AudioPrivate) :
    (p.meWatchState = .MeNotPlaying →
      acquisitionsFrom 0 0 (AudioPrivate.meWatchLocks p) = [(none, 0, 0)] ∧
      heldAfter 0 0 (AudioPrivate.meWatchLocks p) = (0, 0) ∧
      meBeforeTrack (AudioPrivate.meWatchLocks p) = false ∧
      trackBeforeMe (AudioPrivate.meWatchLocks p) = false) ∧
    ((p.meWatchState = .BgmFadingOut ∨ p.meWatchState = .MePlaying) →
      acquisitionsFrom 0 0 (AudioPrivate.meWatchLocks p) =
        (if (p.meWatchState = .BgmFadingOut ↔ p.me.stream.state = .Playing) then
          (none, 0, 0) :: (List.range p.bgmTracks.length).map (fun i => (some i, 1, 0))
        else [(none, 0, 0)]) ∧
      heldAfter 0 0 (AudioPrivate.meWatchLocks p) = (0, 0) ∧
      trackBeforeMe (AudioPrivate.meWatchLocks p) = false) ∧
    (p.meWatchState = .BgmFadingIn →
      (p.bgmTracks ≠ [] →
        acquisitionsFrom 0 0 (AudioPrivate.meWatchLocks p) =
          (List.range p.bgmTracks.length).map (fun i => (some i, 0, i)) ++
            (if (p.bgmTracks[0]?).map (fun t => t.stream.state) = some .Stopped then []
              else [(none, 0, p.bgmTracks.length)]) ∧
        heldAfter 0 0 (AudioPrivate.meWatchLocks p) = (0, 0)) ∧
      meBeforeTrack (AudioPrivate.meWatchLocks p) = false) := by
  have hloop : acquisitionsFrom 0 0 (.lockMe :: ((List.range p.bgmTracks.length).flatMap
        (fun i => [LockEvent.lockTrack i, LockEvent.unlockTrack i]) ++ [.unlockMe])) =
        (none, 0, 0) :: (List.range p.bgmTracks.length).map (fun i => (some i, 1, 0)) ∧
      heldAfter 0 0 (.lockMe :: ((List.range p.bgmTracks.length).flatMap
        (fun i => [LockEvent.lockTrack i, LockEvent.unlockTrack i]) ++ [.unlockMe])) = (0, 0) ∧
      trackBeforeMe (.lockMe :: ((List.range p.bgmTracks.length).flatMap
        (fun i => [LockEvent.lockTrack i, LockEvent.unlockTrack i]) ++ [.unlockMe])) = false := by
    refine ⟨?_, ?_, ?_⟩
    · simp only [acquisitionsFrom, acquisitionsFrom_track_rounds]
      simp [acquisitionsFrom]
    · simp only [heldAfter, heldAfter_track_rounds]
    · simp only [trackBeforeMe, lockOrderFrom, lockOrderFrom_track_rounds]
      simp
  have hshort : acquisitionsFrom 0 0 [.lockMe, .unlockMe] = [(none, 0, 0)] ∧
      heldAfter 0 0 [.lockMe, .unlockMe] = (0, 0) ∧
      meBeforeTrack [.lockMe, .unlockMe] = false ∧
      trackBeforeMe [.lockMe, .unlockMe] = false := by
    simp [acquisitionsFrom, heldAfter, meBeforeTrack, trackBeforeMe, lockOrderFrom]
  refine ⟨?_, ?_, ?_⟩
  · intro hs
    have h : AudioPrivate.meWatchLocks p = [.lockMe, .unlockMe] := by
      simp [AudioPrivate.meWatchLocks, hs]
    rw [h]
    exact hshort
  · intro hs
    rcases hs with hs | hs <;> by_cases hme : p.me.stream.state = .Playing
    · have h : AudioPrivate.meWatchLocks p = .lockMe :: ((List.range p.bgmTracks.length).flatMap
          (fun i => [LockEvent.lockTrack i, LockEvent.unlockTrack i]) ++ [.unlockMe]) := by
        simp [AudioPrivate.meWatchLocks, hs, hme]
      rw [h, if_pos (by simp [hs, hme])]
      exact hloop
    · have h : AudioPrivate.meWatchLocks p = [.lockMe, .unlockMe] := by
        simp [AudioPrivate.meWatchLocks, hs, hme]
      rw [h, if_neg (by simp [hs, hme])]
      exact ⟨hshort.1, hshort.2.1, hshort.2.2.2⟩
    · have h : AudioPrivate.meWatchLocks p = [.lockMe, .unlockMe] := by
        simp [AudioPrivate.meWatchLocks, hs, hme]
      rw [h, if_neg (by simp [hs, hme])]
      exact ⟨hshort.1, hshort.2.1, hshort.2.2.2⟩
    · have h : AudioPrivate.meWatchLocks p = .lockMe :: ((List.range p.bgmTracks.length).flatMap
          (fun i => [LockEvent.lockTrack i, LockEvent.unlockTrack i]) ++ [.unlockMe]) := by
        simp [AudioPrivate.meWatchLocks, hs, hme]
      rw [h, if_pos (by simp [hs, hme])]
      exact hloop
  · intro hs
    constructor
    · intro hN
      unfold AudioPrivate.meWatchLocks
      simp only [hs]
      cases htr : p.bgmTracks with
      | nil => exact absurd htr hN
      | cons track0 rest =>
        simp only [List.range_eq_range', acquisitionsFrom_lock_tracks, heldAfter_lock_tracks,
          List.getElem?_cons_zero, Option.map_some', Option.some.injEq, Nat.zero_add,
          List.length_range', List.length_cons]
        by_cases h0 : track0.stream.state = .Stopped
        · simp only [h0, if_true, acquisitionsFrom_unlock_tracks, heldAfter_unlock_tracks,
            List.length_range', List.append_nil]
          simp
        · simp only [h0, if_false, List.cons_append, List.nil_append, acquisitionsFrom,
            heldAfter, Nat.add_sub_cancel, acquisitionsFrom_unlock_tracks,
            heldAfter_unlock_tracks, List.length_range']
          simp
    · unfold AudioPrivate.meWatchLocks
      simp only [hs]
      cases htr : p.bgmTracks with
      | nil => rfl
      | cons track0 rest =>
        simp only [meBeforeTrack, lockOrderFrom_lock_tracks]
        split_ifs
        · exact lockOrderFrom_unlock_tracks _ _ _
        · simp only [List.cons_append, List.nil_append, lockOrderFrom]
          exact lockOrderFrom_unlock_tracks _ _ _

/-- C16, witness: the passes on concrete mixers.  `MeNotPlaying`: the ME mutex
only.  `MePlaying` with the ME over and two tracks: the ME mutex, then track 0
and track 1, each with the ME mutex held and no other track mutex held.
`BgmFadingIn` with one Playing track: track 0, then the ME mutex with the
track mutex held. -/
theorem watcher_lock_order_per_state_witness :
    acquisitionsFrom 0 0 (AudioPrivate.meWatchLocks silentMixer) = [(none, 0, 0)] ∧
    (acquisitionsFrom 0 0 (AudioPrivate.meWatchLocks duckedMixer) =
        [(none, 0, 0), (some 0, 1, 0), (some 1, 1, 0)] ∧
      heldAfter 0 0 (AudioPrivate.meWatchLocks duckedMixer) = (0, 0) ∧
      trackBeforeMe (AudioPrivate.meWatchLocks duckedMixer) = false) ∧
    (acquisitionsFrom 0 0 (AudioPrivate.meWatchLocks reduckMixer) =
        [(some 0, 0, 0), (none, 0, 1)] ∧
      heldAfter 0 0 (AudioPrivate.meWatchLocks reduckMixer) = (0, 0) ∧
      meBeforeTrack (AudioPrivate.meWatchLocks reduckMixer) = false) := by
  have h1 := (watcher_lock_order_per_state silentMixer).1 rfl
  have h2 := (watcher_lock_order_per_state duckedMixer).2.1 (Or.inr rfl)
  have h3 := (watcher_lock_order_per_state reduckMixer).2.2 rfl
  have h3' := h3.1 (by simp [reduckMixer])
  refine ⟨h1.1, ⟨?_, h2.2.1, h2.2.2⟩, ⟨?_, h3'.2, h3.2⟩⟩
  · rw [h2.1]
    simp [duckedMixer, List.range, List.range.loop]
  · rw [h3'.1]
    simp [reduckMixer, townChannel_eq, List.range, List.range.loop]

/-! ## C17: the watcher pass without tracks -/

/-- C17, the code at the failing input: the constructor accepts a track count of 0; on that
mixer the watcher reaches `BgmFadingIn` (an ME starts: `BgmFadingOut`; the ME
is over: `BgmFadingIn`), and the pass in `BgmFadingIn` indexes `bgmTracks[0]`
on the empty vector. -/
theorem meWatchFun_undefined_without_tracks :
    (AudioPrivate.new 0).bgmTracks = [] ∧
    AudioPrivate.meWatchFun env0 { AudioPrivate.new 0 with me := townChannel } =
      some { AudioPrivate.new 0 with me := townChannel, meWatchState := .BgmFadingOut } ∧
    AudioPrivate.meWatchFun env0 { AudioPrivate.new 0 with meWatchState := .BgmFadingOut } =
      some emptyFadingInMixer ∧
    AudioPrivate.meWatchFun env0 emptyFadingInMixer = none := by
  refine ⟨rfl, ?_, ?_, rfl⟩
  · rw [AudioPrivate.meWatchFun_meNotPlaying env0 _ rfl (by simp [townChannel_eq])]
    simp [AudioPrivate.new]
  · rw [AudioPrivate.meWatchFun_bgmFadingOut_ended env0 _ rfl
      (by simp [AudioPrivate.new, AudioStream.new])]
    rfl

/-- Apart from that input, on a mixer with at least one BGM track, or in any watcher
state but `BgmFadingIn`, one pass of the watcher is defined for every ME and
BGM channel state: it indexes no track out of range and raises nothing, every
mutex (ME, BGS, each track) is held afterwards as often as before, the number
of tracks is unchanged, and the pass ends in one of the four watcher states. -/
theorem meWatchFun_defined (env : Env) (p : AudioPrivate)
    (h : p.bgmTracks ≠ [] ∨ p.meWatchState ≠ .BgmFadingIn) :
    ∃ q, AudioPrivate.meWatchFun env p = some q ∧
      q.me.lockDepth = p.me.lockDepth ∧ q.bgs.lockDepth = p.bgs.lockDepth ∧
      q.bgmTracks.length = p.bgmTracks.length ∧
      (∀ i : Nat, (q.bgmTracks[i]?).map (fun t => t.lockDepth) =
        (p.bgmTracks[i]?).map (fun t => t.lockDepth)) ∧
      (q.meWatchState = .MeNotPlaying ∨ q.meWatchState = .BgmFadingOut ∨
        q.meWatchState = .MePlaying ∨ q.meWatchState = .BgmFadingIn) := by
  have hstates : ∀ s : AudioPrivate.MeWatchState, s = .MeNotPlaying ∨ s = .BgmFadingOut ∨
      s = .MePlaying ∨ s = .BgmFadingIn := by
    intro s; cases s <;> simp
  cases hs : p.meWatchState with
  | MeNotPlaying =>
    by_cases hme : p.me.stream.state = .Playing
    · refine ⟨_, AudioPrivate.meWatchFun_meNotPlaying env p hs hme, rfl, rfl, by simp, ?_,
        hstates _⟩
      intro i
      simp only [List.getElem?_map, Option.map_map]
      rfl
    · exact ⟨_, AudioPrivate.meWatchFun_meNotPlaying_idle env p hs hme, rfl, rfl, rfl,
        fun _ => rfl, hstates _⟩
  | BgmFadingOut =>
    by_cases hme : p.me.stream.state = .Playing
    · have hlock : ∀ i : Nat, ((p.bgmTracks.map (AudioPrivate.fadedTrack env))[i]?).map
          (fun t => t.lockDepth) = (p.bgmTracks[i]?).map (fun t => t.lockDepth) := by
        intro i
        simp only [List.getElem?_map, Option.map_map]
        cases p.bgmTracks[i]? with
        | none => rfl
        | some t => simp [AudioPrivate.fadedTrack_lockDepth]
      by_cases hdone : p.bgmTracks ≠ [] ∧
          ∀ t ∈ p.bgmTracks.map (AudioPrivate.fadedTrack env), t.stream.state ≠ .Playing
      · exact ⟨_, (AudioPrivate.meWatchFun_bgmFadingOut env p hs hme).1 hdone, rfl, rfl,
          by simp, hlock, hstates _⟩
      · exact ⟨_, (AudioPrivate.meWatchFun_bgmFadingOut env p hs hme).2 hdone, rfl, rfl,
          by simp, hlock, hstates _⟩
    · exact ⟨_, AudioPrivate.meWatchFun_bgmFadingOut_ended env p hs hme, rfl, rfl, rfl,
        fun _ => rfl, hstates _⟩
  | MePlaying =>
    by_cases hme : p.me.stream.state = .Playing
    · exact ⟨_, AudioPrivate.meWatchFun_mePlaying env p hs hme, rfl, rfl, rfl,
        fun _ => rfl, hstates _⟩
    · refine ⟨_, AudioPrivate.meWatchFun_mePlaying_ended env p hs hme, rfl, rfl, by simp, ?_,
        hstates _⟩
      intro i
      simp only [List.getElem?_map, Option.map_map]
      cases p.bgmTracks[i]? with
      | none => rfl
      | some t => simp [AudioPrivate.meEndedTrack_lockDepth]
  | BgmFadingIn =>
    have hne : p.bgmTracks ≠ [] := by
      rcases h with h | h
      · exact h
      · exact absurd hs h
    obtain ⟨track0, rest, htr⟩ := List.exists_cons_of_ne_nil hne
    refine ⟨_, AudioPrivate.meWatchFun_bgmFadingIn env p track0 rest hs htr, ?_, ?_, ?_, ?_,
      hstates _⟩
    · split_ifs <;> rfl
    · split_ifs <;> rfl
    · split_ifs <;> simp
    · intro i
      split_ifs <;>
        exact AudioPrivate.lockDepth_lock_map_unlock _ (fun t => by rfl) _ i

/-- The pass of the watcher on `duckedMixer` (two tracks) is defined. -/
theorem meWatchFun_defined_witness :
    ∃ q, AudioPrivate.meWatchFun env0 duckedMixer = some q ∧
      q.me.lockDepth = duckedMixer.me.lockDepth ∧ q.bgs.lockDepth = duckedMixer.bgs.lockDepth ∧
      q.bgmTracks.length = duckedMixer.bgmTracks.length ∧
      (∀ i : Nat, (q.bgmTracks[i]?).map (fun t => t.lockDepth) =
        (duckedMixer.bgmTracks[i]?).map (fun t => t.lockDepth)) ∧
      (q.meWatchState = .MeNotPlaying ∨ q.meWatchState = .BgmFadingOut ∨
        q.meWatchState = .MePlaying ∨ q.meWatchState = .BgmFadingIn) :=
  meWatchFun_defined env0 duckedMixer (Or.inl (by simp [duckedMixer]))

/-! ## C18 to C20: the passes in `BgmFadingOut` and `MePlaying` -/

/-- C18: a watcher pass in `BgmFadingOut` with the ME stream Playing and at
least one track is defined and keeps the number of tracks; a track that is
Playing with `External - fadeOutStep ≥ 0` gets External decreased by exactly
`fadeOutStep`, stays Playing and has only that `setVolume` issued; every
other track gets External 0 and `pause` issued on its stream, which is not
Playing afterwards; and the next state is `MePlaying` exactly when no BGM
track is Playing after the pass, `BgmFadingOut` otherwise. -/
theorem fadingOut_pass (env : Env) (p : AudioPrivate)
    (hs : p.meWatchState = .BgmFadingOut) (hme : p.me.stream.state = .Playing)
    (hN : p.bgmTracks ≠ []) :
    ∃ q, AudioPrivate.meWatchFun env p = some q ∧
      q.bgmTracks.length = p.bgmTracks.length ∧
      (∀ (i : Nat) (t : AudioStream), p.bgmTracks[i]? = some t →
        ∃ t', q.bgmTracks[i]? = some t' ∧
          ((t.stream.state = .Playing ∧
              0 ≤ t.getVolume .External - AudioPrivate.fadeOutStep env) →
            t'.getVolume .External = t.getVolume .External - AudioPrivate.fadeOutStep env ∧
            t'.stream.state = .Playing ∧
            ∃ v, t'.trace = t.trace ++ [(.setVolume v, true)]) ∧
          (¬ (t.stream.state = .Playing ∧
              0 ≤ t.getVolume .External - AudioPrivate.fadeOutStep env) →
            t'.getVolume .External = 0 ∧
            t'.stream.state ≠ .Playing ∧
            t'.stream.state = (if t.stream.state = .Playing then .Paused else t.stream.state) ∧
            ∃ v, t'.trace = t.trace ++ [(.setVolume v, true), (.pause, true)])) ∧
      (q.meWatchState = .MePlaying ↔ ∀ t' ∈ q.bgmTracks, t'.stream.state ≠ .Playing) ∧
      (q.meWatchState ≠ .MePlaying → q.meWatchState = .BgmFadingOut) := by
  have htrack : ∀ (i : Nat) (t : AudioStream), p.bgmTracks[i]? = some t →
      ∃ t', (p.bgmTracks.map (AudioPrivate.fadedTrack env))[i]? = some t' ∧
        ((t.stream.state = .Playing ∧
            0 ≤ t.getVolume .External - AudioPrivate.fadeOutStep env) →
          t'.getVolume .External = t.getVolume .External - AudioPrivate.fadeOutStep env ∧
          t'.stream.state = .Playing ∧
          ∃ v, t'.trace = t.trace ++ [(.setVolume v, true)]) ∧
        (¬ (t.stream.state = .Playing ∧
            0 ≤ t.getVolume .External - AudioPrivate.fadeOutStep env) →
          t'.getVolume .External = 0 ∧
          t'.stream.state ≠ .Playing ∧
          t'.stream.state = (if t.stream.state = .Playing then .Paused else t.stream.state) ∧
          ∃ v, t'.trace = t.trace ++ [(.setVolume v, true), (.pause, true)]) := by
    intro i t hit
    refine ⟨AudioPrivate.fadedTrack env t, by simp [hit], ?_, ?_⟩
    · rintro ⟨hp, hv⟩
      have hc : ¬ (t.getVolume .External - AudioPrivate.fadeOutStep env < 0 ∨
          t.stream.state ≠ .Playing) := by
        push_neg; exact ⟨hv, hp⟩
      obtain ⟨v, htr⟩ := AudioPrivate.fadedTrack_trace env t
      rw [if_neg hc] at htr
      exact ⟨by rw [AudioPrivate.fadedTrack_external, if_neg hc],
        (AudioPrivate.fadedTrack_playing_iff env t).2 ⟨hv, hp⟩, v, htr⟩
    · intro hn
      have hc : t.getVolume .External - AudioPrivate.fadeOutStep env < 0 ∨
          t.stream.state ≠ .Playing := by
        by_contra hcon
        push_neg at hcon
        exact hn ⟨hcon.2, hcon.1⟩
      obtain ⟨v, htr⟩ := AudioPrivate.fadedTrack_trace env t
      rw [if_pos hc] at htr
      refine ⟨by rw [AudioPrivate.fadedTrack_external, if_pos hc], ?_, ?_, v, htr⟩
      · intro hpl
        have := (AudioPrivate.fadedTrack_playing_iff env t).1 hpl
        exact hn ⟨this.2, this.1⟩
      · rw [AudioPrivate.fadedTrack_state, if_pos hc]
  by_cases hdone : p.bgmTracks ≠ [] ∧
      ∀ t ∈ p.bgmTracks.map (AudioPrivate.fadedTrack env), t.stream.state ≠ .Playing
  · refine ⟨_, (AudioPrivate.meWatchFun_bgmFadingOut env p hs hme).1 hdone, by simp, htrack,
      ?_, ?_⟩
    · exact ⟨fun _ => hdone.2, fun _ => rfl⟩
    · intro h; exact absurd rfl h
  · refine ⟨_, (AudioPrivate.meWatchFun_bgmFadingOut env p hs hme).2 hdone, by simp, htrack,
      ?_, ?_⟩
    · constructor
      · intro h
        rw [show ({ p with bgmTracks := p.bgmTracks.map (AudioPrivate.fadedTrack env) } :
          AudioPrivate).meWatchState = p.meWatchState from rfl, hs] at h
        cases h
      · intro h
        exact absurd ⟨hN, h⟩ hdone
    · intro _
      exact hs

/-- C18, witness: the pass on a mixer in `BgmFadingOut` with a Playing and a
never-played track. -/
theorem fadingOut_pass_witness :
    ∃ q, AudioPrivate.meWatchFun env0 { duckMixer with meWatchState := .BgmFadingOut } = some q ∧
      q.bgmTracks.length = 2 ∧
      q.meWatchState = .BgmFadingOut ∧
      (q.bgmTracks[0]?).map (fun t => (t.stream.state, t.getVolume .External))
        = some (.Playing, 19 / 20) ∧
      (q.bgmTracks[1]?).map (fun t => (t.stream.state, t.getVolume .External))
        = some (.Closed, 0) := by
  obtain ⟨q, hq, hlen, htr, hst, hnot⟩ := fadingOut_pass env0
    { duckMixer with meWatchState := .BgmFadingOut } rfl (by simp [duckMixer, townChannel_eq])
    (by simp [duckMixer])
  obtain ⟨t0, h0, h0a, -⟩ := htr 0 townChannel (by simp [duckMixer])
  obtain ⟨t1, h1, -, h1b⟩ := htr 1 AudioStream.new (by simp [duckMixer])
  have hstep : AudioPrivate.fadeOutStep env0 = 1 / 20 := by
    norm_num [AudioPrivate.fadeOutStep, env0]
  have hext : townChannel.getVolume .External = 1 := by
    simp [townChannel_eq, AudioStream.getVolume]
  have e0 := h0a ⟨by simp [townChannel_eq], by rw [hstep, hext]; norm_num⟩
  have e1 := h1b (by simp [AudioStream.new])
  refine ⟨q, hq, by simpa [duckMixer] using hlen, ?_, ?_, ?_⟩
  · apply hnot
    intro hmp
    exact (hst.1 hmp) t0 (List.getElem?_mem h0) e0.2.1
  · rw [h0]
    simp only [Option.map_some', e0.1, e0.2.1, hstep, hext]
    norm_num
  · rw [h1]
    simp only [Option.map_some', e1.1, e1.2.2.1]
    simp [AudioStream.new]

/-- C19: a watcher pass in `MePlaying` changes nothing while the ME stream is
Playing; otherwise it is defined, keeps the number of tracks, clears
`extPaused` on every BGM channel, resumes every Paused track (`play` issued,
stream Playing, External factor unchanged), and gives every other track
External factor 1 with `play` issued on its stream exactly when its
`noResumeStop` flag is not set. -/
theorem mePlaying_pass (env : Env) (p : AudioPrivate) (hs : p.meWatchState = .MePlaying) :
    (p.me.stream.state = .Playing → AudioPrivate.meWatchFun env p = some p) ∧
    (p.me.stream.state ≠ .Playing →
      ∃ q, AudioPrivate.meWatchFun env p = some q ∧
        q.bgmTracks.length = p.bgmTracks.length ∧
        ∀ (i : Nat) (t : AudioStream), p.bgmTracks[i]? = some t →
          ∃ t', q.bgmTracks[i]? = some t' ∧ t'.extPaused = false ∧
            (t.stream.state = .Paused →
              t'.stream.state = .Playing ∧
              t'.getVolume .External = t.getVolume .External ∧
              t'.trace = t.trace ++ [(.play 0, true)]) ∧
            (t.stream.state ≠ .Paused →
              t'.getVolume .External = 1 ∧
              ∃ v, t'.trace = t.trace ++ [(.setVolume v, true)] ++
                (if t.noResumeStop = true then [] else [(.play 0, true)]))) := by
  refine ⟨AudioPrivate.meWatchFun_mePlaying env p hs, ?_⟩
  intro hme
  refine ⟨_, AudioPrivate.meWatchFun_mePlaying_ended env p hs hme, by simp, ?_⟩
  intro i t hit
  refine ⟨(AudioPrivate.meEndedTrack env t).1, by simp [hit], ?_, ?_, ?_⟩
  · by_cases hP : t.stream.state = .Paused
    · rw [AudioPrivate.meEndedTrack_paused env t hP]; rfl
    · rw [AudioPrivate.meEndedTrack_other env t hP]
      split_ifs <;> rfl
  · intro hP
    rw [AudioPrivate.meEndedTrack_paused env t hP]
    refine ⟨?_, rfl, ?_⟩
    · simp [AudioStream.unlockStream, AudioStream.streamPlay, AudioStream.record,
        AudioStream.lockStream, ALStream.play, hP]
    · simp [AudioStream.unlockStream, AudioStream.streamPlay, AudioStream.record,
        AudioStream.lockStream]
  · intro hP
    rw [AudioPrivate.meEndedTrack_other env t hP]
    obtain ⟨v, hv⟩ := AudioStream.setVolume_trace env
      ({ t.lockStream with extPaused := false }) .External 1
    refine ⟨?_, v, ?_⟩
    · split_ifs <;>
        simp [AudioStream.unlockStream, AudioStream.streamPlay, AudioStream.record,
          AudioStream.setVolume, AudioStream.updateVolume, AudioStream.getVolume]
    · split_ifs
      · simp only [AudioStream.unlockStream, hv]
        simp [AudioStream.lockStream]
      · simp only [AudioStream.unlockStream, AudioStream.streamPlay, AudioStream.record, hv]
        simp [AudioStream.lockStream, AudioStream.setVolume, AudioStream.updateVolume,
          AudioStream.record]

/-- C19, witness: the pass on `duckedMixer` (ME over, track 0 Paused, track 1
never played) resumes track 0 at its External factor 0. -/
theorem mePlaying_pass_witness :
    ∃ q, AudioPrivate.meWatchFun env0 duckedMixer = some q ∧
      q.bgmTracks.length = duckedMixer.bgmTracks.length ∧
      ∃ t', q.bgmTracks[0]? = some t' ∧ t'.extPaused = false ∧ t'.stream.state = .Playing := by
  obtain ⟨q, hq, hlen, htr⟩ := (mePlaying_pass env0 duckedMixer rfl).2 (by simp [duckedMixer])
  have hP : (duckedTrack pausedChannel).stream.state = .Paused := by
    simp [duckedTrack, pausedChannel, townChannel_eq, AudioStream.lockStream,
      AudioStream.unlockStream, AudioStream.streamPause, AudioStream.record, ALStream.pause]
  obtain ⟨t', h1, h2, h3, -⟩ := htr 0 (duckedTrack pausedChannel) (by simp [duckedMixer])
  exact ⟨q, hq, hlen, t', h1, h2, (h3 hP).1⟩

/-- C20, the code at the failing input: the ME has ended, track 0 is Paused and
track 1 was never played; the pass of the watcher resumes track 0 but ends in
`MeNotPlaying`, with track 0 Playing at External factor 0. -/
theorem mePlaying_last_track_decides :
    duckedMixer.meWatchState = .MePlaying ∧
    duckedMixer.me.stream.state ≠ .Playing ∧
    (duckedMixer.bgmTracks[0]?).map (fun t => t.stream.state) = some .Paused ∧
    ∃ q, AudioPrivate.meWatchFun env0 duckedMixer = some q ∧
      q.meWatchState = .MeNotPlaying ∧
      (q.bgmTracks[0]?).map (fun t => (t.stream.state, t.getVolume .External))
        = some (.Playing, 0) := by
  refine ⟨rfl, by simp [duckedMixer], ?_, _,
    AudioPrivate.meWatchFun_mePlaying_ended env0 duckedMixer rfl (by simp [duckedMixer]), ?_, ?_⟩
  · simp [duckedMixer, duckedTrack, pausedChannel, townChannel_eq, AudioStream.lockStream,
      AudioStream.unlockStream, AudioStream.streamPause, AudioStream.record, ALStream.pause]
  · simp [duckedMixer, duckedTrack, pausedChannel, townChannel_eq, AudioStream.lockStream,
      AudioStream.unlockStream, AudioStream.streamPause, AudioStream.record, ALStream.pause,
      AudioPrivate.meEndedTrack, ALStream.queryState, AudioStream.new, AudioStream.setVolume,
      AudioStream.updateVolume, AudioStream.streamPlay, ALStream.play]
  · simp [duckedMixer, duckedTrack, pausedChannel, townChannel_eq, AudioStream.lockStream,
      AudioStream.unlockStream, AudioStream.streamPause, AudioStream.record, ALStream.pause,
      AudioPrivate.meEndedTrack, ALStream.queryState, AudioStream.new, AudioStream.setVolume,
      AudioStream.updateVolume, AudioStream.streamPlay, ALStream.play, AudioStream.getVolume]

/-! ## C21 and C22: the pass in `BgmFadingIn` -/

/-- C21: a watcher pass in `BgmFadingIn` with the primary track not Stopped and
the ME stream not Playing is defined and keeps the tracks in place; with
`v` the primary track's External factor plus `fadeInStep`, every BGM channel's
External factor becomes `min v 1`, and the next state is `MeNotPlaying` when
`1 ≤ v` and `BgmFadingIn` otherwise. -/
theorem fadingIn_pass (env : Env) (p : AudioPrivate) (track0 : AudioStream)
    (rest : List AudioStream) (hsleep : 0 < 1000 / env.AUDIO_SLEEP)
    (hs : p.meWatchState = .BgmFadingIn) (htr : p.bgmTracks = track0 :: rest)
    (h0 : track0.stream.state ≠ .Stopped) (hme : p.me.stream.state ≠ .Playing) :
    ∃ q, AudioPrivate.meWatchFun env p = some q ∧
      q.bgmTracks.length = p.bgmTracks.length ∧
      (∀ t' ∈ q.bgmTracks, t'.getVolume .External =
        min (track0.getVolume .External + AudioPrivate.fadeInStep env) 1) ∧
      (1 ≤ track0.getVolume .External + AudioPrivate.fadeInStep env →
        q.meWatchState = .MeNotPlaying) ∧
      (track0.getVolume .External + AudioPrivate.fadeInStep env < 1 →
        q.meWatchState = .BgmFadingIn) := by
  have _ := hsleep
  refine ⟨_, AudioPrivate.meWatchFun_bgmFadingIn env p track0 rest hs htr, ?_⟩
  rw [if_neg h0, if_neg hme]
  refine ⟨by simp, ?_, ?_, ?_⟩
  · intro t' ht'
    simp only [List.map_map, List.mem_map, Function.comp_apply] at ht'
    obtain ⟨t, -, rfl⟩ := ht'
    by_cases hv : 1 ≤ track0.getVolume .External + AudioPrivate.fadeInStep env
    · rw [if_pos hv, min_eq_right hv]
      simp [AudioStream.unlockStream, AudioStream.setVolume, AudioStream.updateVolume,
        AudioStream.record, AudioStream.getVolume]
    · rw [if_neg hv, min_eq_left (le_of_lt (not_le.1 hv))]
      simp [AudioStream.unlockStream, AudioStream.setVolume, AudioStream.updateVolume,
        AudioStream.record, AudioStream.getVolume]
  · intro hv
    simp [hv]
  · intro hv
    simp [not_le.2 hv]

/-- C21, witness: one track fading in from External 2/5 with
`fadeInStep = 1/100`; the pass is defined and stays in `BgmFadingIn`. -/
theorem fadingIn_pass_witness :
    ∃ q, AudioPrivate.meWatchFun env0 fadingInMixer = some q ∧
      q.bgmTracks.length = fadingInMixer.bgmTracks.length ∧
      (∀ t' ∈ q.bgmTracks, t'.getVolume .External =
        min ((2 / 5 : ℚ) + AudioPrivate.fadeInStep env0) 1) ∧
      q.meWatchState = .BgmFadingIn := by
  have hext : ({ townChannel with
      volumes := fun t => if t = .External then 2 / 5 else townChannel.volumes t } :
      AudioStream).getVolume .External = 2 / 5 := by
    simp [AudioStream.getVolume]
  obtain ⟨q, hq, hlen, hvol, -, hstay⟩ := fadingIn_pass env0 fadingInMixer
    { townChannel with
      volumes := fun t => if t = .External then 2 / 5 else townChannel.volumes t } []
    (by decide) rfl rfl (by simp [townChannel_eq])
    (by simp [fadingInMixer, AudioStream.new])
  rw [hext] at hvol hstay
  exact ⟨q, hq, hlen, hvol, hstay (by norm_num [AudioPrivate.fadeInStep, env0])⟩

/-- C22: a watcher pass in `BgmFadingIn` in which the primary track's stream
is Stopped is defined, gives every BGM channel the External factor 1 and ends
in `MeNotPlaying`, whatever the ME stream and the other tracks do; the ME
channel is not touched. -/
theorem fadingIn_primary_stopped (env : Env) (p : AudioPrivate) (track0 : AudioStream)
    (rest : List AudioStream)
    (hs : p.meWatchState = .BgmFadingIn) (htr : p.bgmTracks = track0 :: rest)
    (h0 : track0.stream.state = .Stopped) :
    ∃ q, AudioPrivate.meWatchFun env p = some q ∧
      q.bgmTracks.length = p.bgmTracks.length ∧
      (∀ t' ∈ q.bgmTracks, t'.getVolume .External = 1) ∧
      q.meWatchState = .MeNotPlaying ∧
      q.me = p.me := by
  refine ⟨_, AudioPrivate.meWatchFun_bgmFadingIn env p track0 rest hs htr, ?_⟩
  rw [if_pos h0]
  refine ⟨by simp, ?_, rfl, rfl⟩
  intro t' ht'
  simp only [List.map_map, List.mem_map, Function.comp_apply] at ht'
  obtain ⟨t, -, rfl⟩ := ht'
  simp [AudioStream.unlockStream, AudioStream.setVolume, AudioStream.updateVolume,
    AudioStream.record, AudioStream.getVolume]

/-- C22, witness: the primary track stopped mid-fade-in while the ME plays
again; the pass restores External and ends in `MeNotPlaying`. -/
theorem fadingIn_primary_stopped_witness :
    stoppedFadeInMixer.me.stream.state = .Playing ∧
    ∃ q, AudioPrivate.meWatchFun env0 stoppedFadeInMixer = some q ∧
      q.bgmTracks.length = stoppedFadeInMixer.bgmTracks.length ∧
      (∀ t' ∈ q.bgmTracks, t'.getVolume .External = 1) ∧
      q.meWatchState = .MeNotPlaying ∧
      q.me = stoppedFadeInMixer.me :=
  ⟨by simp [stoppedFadeInMixer, reduckMixer, townChannel_eq],
    fadingIn_primary_stopped env0 stoppedFadeInMixer _ [] rfl rfl rfl⟩

/-! ## The fade workers and the waits of `finiFadeOutInt` -/

namespace AudioStream

/-- What a pass of the fade-out worker does to the worker bookkeeping: it
leaves the fade-in worker and its own handle alone, never sets `active`, and
clears it when a finish request is pending. -/
theorem fadeOutThread_workers (env : Env) (e : Nat) (c : AudioStream) :
    (c.fadeOutThread env e).1.fadeIn = c.fadeIn ∧
    (c.fadeOutThread env e).1.fade.thread = c.fade.thread ∧
    ((c.fadeOutThread env e).1.fade.active = true → c.fade.active = true) ∧
    (c.fade.reqFini = true → (c.fadeOutThread env e).1.fade.active = false) := by
  unfold fadeOutThread
  dsimp only
  split_ifs <;>
    simp_all [lockStream, unlockStream, setVolume, updateVolume, record, streamStop]

/-- What a pass of the fade-in worker does to the worker bookkeeping. -/
theorem fadeInThread_workers (env : Env) (e : Nat) (c : AudioStream) :
    (c.fadeInThread env e).1.fade = c.fade ∧
    (c.fadeInThread env e).1.fadeIn.thread = c.fadeIn.thread ∧
    ((c.fadeInThread env e).1.fadeIn.running = true → c.fadeIn.running = true) ∧
    (c.fadeIn.rqFini = true → (c.fadeInThread env e).1.fadeIn.running = false) := by
  unfold fadeInThread
  dsimp only
  split_ifs <;>
    simp_all [lockStream, unlockStream, setVolume, updateVolume, record]

/-- After the waits of `finiFadeOutInt` both handles are clear, whatever the
channel was doing. -/
theorem finiFadeOutInt_handles (env : Env) (c : AudioStream) :
    (c.finiFadeOutInt env).fade.thread = false ∧
    (c.finiFadeOutInt env).fadeIn.thread = false := by
  unfold finiFadeOutInt
  dsimp only
  by_cases h1 : c.fade.thread = true <;> by_cases h2 : c.fade.active = true <;>
    by_cases h3 : c.fadeIn.thread = true <;> by_cases h4 : c.fadeIn.running = true <;>
    simp [h1, h2, h3, h4, (fadeOutThread_workers env 0 _).1, (fadeInThread_workers env 0 _).1]

/-- After the waits of `finiFadeOutInt` no worker the channel tracks is
running. -/
theorem finiFadeOutInt_noWorker (env : Env) (c : AudioStream) (h : c.WorkersTracked) :
    (c.finiFadeOutInt env).NoWorker := by
  obtain ⟨hout, hin⟩ := h
  unfold finiFadeOutInt NoWorker
  dsimp only
  by_cases h1 : c.fade.thread = true <;> by_cases h2 : c.fade.active = true <;>
    by_cases h3 : c.fadeIn.thread = true <;> by_cases h4 : c.fadeIn.running = true <;>
    simp_all [(fadeOutThread_workers env 0 _).1, (fadeInThread_workers env 0 _).1,
      (fadeOutThread_workers env 0 _).2.2.2, (fadeInThread_workers env 0 _).2.2.2]

end AudioStream

/-! ## The full path of `AudioStream::play` -/

/-- The state `ALStream::play` leaves: a stream with a source is Playing. -/
theorem ALStream.play_state (o : ℚ) (s : ALStream) :
    (s.play o).state = if s.state = .Closed then .Closed else .Playing := by
  unfold ALStream.play
  split <;> simp_all

namespace AudioStream

/-- When `play` takes neither the no-op nor the in-place path and the open,
if there is one, succeeds, it is the switch followed by the tail. -/
theorem play_full_eq (env : Env) (c : AudioStream) (filename : String)
    (volume pitch : Int) (offset : ℚ)
    (hfull : ¬ (filename = c.current.filename ∧
      ((c.finiFadeOutInt env).stream.state = .Playing ∨
        (c.finiFadeOutInt env).stream.state = .Paused)))
    (hopen : filename ≠ c.current.filename → env.canOpen filename = true) :
    c.play env filename volume pitch offset =
      (((c.finiFadeOutInt env).lockStream).playSwitch env filename).playTail env filename
        ((clamp volume 0 100 : ℚ) / 100) ((clamp pitch 50 150 : ℚ) / 100) offset := by
  obtain ⟨hcur, -, -, -⟩ := framed_finiFadeOutInt env c
  unfold play
  simp only [lockStream, ALStream.queryState, hcur]
  rw [if_neg (fun h => hfull ⟨h.1, h.2.2.2⟩), if_neg (fun h => hfull h)]
  by_cases hd : filename = c.current.filename
  · cases hst : (c.finiFadeOutInt env).stream.state <;>
      simp [playStopped, playClosed, playSwitch, hd, hst, hcur, ALStream.queryState]
  · have ho := hopen hd
    cases hst : (c.finiFadeOutInt env).stream.state <;>
      simp [playStopped, playClosed, playSwitch, hd, hst, hcur, ALStream.queryState,
        streamOpen, ALStream.open_, ho, streamStop, streamClose, record, ALStream.stop,
        ALStream.close]

/-- What the switch of `play` does when the open, if there is one, succeeds. -/
theorem playSwitch_spec (env : Env) (filename : String) (c : AudioStream)
    (hlock : 0 < c.lockDepth)
    (hopen : filename ≠ c.current.filename → env.canOpen filename = true) :
    (c.playSwitch env filename).current = c.current ∧
    (c.playSwitch env filename).volumes = c.volumes ∧
    (c.playSwitch env filename).extPaused = c.extPaused ∧
    (c.playSwitch env filename).noResumeStop = c.noResumeStop ∧
    (c.playSwitch env filename).fade = c.fade ∧
    (c.playSwitch env filename).fadeIn = c.fadeIn ∧
    (c.playSwitch env filename).lockDepth = c.lockDepth ∧
    (c.playSwitch env filename).trace = c.trace ++
      ((if c.stream.state = .Playing ∨ c.stream.state = .Paused then [(.stop, true)] else []) ++
        (if c.stream.state ≠ .Closed ∧ filename ≠ c.current.filename
          then [(.close, true)] else []) ++
        (if filename ≠ c.current.filename then [(.opened filename, true)] else [])) ∧
    (c.playSwitch env filename).stream.state =
      (if filename ≠ c.current.filename then .Stopped
        else if c.stream.state = .Playing ∨ c.stream.state = .Paused then .Stopped
        else c.stream.state) := by
  by_cases hd : filename = c.current.filename
  · cases hst : c.stream.state <;>
      simp [playSwitch, hd, hst, ALStream.queryState, streamStop, record, ALStream.stop, hlock]
  · have ho := hopen hd
    cases hst : c.stream.state <;>
      simp [playSwitch, hd, hst, ALStream.queryState, streamStop, streamClose, streamOpen,
        record, ALStream.stop, ALStream.close, ALStream.open_, ho, hlock]

/-- What the tail of `play` does on a channel whose fade-in handle is clear. -/
theorem playTail_spec (env : Env) (filename : String) (v p offset : ℚ) (c : AudioStream)
    (hlock : 0 < c.lockDepth) (hthread : c.fadeIn.thread = false) :
    (c.playTail env filename v p offset).2 = .ok ∧
    (c.playTail env filename v p offset).1.current = ⟨filename, v, p⟩ ∧
    (c.playTail env filename v p offset).1.getVolume .Base = v ∧
    (c.playTail env filename v p offset).1.extPaused = c.extPaused ∧
    (c.playTail env filename v p offset).1.noResumeStop =
      (if c.extPaused = true then false else c.noResumeStop) ∧
    (c.playTail env filename v p offset).1.stream.state =
      (if c.extPaused = true then c.stream.state
        else if c.stream.state = .Closed then .Closed else .Playing) ∧
    (c.playTail env filename v p offset).1.fade = c.fade ∧
    (c.playTail env filename v p offset).1.fadeIn =
      (if 0 < offset then ⟨true, false, false, true⟩ else c.fadeIn) ∧
    (c.playTail env filename v p offset).1.lockDepth = c.lockDepth - 1 ∧
    ∃ pre, (c.playTail env filename v p offset).1.trace = c.trace ++
        (pre ++ (if c.extPaused = true then [] else [(.play offset, true)])) ∧
      ∀ e ∈ pre, e.1.isLifecycle = false := by
  by_cases hoff : 0 < offset <;> cases hext : c.extPaused
  all_goals
    simp [playTail, startFadeIn, hthread, hoff, hext, setVolume, updateVolume, record,
      streamSetPitch, streamPlay, unlockStream, getVolume, hlock, ALStream.play_state,
      ALStream.setVolume_state, ALStream.setPitch_state]
  all_goals
    first
      | exact ⟨[_, _, _], rfl, by simp [StreamOp.isLifecycle]⟩
      | exact ⟨[_, _], rfl, by simp [StreamOp.isLifecycle]⟩
      | simp [StreamOp.isLifecycle]

end AudioStream

/-! ## C25: one fade-out worker and one fade-in worker at a time -/

namespace AudioStream

/-- What `play` does to the worker bookkeeping, on every path: it returns or
throws the open failure (it never trips the `assert` of `startFadeIn`), it
leaves the fade-out bookkeeping as the waits of `finiFadeOutInt` left it, and
the fade-in bookkeeping too unless it starts the fade-in worker. -/
theorem play_workers (env : Env) (c : AudioStream) (filename : String)
    (volume pitch : Int) (offset : ℚ) :
    ((c.play env filename volume pitch offset).2 = .ok ∨
      (c.play env filename volume pitch offset).2 = .threw (.SDLError filename)) ∧
    (c.play env filename volume pitch offset).1.fade = (c.finiFadeOutInt env).fade ∧
    ((c.play env filename volume pitch offset).1.fadeIn = (c.finiFadeOutInt env).fadeIn ∨
      (c.play env filename volume pitch offset).1.fadeIn = ⟨true, false, false, true⟩) := by
  obtain ⟨hcur, -, -, -⟩ := framed_finiFadeOutInt env c
  by_cases hfull : filename = c.current.filename ∧
      ((c.finiFadeOutInt env).stream.state = .Playing ∨
        (c.finiFadeOutInt env).stream.state = .Paused)
  · by_cases hsame : (clamp volume 0 100 : ℚ) / 100 = c.current.volume ∧
        (clamp pitch 50 150 : ℚ) / 100 = c.current.pitch
    · have h : c.play env filename volume pitch offset =
          (((c.finiFadeOutInt env).lockStream).unlockStream, .ok) := by
        unfold play
        simp only [lockStream, ALStream.queryState, hcur]
        rw [if_pos ⟨hfull.1, hsame.1, hsame.2, hfull.2⟩]
      rw [h]
      simp [lockStream, unlockStream]
    · unfold play
      simp only [lockStream, ALStream.queryState, hcur]
      rw [if_neg (fun h => hsame ⟨h.2.1, h.2.2.1⟩), if_pos hfull]
      simp [unlockStream, setVolume, updateVolume, record, streamSetPitch]
  · by_cases hopen : filename ≠ c.current.filename → env.canOpen filename = true
    · rw [play_full_eq env c filename volume pitch offset hfull hopen]
      have hs := playSwitch_spec env filename (c.finiFadeOutInt env).lockStream
        (by simp [lockStream]) (by simpa [lockStream, hcur] using hopen)
      have ht := playTail_spec env filename ((clamp volume 0 100 : ℚ) / 100)
        ((clamp pitch 50 150 : ℚ) / 100) offset
        (((c.finiFadeOutInt env).lockStream).playSwitch env filename)
        (by rw [hs.2.2.2.2.2.2.1]; simp [lockStream])
        (by rw [hs.2.2.2.2.2.1]; exact (finiFadeOutInt_handles env c).2)
      refine ⟨Or.inl ht.1, ?_, ?_⟩
      · rw [ht.2.2.2.2.2.2.1, hs.2.2.2.2.1]
        rfl
      · rw [ht.2.2.2.2.2.2.2.1, hs.2.2.2.2.2.1]
        by_cases hoff : 0 < offset
        · right; simp [hoff]
        · left; simp [hoff, lockStream]
    · push_neg at hopen
      obtain ⟨hd, ho⟩ := hopen
      have ho' : env.canOpen filename = false := by simpa using ho
      have hne : filename ≠ (c.finiFadeOutInt env).current.filename := by rw [hcur]; exact hd
      unfold play
      simp only [lockStream, ALStream.queryState]
      rw [if_neg (fun h => hne h.1), if_neg (fun h => hne h.1)]
      simp only [hne, ne_eq, not_false_eq_true, decide_True]
      split <;>
        simp [playStopped, playClosed, streamOpen, ALStream.open_, ho', streamStop, streamClose,
          record, unlockStream]

/-- Every step keeps the workers tracked, and no step trips the `assert`. -/
theorem step_tracked (env : Env) (c : AudioStream) (s : Step) (h : c.WorkersTracked) :
    ∃ c', c.step env s = some c' ∧ c'.WorkersTracked := by
  cases s with
  | play filename volume pitch offset =>
    obtain ⟨hok, hfade, hfadeIn⟩ := play_workers env c filename volume pitch offset
    obtain ⟨h1, h2, h3, h4⟩ := finiFadeOutInt_noWorker env c h
    refine ⟨(c.play env filename volume pitch offset).1, ?_, ?_, ?_⟩
    · unfold step
      cases hr : c.play env filename volume pitch offset with
      | mk c' o =>
        rw [hr] at hok
        rcases hok with hok | hok <;> simp only at hok <;> subst hok <;> simp [hr]
    · rw [hfade, h2]; simp
    · rcases hfadeIn with hf | hf <;> rw [hf] <;> simp [h4]
  | stop =>
    obtain ⟨h1, h2, h3, h4⟩ := finiFadeOutInt_noWorker env c h
    refine ⟨c.stop env, rfl, ?_⟩
    simp [WorkersTracked, stop, lockStream, unlockStream, streamStop, record, h2, h4]
  | fadeOut duration =>
    refine ⟨c.fadeOut duration, rfl, ?_⟩
    obtain ⟨hout, hin⟩ := h
    unfold WorkersTracked fadeOut
    dsimp only
    split_ifs <;> simp_all [lockStream, unlockStream, streamStop, record]
  | fadeOutPass curDur =>
    obtain ⟨hout, hin⟩ := h
    refine ⟨_, rfl, ?_⟩
    obtain ⟨w1, w2, w3, -⟩ := fadeOutThread_workers env curDur c
    split_ifs
    · exact ⟨fun ha => by rw [w2]; exact hout (w3 ha), by rw [w1]; exact hin⟩
    · exact ⟨hout, hin⟩
  | fadeInPass cur =>
    obtain ⟨hout, hin⟩ := h
    refine ⟨_, rfl, ?_⟩
    obtain ⟨w1, w2, w3, -⟩ := fadeInThread_workers env cur c
    split_ifs
    · exact ⟨by rw [w1]; exact hout, fun ha => by rw [w2]; exact hin (w3 ha)⟩
    · exact ⟨hout, hin⟩

/-- Every run from a channel with tracked workers is defined and ends in a
channel with tracked workers. -/
theorem run_tracked (env : Env) (steps : List Step) :
    ∀ c : AudioStream, c.WorkersTracked → ∃ c', c.run env steps = some c' ∧ c'.WorkersTracked := by
  induction steps with
  | nil => intro c h; exact ⟨c, rfl, h⟩
  | cons s steps ih =>
    intro c h
    obtain ⟨c₁, hs, h₁⟩ := step_tracked env c s h
    obtain ⟨c₂, hr, h₂⟩ := ih c₁ h₁
    exact ⟨c₂, by simp [run, hs, hr], h₂⟩

end AudioStream

/-- C25: every sequence of `play`, `stop` and `fadeOut` calls on a fresh
channel, interleaved in any way with passes of its fade workers, runs without
tripping the `assert` of `startFadeIn`, and in the channel `c` it reaches:
every running worker is the one its handle refers to; `play` never trips the
`assert`; once `play` or `stop` is past the waits of `finiFadeOutInt` no worker
is running and no handle is set, so the fade-in worker `play` may then create
is the only one; `fadeOut` on a channel whose fade-out worker is running
leaves the fade-out bookkeeping alone (it creates no second worker), and it
never touches the fade-in worker. -/
theorem workers_one_at_a_time (env : Env) (steps : List AudioStream.Step) :
    ∃ c, AudioStream.new.run env steps = some c ∧
      c.WorkersTracked ∧
      (∀ filename volume pitch offset,
        (c.play env filename volume pitch offset).2 ≠ .aborted) ∧
      (c.finiFadeOutInt env).NoWorker ∧
      (∀ d, c.fade.active = true → (c.fadeOut d).fade = c.fade) ∧
      (∀ d, (c.fadeOut d).fadeIn = c.fadeIn) := by
  obtain ⟨c, hrun, hc⟩ := AudioStream.run_tracked env steps AudioStream.new
    ⟨by simp [AudioStream.new], by simp [AudioStream.new]⟩
  refine ⟨c, hrun, hc, fun f v p o => ?_,
    AudioStream.finiFadeOutInt_noWorker env c hc, ?_, ?_⟩
  · rcases (AudioStream.play_workers env c f v p o).1 with h | h <;> rw [h] <;> simp
  · intro d ha
    simp [AudioStream.fadeOut, AudioStream.lockStream, AudioStream.unlockStream, ha]
  · intro d
    unfold AudioStream.fadeOut
    dsimp only
    split_ifs <;> simp [AudioStream.lockStream, AudioStream.unlockStream,
      AudioStream.streamStop, AudioStream.record]

/-! ## The lifecycle calls of `finiFadeOutInt` and of the full path of `play` -/

namespace AudioStream

theorem Issued.of_trace {c c' : AudioStream} (suffix : List (StreamOp × Bool))
    (h : c'.trace = c.trace ++ suffix) :
    Issued (suffix.filter (fun e => e.1.isLifecycle)) c c' :=
  ⟨suffix, h, rfl⟩

theorem Issued.of_quiet {c c' : AudioStream} (h : c.Quiet c') : Issued [] c c' := by
  obtain ⟨suffix, hs, hl⟩ := h.trace
  refine ⟨suffix, hs, ?_⟩
  rw [List.filter_eq_nil_iff]
  intro e he
  simp [hl e he]

theorem Issued.andThen {a b c : AudioStream} {ops₁ ops₂ : List (StreamOp × Bool)}
    (h₁ : Issued ops₁ a b) (h₂ : Issued ops₂ b c) : Issued (ops₁ ++ ops₂) a c := by
  obtain ⟨s₁, hs₁, hf₁⟩ := h₁
  obtain ⟨s₂, hs₂, hf₂⟩ := h₂
  exact ⟨s₁ ++ s₂, by rw [hs₂, hs₁, List.append_assoc], by rw [List.filter_append, hf₁, hf₂]⟩

/-- A pass of the fade-out worker that finds the terminate request is quiet. -/
theorem quiet_fadeOutThread_term (env : Env) (e : Nat) (c : AudioStream)
    (h : c.fade.reqTerm = true) : c.Quiet (c.fadeOutThread env e).1 := by
  unfold fadeOutThread
  simp only [h, if_true]
  exact quiet_fade c _ _

/-- Unless a fade-out worker without terminate request is running on a stream
that is not Paused, `finiFadeOutInt` is quiet. -/
theorem quiet_finiFadeOutInt_gen (env : Env) (c : AudioStream)
    (h : c.fade.thread = true → c.fade.active = true →
      c.stream.state = .Paused ∨ c.fade.reqTerm = true) :
    c.Quiet (c.finiFadeOutInt env) :=
  finiFadeOutInt_rel env Quiet Quiet.refl (fun _ _ _ => Quiet.trans) quiet_fade c
    (fun ht ha => by
      rcases h ht ha with hp | hterm
      · exact quiet_fadeOutThread env 0 _ hp
      · exact quiet_fadeOutThread_term env 0 _ hterm)
    (quiet_fadeInThread env 0)

/-- With a fade-out worker running, `finiFadeOutInt` is the last pass of that
worker followed by `finiFadeOutInt` on a channel without fade-out handle. -/
theorem finiFadeOutInt_running (env : Env) (c : AudioStream)
    (ht : c.fade.thread = true) (ha : c.fade.active = true) :
    c.finiFadeOutInt env =
      finiFadeOutInt env
        { (fadeOutThread env 0 { c with fade := { c.fade with reqFini := true } }).1 with
          fade := { (fadeOutThread env 0
            { c with fade := { c.fade with reqFini := true } }).1.fade with thread := false } } := by
  conv_lhs => unfold finiFadeOutInt
  conv_rhs => unfold finiFadeOutInt
  simp [ht, ha]

/-- The lifecycle calls of `finiFadeOutInt`: none, and the lifecycle state is
kept; or, when a fade-out worker without terminate request is running on a
stream that is not Paused, the `stop` of that worker's last pass. -/
theorem finiFadeOutInt_issued (env : Env) (c : AudioStream) :
    (Issued [] c (c.finiFadeOutInt env) ∧
      (c.finiFadeOutInt env).stream.state = c.stream.state ∧
      (c.fade.thread = true → c.fade.active = true →
        c.stream.state = .Paused ∨ c.fade.reqTerm = true)) ∨
    (Issued [(.stop, true)] c (c.finiFadeOutInt env) ∧
      (c.finiFadeOutInt env).stream.state = c.stream.stop.state ∧
      c.fade.thread = true ∧ c.fade.active = true ∧ c.stream.state ≠ .Paused ∧
      c.fade.reqTerm = false) := by
  by_cases h : c.fade.thread = true → c.fade.active = true →
      c.stream.state = .Paused ∨ c.fade.reqTerm = true
  · left
    have hq := quiet_finiFadeOutInt_gen env c h
    exact ⟨Issued.of_quiet hq, hq.state, h⟩
  · right
    push_neg at h
    obtain ⟨ht, ha, hp, hterm⟩ := h
    have hterm' : c.fade.reqTerm = false := by simpa using hterm
    rw [finiFadeOutInt_running env c ht ha]
    obtain ⟨-, -, x, -, hx, -, hstr, htr⟩ := fadeOutThread_leaves env
      { c with fade := { c.fade with reqFini := true } } 0 hterm' (Or.inr (Or.inr rfl))
    have hq := quiet_finiFadeOutInt env
      { (fadeOutThread env 0 { c with fade := { c.fade with reqFini := true } }).1 with
        fade := { (fadeOutThread env 0
          { c with fade := { c.fade with reqFini := true } }).1.fade with thread := false } }
      (fun h => by simp at h)
    have hxs : x.stream.state = c.stream.stop.state := by
      rw [hx]
      simp [hp, unlockStream, setVolume, updateVolume, record, streamStop, lockStream,
        ALStream.setVolume_state]
    have hxt : ∃ v, x.trace = c.trace ++ [(.stop, true), (.setVolume v, true)] := by
      rw [hx]
      simp [hp, unlockStream, setVolume, updateVolume, record, streamStop, lockStream]
    obtain ⟨v, hv⟩ := hxt
    refine ⟨?_, ?_, ht, ha, hp, hterm'⟩
    · have h1 : Issued [(.stop, true)] c
          { (fadeOutThread env 0 { c with fade := { c.fade with reqFini := true } }).1 with
            fade := { (fadeOutThread env 0
              { c with fade := { c.fade with reqFini := true } }).1.fade with thread := false } } :=
        ⟨[(.stop, true), (.setVolume v, true)], by simp [htr, hv], by
          simp [StreamOp.isLifecycle]⟩
      simpa using h1.andThen (Issued.of_quiet hq)
    · rw [hq.state]
      simp only
      rw [hstr, hxs]

end AudioStream

namespace AudioStream

/-- The full path of `play`, from the channel the waits of `finiFadeOutInt`
leave: the outcome, the settings, the flags, the lifecycle state and the
lifecycle calls issued. -/
theorem play_full_spec (env : Env) (c : AudioStream) (filename : String)
    (volume pitch : Int) (offset : ℚ)
    (hfull : ¬ (filename = c.current.filename ∧
      ((c.finiFadeOutInt env).stream.state = .Playing ∨
        (c.finiFadeOutInt env).stream.state = .Paused)))
    (hopen : filename ≠ c.current.filename → env.canOpen filename = true) :
    (c.play env filename volume pitch offset).2 = .ok ∧
    (c.play env filename volume pitch offset).1.current =
      ⟨filename, (clamp volume 0 100 : ℚ) / 100, (clamp pitch 50 150 : ℚ) / 100⟩ ∧
    (c.play env filename volume pitch offset).1.getVolume .Base = (clamp volume 0 100 : ℚ) / 100 ∧
    (c.play env filename volume pitch offset).1.extPaused = c.extPaused ∧
    (c.play env filename volume pitch offset).1.noResumeStop =
      (if c.extPaused = true then false else c.noResumeStop) ∧
    (c.play env filename volume pitch offset).1.lockDepth = c.lockDepth ∧
    (c.play env filename volume pitch offset).1.stream.state =
      (if c.extPaused = true then
        (if filename ≠ c.current.filename then .Stopped
          else if (c.finiFadeOutInt env).stream.state = .Playing ∨
            (c.finiFadeOutInt env).stream.state = .Paused then .Stopped
          else (c.finiFadeOutInt env).stream.state)
      else if filename = c.current.filename ∧ (c.finiFadeOutInt env).stream.state = .Closed
        then .Closed else .Playing) ∧
    Issued
      ((if (c.finiFadeOutInt env).stream.state = .Playing ∨
            (c.finiFadeOutInt env).stream.state = .Paused then [(.stop, true)] else []) ++
        (if (c.finiFadeOutInt env).stream.state ≠ .Closed ∧ filename ≠ c.current.filename
          then [(.close, true)] else []) ++
        (if filename ≠ c.current.filename then [(.opened filename, true)] else []) ++
        (if c.extPaused = true then [] else [(.play offset, true)]))
      (c.finiFadeOutInt env) (c.play env filename volume pitch offset).1 := by
  obtain ⟨hcur, hld, hext, hnr⟩ := framed_finiFadeOutInt env c
  rw [play_full_eq env c filename volume pitch offset hfull hopen]
  have hs := playSwitch_spec env filename (c.finiFadeOutInt env).lockStream
    (by simp [lockStream]) (by simpa [lockStream, hcur] using hopen)
  obtain ⟨hs1, hs2, hs3, hs4, hs5, hs6, hs7, hs8, hs9⟩ := hs
  have ht := playTail_spec env filename ((clamp volume 0 100 : ℚ) / 100)
    ((clamp pitch 50 150 : ℚ) / 100) offset
    (((c.finiFadeOutInt env).lockStream).playSwitch env filename)
    (by rw [hs7]; simp [lockStream])
    (by rw [hs6]; exact (finiFadeOutInt_handles env c).2)
  obtain ⟨ht1, ht2, ht3, ht4, ht5, ht6, ht7, ht8, ht9, pre, htr, hpre⟩ := ht
  have hext' : ((c.finiFadeOutInt env).lockStream).extPaused = c.extPaused := hext
  have hnr' : ((c.finiFadeOutInt env).lockStream).noResumeStop = c.noResumeStop := hnr
  have hcur' : ((c.finiFadeOutInt env).lockStream).current = c.current := hcur
  have hst' : ((c.finiFadeOutInt env).lockStream).stream = (c.finiFadeOutInt env).stream := rfl
  have htr' : ((c.finiFadeOutInt env).lockStream).trace = (c.finiFadeOutInt env).trace := rfl
  refine ⟨ht1, ht2, ht3, by rw [ht4, hs3, hext'], by rw [ht5, hs3, hs4, hext', hnr'],
    by rw [ht9, hs7]; simp [lockStream, hld], ?_, ?_⟩
  · rw [ht6, hs9, hs3, hext', hcur', hst']
    by_cases hd : filename = c.current.filename
    · have hns : ¬ ((c.finiFadeOutInt env).stream.state = .Playing ∨
          (c.finiFadeOutInt env).stream.state = .Paused) := fun h => hfull ⟨hd, h⟩
      simp [hd, hns]
    · simp [hd]
  · rw [hst', hcur', htr'] at hs8
    rw [hs3, hext'] at htr
    have hpre' : pre.filter (fun e => e.1.isLifecycle) = [] := by
      rw [List.filter_eq_nil_iff]
      intro e he
      simp [hpre e he]
    have h1 : Issued
        ((if (c.finiFadeOutInt env).stream.state = .Playing ∨
              (c.finiFadeOutInt env).stream.state = .Paused then [(.stop, true)] else []) ++
          (if (c.finiFadeOutInt env).stream.state ≠ .Closed ∧ filename ≠ c.current.filename
            then [(.close, true)] else []) ++
          (if filename ≠ c.current.filename then [(.opened filename, true)] else []))
        (c.finiFadeOutInt env) (((c.finiFadeOutInt env).lockStream).playSwitch env filename) := by
      refine ⟨_, hs8, ?_⟩
      simp only [List.filter_append]
      congr 1
      · congr 1
        · split_ifs <;> simp [StreamOp.isLifecycle]
        · split_ifs <;> simp [StreamOp.isLifecycle]
      · split_ifs <;> simp [StreamOp.isLifecycle]
    have h2 : Issued (if c.extPaused = true then [] else [(.play offset, true)])
        (((c.finiFadeOutInt env).lockStream).playSwitch env filename)
        ((((c.finiFadeOutInt env).lockStream).playSwitch env filename).playTail env filename
          ((clamp volume 0 100 : ℚ) / 100) ((clamp pitch 50 150 : ℚ) / 100) offset).1 := by
      refine ⟨_, htr, ?_⟩
      rw [List.filter_append, hpre', List.nil_append]
      split_ifs <;> simp [StreamOp.isLifecycle]
    exact h1.andThen h2

end AudioStream

/-! ## C23 and C24: what the full path of `play` issues on the stream -/

/-- C23, as stated, fails: on a fresh channel, which is not externally paused
and whose stream is Closed, `play("", 100, 100, 0)` takes the full path (the
filename is the current one, so nothing is opened) and issues `play(0)` on the
stream, but the stream is Closed afterwards, not Playing. -/
theorem play_leaves_closed_stream_closed :
    AudioStream.new.extPaused = false ∧
    AudioStream.new.stream.state = .Closed ∧
    (AudioStream.new.play env0 "" 100 100 0).2 = .ok ∧
    (AudioStream.new.play env0 "" 100 100 0).1.trace =
      [(.setVolume 1, true), (.setPitch 1, true), (.play 0, true)] ∧
    (AudioStream.new.play env0 "" 100 100 0).1.stream.state = .Closed := by
  simp [env0, AudioStream.new, AudioStream.play, AudioStream.finiFadeOutInt,
    AudioStream.lockStream, AudioStream.unlockStream, clamp, ALStream.queryState,
    AudioStream.playClosed, AudioStream.playTail, AudioStream.record,
    AudioStream.setVolume, AudioStream.updateVolume, ALStream.setVolume,
    AudioStream.streamSetPitch, ALStream.setPitch, AudioStream.streamPlay, ALStream.play]

/-- C23 (amended): when `play` takes the full path and the open, if there is
one, succeeds, it returns normally and issues `play(offset)` on the stream as
its last lifecycle call exactly when the channel is not externally paused.  On
an externally paused channel the stream is not Playing afterwards,
`noResumeStop` is clear, the channel is still externally paused, and the round
of the watcher's `MePlaying` loop on that channel issues `play` on its stream.
On a channel that is not externally paused the stream is Playing afterwards,
unless it was Closed and the filename is the current one. -/
theorem play_ducked_defers (env : Env) (c : AudioStream) (filename : String)
    (volume pitch : Int) (offset : ℚ)
    (hfull : ¬ (filename = c.current.filename ∧
      ((c.finiFadeOutInt env).stream.state = .Playing ∨
        (c.finiFadeOutInt env).stream.state = .Paused)))
    (hopen : filename ≠ c.current.filename → env.canOpen filename = true) :
    (c.play env filename volume pitch offset).2 = .ok ∧
    (∃ ops, AudioStream.Issued
        (ops ++ (if c.extPaused = true then [] else [(.play offset, true)]))
        c (c.play env filename volume pitch offset).1 ∧
      ∀ e ∈ ops, ∀ o, e.1 ≠ .play o) ∧
    (c.extPaused = true →
      (c.play env filename volume pitch offset).1.stream.state ≠ .Playing ∧
      (c.play env filename volume pitch offset).1.noResumeStop = false ∧
      (c.play env filename volume pitch offset).1.extPaused = true ∧
      ∃ v, (AudioPrivate.meEndedTrack env (c.play env filename volume pitch offset).1).1.trace =
        (c.play env filename volume pitch offset).1.trace ++
          [(.setVolume v, true), (.play 0, true)]) ∧
    (c.extPaused = false →
      ¬ (filename = c.current.filename ∧ c.stream.state = .Closed) →
      (c.play env filename volume pitch offset).1.stream.state = .Playing) := by
  obtain ⟨hok, -, -, hext, hnr, -, hst, hiss⟩ :=
    AudioStream.play_full_spec env c filename volume pitch offset hfull hopen
  have hclosed : (c.finiFadeOutInt env).stream.state = .Closed ↔ c.stream.state = .Closed := by
    rcases AudioStream.finiFadeOutInt_issued env c with ⟨-, h, -⟩ | ⟨-, h, -⟩
    · rw [h]
    · rw [h]
      unfold ALStream.stop
      split <;> simp_all
  refine ⟨hok, ?_, ?_, ?_⟩
  · have hfini : ∃ ops₀, AudioStream.Issued ops₀ c (c.finiFadeOutInt env) ∧
        ∀ e ∈ ops₀, ∀ o, e.1 ≠ .play o := by
      rcases AudioStream.finiFadeOutInt_issued env c with ⟨h, -⟩ | ⟨h, -⟩
      · exact ⟨[], h, by simp⟩
      · exact ⟨[(.stop, true)], h, by simp⟩
    obtain ⟨ops₀, h₀, hno⟩ := hfini
    refine ⟨ops₀ ++
      ((if (c.finiFadeOutInt env).stream.state = .Playing ∨
            (c.finiFadeOutInt env).stream.state = .Paused then [(.stop, true)] else []) ++
        (if (c.finiFadeOutInt env).stream.state ≠ .Closed ∧ filename ≠ c.current.filename
          then [(.close, true)] else []) ++
        (if filename ≠ c.current.filename then [(.opened filename, true)] else [])), ?_, ?_⟩
    · have h := h₀.andThen hiss
      simpa [List.append_assoc] using h
    · intro e he o
      rcases List.mem_append.1 he with h | h
      · exact hno e h o
      · rcases List.mem_append.1 h with h | h
        · rcases List.mem_append.1 h with h | h
          · split_ifs at h <;> simp_all
          · split_ifs at h <;> simp_all
        · split_ifs at h <;> simp_all
  · intro he
    rw [he] at hst hnr hext
    simp only [if_true] at hst hnr
    have hnp : (c.play env filename volume pitch offset).1.stream.state ≠ .Playing ∧
        (c.play env filename volume pitch offset).1.stream.state ≠ .Paused := by
      rw [hst]
      by_cases hd : filename = c.current.filename
      · have hns : ¬ ((c.finiFadeOutInt env).stream.state = .Playing ∨
            (c.finiFadeOutInt env).stream.state = .Paused) := fun h => hfull ⟨hd, h⟩
        simp only [hd, ne_eq, not_true_eq_false, if_false, hns]
        exact ⟨fun h => hns (Or.inl h), fun h => hns (Or.inr h)⟩
      · simp [hd]
    refine ⟨hnp.1, hnr, hext, ?_⟩
    rw [AudioPrivate.meEndedTrack_other env _ hnp.2, hnr]
    obtain ⟨v, hv⟩ := AudioStream.setVolume_trace env
      { (c.play env filename volume pitch offset).1.lockStream with extPaused := false }
      .External 1
    refine ⟨v, ?_⟩
    simp only [Bool.false_eq_true, if_false, AudioStream.unlockStream, AudioStream.streamPlay,
      AudioStream.record, hv]
    simp [AudioStream.lockStream, AudioStream.setVolume, AudioStream.updateVolume,
      AudioStream.record]
  · intro he hnc
    rw [hst, he]
    simp only [Bool.false_eq_true, if_false]
    rw [if_neg]
    rw [hclosed]
    exact hnc

/-- C23, witness: `play("field.ogg", 80, 100, 0)` on a ducked channel (paused
by the watcher, externally paused) issues no `play` and clears `noResumeStop`;
on the same channel before ducking it leaves the stream Playing. -/
theorem play_ducked_defers_witness :
    ((duckedTrack pausedChannel).play env0 "field.ogg" 80 100 0).1.stream.state ≠ .Playing ∧
    ((duckedTrack pausedChannel).play env0 "field.ogg" 80 100 0).1.noResumeStop = false ∧
    (townChannel.play env0 "field.ogg" 80 100 0).1.stream.state = .Playing := by
  have hd := (play_ducked_defers env0 (duckedTrack pausedChannel) "field.ogg" 80 100 0
    (fun h => by
      simp [duckedTrack, pausedChannel, townChannel_eq, AudioStream.lockStream,
        AudioStream.unlockStream, AudioStream.streamPause, AudioStream.record] at h)
    (fun _ => rfl)).2.2.1 (by simp [duckedTrack])
  have ht := (play_ducked_defers env0 townChannel "field.ogg" 80 100 0
    (fun h => by simp [townChannel_eq] at h) (fun _ => rfl)).2.2.2
    (by simp [townChannel_eq]) (by simp [townChannel_eq])
  exact ⟨hd.1, hd.2.1, ht⟩

/-- C24, as stated, fails: on a channel whose stream is Stopped while its
fade-out worker is still running, `play` with a new filename issues `stop` on
the stream (the worker's last pass) before `close` and `open`, although the
stream was neither Playing nor Paused. -/
theorem play_new_file_stops_stopped_stream :
    endedFadingChannel.stream.state = .Stopped ∧
    endedFadingChannel.current.filename ≠ "field.ogg" ∧
    (endedFadingChannel.play env0 "field.ogg" 80 100 0).1.trace = endedFadingChannel.trace ++
      [(.stop, true), (.setVolume (4 / 5), true), (.close, true), (.opened "field.ogg", true),
       (.setVolume (4 / 5), true), (.setPitch 1, true), (.play 0, true)] := by
  rw [endedFadingChannel, fadeStartChannel_eq, townChannel_eq]
  simp [env0, AudioStream.play, AudioStream.finiFadeOutInt,
    AudioStream.lockStream, AudioStream.unlockStream, clamp, ALStream.queryState,
    AudioStream.playClosed, AudioStream.playStopped, AudioStream.playTail,
    AudioStream.record, ALStream.stop, AudioStream.streamStop, AudioStream.streamClose,
    ALStream.close, AudioStream.streamOpen, ALStream.open_,
    AudioStream.setVolume, AudioStream.updateVolume, ALStream.setVolume,
    AudioStream.streamSetPitch, ALStream.setPitch, AudioStream.streamPlay, ALStream.play,
    AudioStream.fadeOutThread, AudioStream.getVolume]
  norm_num

/-- C24 (amended): unless a fade-out worker is still running on a stream that
is neither Playing nor Paused, `play` with a filename different from the
current one whose open succeeds returns normally and issues on the stream, in
this order, `stop` exactly when the stream was Playing or Paused, `close`
exactly when it was not Closed, `open(filename)`, and `play(offset)` unless the
channel is externally paused; afterwards the current filename, volume and
pitch are the filename and the clamped values, and the Base factor is the
current volume. -/
theorem play_new_file_order (env : Env) (c : AudioStream) (filename : String)
    (volume pitch : Int) (offset : ℚ)
    (hfile : filename ≠ c.current.filename) (hopen : env.canOpen filename = true)
    (hOut : c.fade.thread = true → c.fade.active = true →
      c.stream.state = .Playing ∨ c.stream.state = .Paused ∨ c.fade.reqTerm = true) :
    (c.play env filename volume pitch offset).2 = .ok ∧
    (c.play env filename volume pitch offset).1.current =
      ⟨filename, (clamp volume 0 100 : ℚ) / 100, (clamp pitch 50 150 : ℚ) / 100⟩ ∧
    (c.play env filename volume pitch offset).1.getVolume .Base =
      (c.play env filename volume pitch offset).1.current.volume ∧
    AudioStream.Issued
      ((if c.stream.state = .Playing ∨ c.stream.state = .Paused then [(.stop, true)] else []) ++
        (if c.stream.state ≠ .Closed then [(.close, true)] else []) ++
        [(.opened filename, true)] ++
        (if c.extPaused = true then [] else [(.play offset, true)]))
      c (c.play env filename volume pitch offset).1 := by
  obtain ⟨hok, hcur, hbase, -, -, -, -, hiss⟩ :=
    AudioStream.play_full_spec env c filename volume pitch offset (fun h => hfile h.1)
      (fun _ => hopen)
  refine ⟨hok, hcur, by rw [hbase, hcur], ?_⟩
  simp only [hfile, ne_eq, not_false_eq_true, and_true, if_true] at hiss
  rcases AudioStream.finiFadeOutInt_issued env c with ⟨h0, hs, -⟩ | ⟨h0, hs, ht, ha, hp, hterm⟩
  · rw [hs] at hiss
    simpa using h0.andThen hiss
  · have hplaying : c.stream.state = .Playing := by
      rcases hOut ht ha with h | h | h
      · exact h
      · exact absurd h hp
      · rw [hterm] at h; cases h
    have hstop : c.stream.stop.state = .Stopped := by simp [ALStream.stop, hplaying]
    rw [hs, hstop] at hiss
    have h := h0.andThen hiss
    simpa [hplaying] using h

/-- C24, witness: `play("field.ogg", 50, 200, 0)` on the channel that is playing
"town.ogg": `stop`, `close`, `open`, `play`, and the clamped settings. -/
theorem play_new_file_order_witness :
    (townChannel.play env0 "field.ogg" 50 200 0).2 = .ok ∧
    (townChannel.play env0 "field.ogg" 50 200 0).1.current =
      ⟨"field.ogg", (clamp 50 0 100 : ℚ) / 100, (clamp 200 50 150 : ℚ) / 100⟩ ∧
    AudioStream.Issued
      [(.stop, true), (.close, true), (.opened "field.ogg", true), (.play 0, true)]
      townChannel (townChannel.play env0 "field.ogg" 50 200 0).1 := by
  obtain ⟨h1, h2, -, h4⟩ := play_new_file_order env0 townChannel "field.ogg" 50 200 0
    (by simp [townChannel_eq]) rfl (by simp [townChannel_eq])
  refine ⟨h1, h2, ?_⟩
  simpa [townChannel_eq] using h4

/-! ## C28: the Base factor and the global BGM volume -/

namespace AudioStream

/-- Unless `play` takes the no-op path or the open fails, the Base factor is
the clamped volume afterwards. -/
theorem play_base (env : Env) (c : AudioStream) (filename : String)
    (volume pitch : Int) (offset : ℚ)
    (hnoop : ¬ (filename = c.current.filename ∧
      (clamp volume 0 100 : ℚ) / 100 = c.current.volume ∧
      (clamp pitch 50 150 : ℚ) / 100 = c.current.pitch ∧
      ((c.finiFadeOutInt env).stream.state = .Playing ∨
        (c.finiFadeOutInt env).stream.state = .Paused)))
    (hopen : filename ≠ c.current.filename → env.canOpen filename = true) :
    (c.play env filename volume pitch offset).2 = .ok ∧
    (c.play env filename volume pitch offset).1.getVolume .Base =
      (clamp volume 0 100 : ℚ) / 100 := by
  obtain ⟨hcur, -, -, -⟩ := framed_finiFadeOutInt env c
  by_cases hfull : filename = c.current.filename ∧
      ((c.finiFadeOutInt env).stream.state = .Playing ∨
        (c.finiFadeOutInt env).stream.state = .Paused)
  · unfold play
    simp only [lockStream, ALStream.queryState, hcur]
    rw [if_neg hnoop, if_pos hfull]
    simp [unlockStream, setVolume, updateVolume, record, streamSetPitch, getVolume]
  · obtain ⟨hok, -, hbase, -⟩ :=
      play_full_spec env c filename volume pitch offset hfull hopen
    exact ⟨hok, hbase⟩

end AudioStream

/-- `bgmPlay` on a valid track that is not the sentinel: the last-set volume of
the track is stored, and the track is played at the integer percentage
`(vol * bgm) / 100`. -/
theorem Audio.bgmPlay_eq (env : Env) (p : AudioPrivate) (filename : String)
    (volume pitch : Int) (pos : ℚ) (t : Nat) (tr : AudioStream)
    (htr : p.bgmTracks[t]? = some tr) :
    Audio.bgmPlay env filename volume pitch pos t p =
      ({ p with
          volume := { p.volume with
            bgmTracksCurrent := p.volume.bgmTracksCurrent.set t (clamp volume 0 100) }
          bgmTracks := p.bgmTracks.set t
            (tr.play env filename ((clamp volume 0 100 * p.volume.bgm).tdiv 100) pitch pos).1 },
        (tr.play env filename ((clamp volume 0 100 * p.volume.bgm).tdiv 100) pitch pos).2) := by
  have ht : t < p.bgmTracks.length := by
    by_contra h
    rw [List.getElem?_eq_none (by omega)] at htr
    cases htr
  have hs : (t : Int) ≠ -127 := by omega
  have hn : ¬ (t : Int) < 0 := by omega
  have hgt : ¬ (t : Int) > (p.bgmTracks.length : Int) - 1 := by omega
  simp [Audio.bgmPlay, AudioPrivate.setTrackCurrentVolumeByIndex,
    AudioPrivate.getTrackByIndex, hs, hn, hgt, clamp_clamp, htr]

/-- `bgmSetVolume` on a valid track that is not the sentinel. -/
theorem Audio.bgmSetVolume_eq (env : Env) (p : AudioPrivate) (v : Int) (t : Nat)
    (ht : t < p.bgmTracks.length) :
    Audio.bgmSetVolume env v t p =
      ({ p with
          volume := { p.volume with
            bgmTracksCurrent := p.volume.bgmTracksCurrent.set t (clamp v 0 100) }
          bgmTracks := p.bgmTracks.modify
            (AudioStream.setVolume env .Base
              ((clamp v 0 100 : ℚ) / 100 * (p.volume.bgm : ℚ) / 100)) t }, .ok) := by
  have hs : (t : Int) ≠ -127 := by omega
  have hn : ¬ (t : Int) < 0 := by omega
  have hgt : ¬ (t : Int) > (p.bgmTracks.length : Int) - 1 := by omega
  simp [Audio.bgmSetVolume, AudioPrivate.setTrackCurrentVolumeByIndex,
    AudioPrivate.getTrackByIndex, AudioPrivate.onTrack, hs, hn, hgt, clamp_clamp]

/-- C28, as stated, fails: with the global BGM volume at 50, `bgmPlay` at
volume 75 leaves the Base factor of the track at 37/100, not at
`50 * 75 / 10000 = 3/8`; `setGlobalBGMVolume(50)`, the current global value,
then moves it to 3/8. -/
theorem bgmPlay_truncates_base :
    quietTownMixer.volume.bgm = 50 ∧
    quietTownMixer.volume.bgmTracksCurrent = [75] ∧
    (quietTownMixer.bgmTracks[0]?).map (AudioStream.getVolume .Base) = some (37 / 100) ∧
    ((50 * 75 : Int) : ℚ) / 10000 = 3 / 8 ∧
    ((Audio.setGlobalBGMVolume env0 50 quietTownMixer).bgmTracks[0]?).map
      (AudioStream.getVolume .Base) = some (3 / 8) := by
  refine ⟨?_, ?_, ?_, by norm_num, ?_⟩
  all_goals
    simp [quietTownMixer, Audio.bgmPlay, Audio.setGlobalBGMVolume, Audio.setGlobalTrack,
      AudioPrivate.setTrackCurrentVolumeByIndex, AudioPrivate.getTrackByIndex,
      AudioPrivate.new, clamp, env0, AudioStream.new, AudioStream.play,
      AudioStream.finiFadeOutInt, AudioStream.lockStream, AudioStream.unlockStream,
      ALStream.queryState, AudioStream.playClosed, AudioStream.playTail,
      AudioStream.streamOpen, ALStream.open_, AudioStream.record, AudioStream.setVolume,
      AudioStream.updateVolume, AudioStream.streamSetPitch, AudioStream.streamPlay,
      AudioStream.getVolume, List.enum, ALStream.setVolume, ALStream.setPitch, ALStream.play,
      (by decide : Int.tdiv 3750 100 = 37)]
  norm_num

/-- C28 (amended): on a mixer whose per-track volume list is as long as its
track list, with `g` the global BGM volume and `cur` the per-track last-set
volumes: after `setGlobalBGMVolume(value)` the Base factor of every track `i`
is `clamp(value) * cur[i] / 10000` exactly; after `bgmSetVolume(v, t)` on a
valid track the Base factor of track `t` is `g * cur[t] / 10000` exactly, with
`cur[t] = clamp(v)`; after `bgmPlay` on a valid track `t`, when the track's
`play` does not take the no-op path and the open succeeds, `cur[t]` is
`clamp(volume)` and the Base factor of track `t` is the integer percentage
`(cur[t] * g) / 100` (integer division), clamped to 0..100, over 100. -/
theorem base_factor_after_volume_calls (env : Env) (p : AudioPrivate) (t : Nat)
    (tr : AudioStream) (htr : p.bgmTracks[t]? = some tr)
    (hlen : p.volume.bgmTracksCurrent.length = p.bgmTracks.length) :
    (∀ (value : Int) (i : Nat), i < p.bgmTracks.length →
      ((Audio.setGlobalBGMVolume env value p).bgmTracks[i]?).map (AudioStream.getVolume .Base) =
        some ((((Audio.setGlobalBGMVolume env value p).volume.bgm *
          (Audio.setGlobalBGMVolume env value p).volume.bgmTracksCurrent.getD i 0 : Int) : ℚ)
            / 10000) ∧
      (Audio.setGlobalBGMVolume env value p).volume.bgm = clamp value 0 100 ∧
      (Audio.setGlobalBGMVolume env value p).volume.bgmTracksCurrent =
        p.volume.bgmTracksCurrent) ∧
    (∀ v : Int,
      ((Audio.bgmSetVolume env v t p).1.bgmTracks[t]?).map (AudioStream.getVolume .Base) =
        some ((((Audio.bgmSetVolume env v t p).1.volume.bgm *
          (Audio.bgmSetVolume env v t p).1.volume.bgmTracksCurrent.getD t 0 : Int) : ℚ)
            / 10000) ∧
      (Audio.bgmSetVolume env v t p).1.volume.bgmTracksCurrent.getD t 0 = clamp v 0 100 ∧
      (Audio.bgmSetVolume env v t p).1.volume.bgm = p.volume.bgm) ∧
    (∀ (filename : String) (volume pitch : Int) (pos : ℚ),
      ¬ (filename = tr.current.filename ∧
        (clamp ((clamp volume 0 100 * p.volume.bgm).tdiv 100) 0 100 : ℚ) / 100
          = tr.current.volume ∧
        (clamp pitch 50 150 : ℚ) / 100 = tr.current.pitch ∧
        ((tr.finiFadeOutInt env).stream.state = .Playing ∨
          (tr.finiFadeOutInt env).stream.state = .Paused)) →
      (filename ≠ tr.current.filename → env.canOpen filename = true) →
      (Audio.bgmPlay env filename volume pitch pos t p).2 = .ok ∧
      ((Audio.bgmPlay env filename volume pitch pos t p).1.bgmTracks[t]?).map
          (AudioStream.getVolume .Base) =
        some ((clamp (((Audio.bgmPlay env filename volume pitch pos t p).1.volume.bgmTracksCurrent.getD
            t 0 * (Audio.bgmPlay env filename volume pitch pos t p).1.volume.bgm).tdiv 100)
          0 100 : ℚ) / 100) ∧
      (Audio.bgmPlay env filename volume pitch pos t p).1.volume.bgmTracksCurrent.getD t 0 =
        clamp volume 0 100 ∧
      (Audio.bgmPlay env filename volume pitch pos t p).1.volume.bgm = p.volume.bgm) := by
  have ht : t < p.bgmTracks.length := by
    by_contra h
    rw [List.getElem?_eq_none (by omega)] at htr
    cases htr
  have hget : ∀ x : Int, (p.volume.bgmTracksCurrent.set t x).getD t 0 = x := by
    intro x
    rw [List.getD_eq_getElem?_getD, List.getElem?_set_self (by omega)]
    rfl
  refine ⟨?_, ?_, ?_⟩
  · intro value i hi
    obtain ⟨ti, hti⟩ : ∃ ti, p.bgmTracks[i]? = some ti := ⟨p.bgmTracks[i], by simp [hi]⟩
    refine ⟨?_, rfl, rfl⟩
    simp only [Audio.setGlobalBGMVolume, List.getElem?_map, List.getElem?_enum, hti,
      Option.map_some', Option.map_eq_map, Audio.setGlobalTrack]
    simp [AudioStream.unlockStream, AudioStream.setVolume, AudioStream.updateVolume,
      AudioStream.record, AudioStream.getVolume]
  · intro v
    rw [Audio.bgmSetVolume_eq env p v t ht]
    refine ⟨?_, hget _, rfl⟩
    simp only [List.getElem?_modify_eq, htr, Option.map_some', Option.map_eq_map,
      AudioStream.getVolume_setVolume_self, hget]
    congr 1
    push_cast
    ring
  · intro filename volume pitch pos hnoop hopen
    rw [Audio.bgmPlay_eq env p filename volume pitch pos t tr htr]
    obtain ⟨hok, hbase⟩ := AudioStream.play_base env tr filename
      ((clamp volume 0 100 * p.volume.bgm).tdiv 100) pitch pos hnoop hopen
    refine ⟨hok, ?_, hget _, rfl⟩
    simp only [List.getElem?_set_self ht, Option.map_some', hbase, hget]

/-- C28, witness: on a fresh one-track mixer, `setGlobalBGMVolume(50)` gives
the Base factor 1/2, and `bgmPlay("town.ogg", 75, 100, 0, 0)` the Base factor
`(75 * 100) / 100 = 75` percent. -/
theorem base_factor_after_volume_calls_witness :
    ((Audio.setGlobalBGMVolume env0 50 (AudioPrivate.new 1)).bgmTracks[0]?).map
        (AudioStream.getVolume .Base) =
      some ((((Audio.setGlobalBGMVolume env0 50 (AudioPrivate.new 1)).volume.bgm *
        (Audio.setGlobalBGMVolume env0 50
          (AudioPrivate.new 1)).volume.bgmTracksCurrent.getD 0 0 : Int) : ℚ) / 10000) ∧
    (Audio.bgmPlay env0 "town.ogg" 75 100 0 (0 : Nat) (AudioPrivate.new 1)).2 = .ok := by
  have h := base_factor_after_volume_calls env0 (AudioPrivate.new 1) 0 AudioStream.new
    (by simp [AudioPrivate.new]) (by simp [AudioPrivate.new])
  refine ⟨(h.1 50 0 (by simp [AudioPrivate.new])).1, ?_⟩
  exact (h.2.2 "town.ogg" 75 100 0 (by simp [AudioStream.new])
    (fun _ => rfl)).1

/-! ## C29: negative track indices -/

theorem townMixer_eq : townMixer =
    { AudioPrivate.new 1 with
      bgmTracks := [townChannel]
      volume := { bgm := 100, sfx := 100, bgmTracksCurrent := [80], bgsCurrent := 100,
                  meCurrent := 100 } } := by
  simp [townMixer, Audio.bgmPlay, AudioPrivate.setTrackCurrentVolumeByIndex,
    AudioPrivate.getTrackByIndex, AudioPrivate.new, clamp, townChannel,
    (by decide : Int.tdiv 8000 100 = 80)]

/-- C26, the code at the failing input: `bgmFade(-1000, 0)` on a Playing track
starts the fade-out worker with a negative step; its pass 500 ms later sets
the FadeOut factor to 3/2 and pushes the volume 6/5, above the global ceiling
1, and the worker goes on. -/
theorem negative_fade_raises_volume :
    (Audio.bgmFade (-1000) 0 townMixer).2 = .ok ∧
    ((Audio.bgmFade (-1000) 0 townMixer).1.bgmTracks[0]?).map
      (fun t => (t.stream.state, t.fade.thread, t.fade.active,
        (t.fadeOutThread env0 500).2,
        (t.fadeOutThread env0 500).1.getVolume .FadeOut,
        (t.fadeOutThread env0 500).1.stream.gain)) =
      some (.Playing, true, true, true, 3 / 2, 6 / 5) := by
  rw [townMixer_eq, townChannel_eq]
  simp [Audio.bgmFade, AudioPrivate.getTrackByIndex, AudioPrivate.onTrack, AudioPrivate.new,
    AudioStream.fadeOut, AudioStream.fadeOutThread, AudioStream.lockStream,
    AudioStream.unlockStream, ALStream.queryState, AudioStream.setVolume,
    AudioStream.updateVolume, AudioStream.record, ALStream.setVolume, AudioStream.getVolume,
    env0]
  norm_num

/-- C27, the code at the failing input: an ME that starts and is stopped
before the fade-out of the BGM is over.  The watcher marks the track as
externally paused (`MeNotPlaying` to `BgmFadingOut`), goes to `BgmFadingIn`
when the ME is over, which clears no flag, and is back in `MeNotPlaying` with
the track still marked.  A `bgmPlay` of a new file after that issues no
`play` on the stream: the track stays Stopped. -/
theorem short_me_leaves_track_ducked :
    shortMeMixer.map (fun p => (p.meWatchState, p.me.stream.state,
        p.bgmTracks.map (fun t => (t.extPaused, t.getVolume .External, t.stream.state)))) =
      some (.MeNotPlaying, .Stopped, [(true, 1, .Playing)]) ∧
    shortMeMixer.map (fun p =>
        (Audio.bgmPlay env0 "field.ogg" 80 100 0 0 p).1.bgmTracks.map
          (fun t => (t.current.filename, t.stream.state))) =
      some [("field.ogg", .Stopped)] := by
  rw [shortMeMixer, townMixer_eq, townChannel_eq]
  constructor <;>
  simp [Audio.mePlay, Audio.meStop, AudioPrivate.meWatchFun, AudioPrivate.meWatchRun,
    AudioPrivate.new, AudioStream.new, AudioStream.play, AudioStream.stop,
    AudioStream.finiFadeOutInt, AudioStream.lockStream, AudioStream.unlockStream,
    ALStream.queryState, AudioStream.playClosed, AudioStream.playStopped, AudioStream.playTail,
    AudioStream.streamOpen, AudioStream.streamStop, AudioStream.streamClose,
    ALStream.open_, ALStream.stop, ALStream.close, ALStream.play, ALStream.setVolume,
    ALStream.setPitch, AudioStream.record, AudioStream.setVolume,
    AudioStream.updateVolume, AudioStream.streamSetPitch, AudioStream.streamPlay,
    AudioStream.getVolume, AudioPrivate.fadeInStep, env0, clamp,
    Audio.bgmPlay, AudioPrivate.setTrackCurrentVolumeByIndex, AudioPrivate.getTrackByIndex,
    (by decide : Int.tdiv 10000 100 = 100), (by decide : Int.tdiv 8000 100 = 80)]

/-! ## C30: the normalised vector of a `Color` -/

/-- The four setters in a row store the values given and normalise each
component after clamping it to 0..255. -/
theorem Color.setters_eq (r g b a : ℚ) (c : Color) :
    (((c.setRed r).setGreen g).setBlue b).setAlpha a =
      { red := r, green := g, blue := b, alpha := a,
        norm := ⟨clampD r 0 255 / 255, clampD g 0 255 / 255, clampD b 0 255 / 255,
          clampD a 0 255 / 255⟩ } := by
  simp [Color.setRed, Color.setGreen, Color.setBlue, Color.setAlpha]

/-- The constructor, `set` and `deserialize` store the values given and
normalise each component without clamping it. -/
theorem Color.new_eq (r g b a : ℚ) (c : Color) :
    Color.new r g b a =
      { red := r, green := g, blue := b, alpha := a,
        norm := ⟨r / 255, g / 255, b / 255, a / 255⟩ } ∧
    c.set r g b a = Color.new r g b a ∧
    Color.deserialize (r, g, b, a) 32 = some (Color.new r g b a) := by
  simp [Color.new, Color.set, Color.deserialize, Color.updateInternal]

/-- For components within 0..255 the two ways of building a `Color` agree. -/
theorem Color.new_eq_setters_in_range (r g b a : ℚ) (c : Color)
    (hr : 0 ≤ r ∧ r ≤ 255) (hg : 0 ≤ g ∧ g ≤ 255) (hb : 0 ≤ b ∧ b ≤ 255)
    (ha : 0 ≤ a ∧ a ≤ 255) :
    Color.new r g b a = (((c.setRed r).setGreen g).setBlue b).setAlpha a := by
  rw [Color.setters_eq, (Color.new_eq r g b a c).1]
  simp [clampD, not_lt.2 hr.1, not_lt.2 hr.2, not_lt.2 hg.1, not_lt.2 hg.2, not_lt.2 hb.1,
    not_lt.2 hb.2, not_lt.2 ha.1, not_lt.2 ha.2]

/-- C30, the code at the failing input: for the components (300, 0, 0, 255)
the constructor, `set` and `deserialize` store 300 and normalise red to
`300 / 255 = 20/17`, while `setRed(300)`, `setGreen(0)`, `setBlue(0)`,
`setAlpha(255)` store 300 and normalise red to 1. -/
theorem color_constructor_skips_clamp :
    (Color.new 300 0 0 255).red = 300 ∧
    (Color.new 300 0 0 255).norm = ⟨20 / 17, 0, 0, 1⟩ ∧
    ((Color.new 0 0 0 0).set 300 0 0 255).norm = ⟨20 / 17, 0, 0, 1⟩ ∧
    (Color.deserialize (300, 0, 0, 255) 32).map (fun c => c.norm) = some ⟨20 / 17, 0, 0, 1⟩ ∧
    (((((Color.new 0 0 0 0).setRed 300).setGreen 0).setBlue 0).setAlpha 255).red = 300 ∧
    (((((Color.new 0 0 0 0).setRed 300).setGreen 0).setBlue 0).setAlpha 255).norm =
      ⟨1, 0, 0, 1⟩ := by
  refine ⟨?_, ?_, ?_, ?_, ?_, ?_⟩ <;>
    simp [Color.new, Color.set, Color.deserialize, Color.updateInternal, Color.setRed,
      Color.setGreen, Color.setBlue, Color.setAlpha, clampD] <;>
    norm_num
